import Mathlib

/-!
# BizMap client library

A shallow embedding of the C++ client library (`cpp-lib`): the data model of
`models.h`, the HTTP wrapper of `http_client.cpp`, the codec of
`json_converters.cpp`, the Domain Client of `api_client.cpp` and the C bridge of
`bizmap_c_api.cpp`, followed by the properties established about them.

Conventions of the embedding.

* A C++ function that can throw returns `Except Fault _`.
* Callbacks are continuations over an explicit `World`, which holds the heap of
  live `CallbackContext` objects and the trace of observable events.  A call
  through a C function pointer into the host is an event of the trace.
* A handle is `none` (null) or `some c`, the state `c` of the live client it
  points to; a function that can change the client returns the new state.
* A nullable `const char*` is an `Option String`, the text it points to; a
  `void*` or a function pointer is a `Nat`, with `0` the null pointer.  Where a
  `std::string` is handed over as a `const char*` (`c_str()`), what arrives is
  the text up to its first NUL character: `c_str`.
* An `int` is an `Int`; a `double` is given by its IEEE-754 bit fields.
* The collaborators that live outside the repository (the build flag for TLS,
  the text `ostream` prints for a `double`, which depends on the locale, the
  stack left to the recursion of `std::regex_match`, and the outcome of the
  blocking httplib exchange) are the fields of `Env`.
-/

namespace BizMap

/-! ## Scalars -/

/-- An IEEE-754 binary64 value, by its sign bit, its biased exponent (read
modulo 2048) and its fraction (read modulo 2^52). -/
structure Double where
  sign : Bool
  exponent : Nat
  fraction : Nat
deriving DecidableEq, Repr

namespace Double

/-- Value `+0.0`. -/
def zero : Double := ⟨false, 0, 0⟩

/-- Value `-0.0`. -/
def neg_zero : Double := ⟨true, 0, 0⟩

/-- Test `d == 0.0`: both zeros compare equal to zero, nothing else does. -/
def is_zero (d : Double) : Bool :=
  d.exponent % 2048 == 0 && d.fraction % 2 ^ 52 == 0

/-- Test for a NaN: all exponent bits set and a non-zero fraction. -/
def is_nan (d : Double) : Bool :=
  d.exponent % 2048 == 2047 && d.fraction % 2 ^ 52 != 0

/-- Test `d != 0.0` (true for a NaN). -/
def ne_zero (d : Double) : Bool := !d.is_zero

/-- Test `d >= 0` (false for a NaN, true for both zeros). -/
def ge_zero (d : Double) : Bool :=
  d.is_zero || (!d.sign && !d.is_nan)

/-- Test `d < 0` (false for a NaN and for both zeros). -/
def lt_zero (d : Double) : Bool :=
  d.sign && !d.is_zero && !d.is_nan

end Double

/-- A member of fundamental type after default-initialisation: it holds an
indeterminate value until something is assigned to it. -/
inductive Scalar (α : Type) where
  | indeterminate : Scalar α
  | value (a : α) : Scalar α
deriving DecidableEq, Repr

/-- What can end a call before it returns: the two C++ exceptions the library
can raise, the memory errors of the `CallbackContext` protocol, and the
exhaustion of the stack. -/
inductive Fault where
  | out_of_range
  | runtime_error (what : String)
  | null_dereference
  | use_after_free
  | double_free
  | stack_overflow
deriving DecidableEq, Repr

/-- Whether the fault is a C++ exception, which a handler such as `catch (...)`
intercepts.  The others are not thrown: they end the process, whatever handler
is in scope. -/
def Fault.is_exception : Fault → Bool
  | .out_of_range => true
  | .runtime_error _ => true
  | _ => false

/-- The C string at the start of a text: its characters up to the first NUL.
It is what the receiver of `text.c_str()` reads, and what a `std::string` made
from a `const char*` holds. -/
def c_str (text : String) : String :=
  String.mk (text.toList.takeWhile (fun c => c != '\x00'))

/-! ## Data model (`models.h`) -/

structure GeoLocation where
  latitude : Double
  longitude : Double
deriving DecidableEq, Repr

/-- Default constructor `GeoLocation()`. -/
def GeoLocation.default : GeoLocation := ⟨Double.zero, Double.zero⟩

structure User where
  id : String
  username : String
  email : String
  full_name : String
  phone : String
  is_active : Scalar Bool
  created_at : Scalar Int
  updated_at : Scalar Int
deriving DecidableEq, Repr

structure RegisterRequest where
  username : String
  email : String
  password : String
  full_name : String
  phone : String
deriving DecidableEq, Repr

structure AuthResponse where
  access_token : String
  refresh_token : String
  token_type : String
  expires_in : Int
deriving DecidableEq, Repr

structure Business where
  id : String
  owner_id : String
  name : String
  description : String
  category : String
  phone : String
  email : String
  website : String
  address : String
  location : GeoLocation
  rating : Scalar Double
  total_reviews : Scalar Int
  is_verified : Scalar Bool
  is_active : Scalar Bool
  images : List String
  created_at : Scalar Int
  updated_at : Scalar Int
  distance_meters : Option Double
deriving DecidableEq, Repr

structure BusinessSearchParams where
  query : String
  category : Option String
  location : Option GeoLocation
  radius_meters : Option Int
  limit : Int
  offset : Int
deriving DecidableEq, Repr

/-- Default member initialisers of `BusinessSearchParams`. -/
def BusinessSearchParams.default : BusinessSearchParams :=
  { query := "", category := none, location := none, radius_meters := none,
    limit := 20, offset := 0 }

structure Product where
  id : String
  business_id : String
  name : String
  description : String
  price : Scalar Double
  currency : String
  category : String
  is_available : Scalar Bool
  stock_quantity : Scalar Int
  images : List String
  created_at : Scalar Int
  updated_at : Scalar Int
deriving DecidableEq, Repr

structure ProductWithBusiness where
  product : Product
  business : Business
  distance_meters : Option Double
deriving DecidableEq, Repr

structure ProductSearchParams where
  query : String
  category : Option String
  location : Option GeoLocation
  radius_meters : Option Int
  min_price : Option Double
  max_price : Option Double
  limit : Int
  offset : Int
deriving DecidableEq, Repr

/-- Default member initialisers of `ProductSearchParams`. -/
def ProductSearchParams.default : ProductSearchParams :=
  { query := "", category := none, location := none, radius_meters := none,
    min_price := none, max_price := none, limit := 20, offset := 0 }

structure SearchHistoryEntry where
  id : String
  user_id : String
  query : String
  category : String
  location : GeoLocation
  created_at : Scalar Int
deriving DecidableEq, Repr

structure UserRecommendations where
  popular_searches : List String
  popular_categories : List String
deriving DecidableEq, Repr

structure ApiError where
  status_code : Int
  error_message : String
  error_code : String
deriving DecidableEq, Repr

/-- Constructor `ApiError(code, message)`. -/
def ApiError.mk2 (code : Int) (message : String) : ApiError :=
  { status_code := code, error_message := message, error_code := "" }

/-! ## The HTTP wrapper (`http_client.h`, `http_client.cpp`) -/

/-- Type `HttpClient::Headers`, a map from header name to value, as the list of
its entries in the order the source writes them (the order in which a map
iterates is not used by any property below). -/
abbrev Headers := List (String × String)

/-- Assignment `headers[key] = value`. -/
def Headers.set (headers : Headers) (key value : String) : Headers :=
  if headers.any (fun kv => kv.1 == key) then
    headers.map (fun kv => if kv.1 == key then (key, value) else kv)
  else headers ++ [(key, value)]

inductive Method where
  | GET
  | POST
  | PUT
  | DELETE
deriving DecidableEq, Repr

/-- One call of `httplib::Client::Get`, `Post`, `Put` or `Delete`. -/
structure Request where
  method : Method
  path : String
  headers : Headers
  body : String
  content_type : String
deriving DecidableEq, Repr

/-- The object behind `client_`: an `httplib::Client`, or an
`httplib::SSLClient` when `ssl` is set, with the timeouts given to it. -/
structure HttplibClient where
  ssl : Bool
  host : String
  port : Int
  read_timeout_sec : Int
  write_timeout_sec : Int
deriving DecidableEq, Repr

/-- The enumerators of `httplib::Error` that `HttpClient::get` tells apart;
`Other` stands for every enumerator that reaches the `default` label. -/
inductive HttplibError where
  | Connection
  | BindIPAddress
  | Read
  | Write
  | ExceedRedirectCount
  | Canceled
  | SSLConnection
  | SSLLoadingCerts
  | SSLServerVerification
  | UnsupportedMultipartBoundaryChars
  | Other
deriving DecidableEq, Repr

/-- An `httplib::Result`: a response with its status and body, or no response
and an error code. -/
inductive HttplibResult where
  | response (status : Int) (body : String)
  | error (err : HttplibError)
deriving DecidableEq, Repr

/-- What the library takes from outside the repository. -/
structure Env where
  /-- Whether `CPPHTTPLIB_OPENSSL_SUPPORT` is defined in the build. -/
  openssl_support : Bool
  /-- The text `std::ostream` writes for a `double`. -/
  ostream_double : Double → String
  /-- That text holds no NUL character: the stream writes digits, a sign, the
  decimal point and the separators of the locale, an exponent, `inf` or `nan`. -/
  ostream_text : ∀ x, '\x00' ∉ (ostream_double x).toList
  /-- Whether the recursion of `std::regex_match` on the URL pattern exhausts
  the stack for a text (asked only of texts longer than `regex_short`). -/
  regex_overflows : String → Bool
  /-- The outcome of the blocking exchange httplib performs for a request. -/
  exchange : HttplibClient → Request → HttplibResult

/-- Quotient `n / d` rounded to the nearest integer, a tie going to the even
one. -/
def div_round_half_even (n d : Nat) : Nat :=
  let q := n / d
  let r := n % d
  if 2 * r < d then q else if d < 2 * r then q + 1 else if q % 2 = 0 then q else q + 1

/-- Drop the zeros that end a run of fraction digits. -/
def strip_trailing_zeros (digits : List Char) : List Char :=
  (digits.reverse.dropWhile (fun c => c == '0')).reverse

/-- A decimal point and the fraction digits, or nothing when no digit is left
once the trailing zeros are dropped. -/
def fraction_text (digits : List Char) : List Char :=
  match strip_trailing_zeros digits with
  | [] => []
  | kept => '.' :: kept

/-- The exponent part of scientific notation, for the decimal exponent
`k - 401`: the `e`, the sign, and at least two digits. -/
def exponent_text (k : Nat) : List Char :=
  let exponent_digits := Nat.toDigits 10 (if 401 ≤ k then k - 401 else 401 - k)
  ['e', if 401 ≤ k then '+' else '-']
    ++ (if exponent_digits.length < 2 then '0' :: exponent_digits else exponent_digits)

/-- The conversion `%g` with precision 6, once the six significant digits and
the decimal exponent `X = k - 401` of the rounded value are known: fixed
notation when `-4 ≤ X < 6`, scientific notation otherwise, trailing zeros
removed in both. -/
def g6_layout (k : Nat) (digits : List Char) : List Char :=
  if 397 ≤ k ∧ k < 407 then
    if 401 ≤ k then
      digits.take (k - 400) ++ fraction_text (digits.drop (k - 400))
    else
      '0' :: fraction_text (List.replicate (400 - k) '0' ++ digits)
  else
    digits.take 1 ++ fraction_text (digits.drop 1) ++ exponent_text k

/-- The conversion `%g` with precision 6 of the positive rational `n / d`, as
`printf` defines it: six significant digits, rounded to nearest-even, then the
layout.  The decimal exponent is kept as `k = X + 401`, a natural number for
every `double`: `k` counts the `j < 800` with `10^(j-400) ≤ n/d`. -/
def format_g6 (n d : Nat) : List Char :=
  let k := ((List.range 800).filter (fun j => d * 10 ^ j ≤ n * 10 ^ 400)).length
  let m := div_round_half_even (n * 10 ^ (806 - k)) (d * 10 ^ 400)
  let k := if m = 10 ^ 6 then k + 1 else k
  let m := if m = 10 ^ 6 then 10 ^ 5 else m
  g6_layout k (Nat.toDigits 10 m)

/-- The text `std::ostream` writes for a `double` when its flags are the default
ones and the locale is the classic one: the conversion `%g` with precision 6.
A finite non-zero value is `mantissa * 2^(e2 - 1075)`. -/
def ostream_double_classic (x : Double) : String :=
  let e := x.exponent % 2048
  let f := x.fraction % 2 ^ 52
  let sign : List Char := if x.sign then ['-'] else []
  String.mk <| sign ++
    if e = 2047 then (if f = 0 then "inf".toList else "nan".toList)
    else if e = 0 ∧ f = 0 then ['0']
    else
      let mantissa := if e = 0 then f else 2 ^ 52 + f
      let e2 := if e = 0 then 1 else e
      if 1075 ≤ e2 then format_g6 (mantissa * 2 ^ (e2 - 1075)) 1
      else format_g6 mantissa (2 ^ (1075 - e2))

/-- The text `std::ostream` and `std::to_string` write for an `int`. -/
def int_to_string (i : Int) : String := toString i

structure HttpClient where
  host_ : String
  port_ : Int
  scheme_ : String
  client_ : Option HttplibClient
  timeout_seconds_ : Int
deriving DecidableEq, Repr

/-- The sub-matches of `url_regex`: groups 1 to 4, group 3 unmatched when the
URL has no port. -/
structure UrlMatch where
  scheme : String
  host : String
  port : Option String
  rest : String
deriving DecidableEq, Repr

/-- Characters the ECMAScript `.` does not match. -/
def is_line_terminator (c : Char) : Bool := c == '\n' || c == '\r'

/-- Characters of the class `[^:/]`. -/
def is_host_char (c : Char) : Bool := c != ':' && c != '/'

/-- What `std::regex_match` against `^(https?)://([^:/]+)(?::(\d+))?(.*)$`
finds when it returns (whether it returns is `regex_match`).  Every quantifier
is greedy, and giving characters back never helps: whatever a shorter group 2
or group 3 releases must then be matched by `(.*)`, which already failed on a
suffix of it.  So the match, when there is one, is the greedy one. -/
def url_regex_match (s : String) : Option UrlMatch :=
  let cs := s.toList
  let after_scheme : Option (String × List Char) :=
    if "https://".toList.isPrefixOf cs then some ("https", cs.drop 8)
    else if "http://".toList.isPrefixOf cs then some ("http", cs.drop 7)
    else none
  match after_scheme with
  | none => none
  | some (scheme, r) =>
    let host := r.takeWhile is_host_char
    let after_host := r.dropWhile is_host_char
    if host.isEmpty then none
    else
      let port_rest : Option (List Char) × List Char :=
        match after_host with
        | ':' :: r3 =>
          let digits := r3.takeWhile Char.isDigit
          if digits.isEmpty then (none, after_host)
          else (some digits, r3.dropWhile Char.isDigit)
        | _ => (none, after_host)
      if port_rest.2.any is_line_terminator then none
      else some
        { scheme := scheme
          host := String.mk host
          port := port_rest.1.map String.mk
          rest := String.mk port_rest.2 }

/-- Largest value of an `int`. -/
def INT_MAX : Int := 2147483647

/-- Value of a string of decimal digits. -/
def decimal_value (digits : String) : Nat :=
  digits.toList.foldl (fun acc c => 10 * acc + (c.toNat - '0'.toNat)) 0

/-- Call `std::stoi` on a non-empty string of decimal digits: the value, or
`std::out_of_range` when it does not fit an `int`. -/
def stoi (digits : String) : Except Fault Int :=
  if (decimal_value digits : Int) ≤ INT_MAX then .ok (decimal_value digits)
  else .error .out_of_range

/-- A length up to which the recursion of `std::regex_match` on the URL pattern
is taken to fit the stack of every build. -/
def regex_short : Nat := 256

/-- Whether `std::regex_match` on the URL pattern returns for the text: the text
has at most `regex_short` characters, or the build has stack enough for it. -/
def Env.regex_returns (env : Env) (text : String) : Bool :=
  decide (text.length ≤ regex_short) || !env.regex_overflows text

/-- Call `std::regex_match(host, matches, url_regex)`.  The matcher of the
standard library recurses for every character it takes, so that on a long text
it can exhaust the stack; that is not an exception, and ends the process.
When the call returns, it returns what `url_regex_match` finds. -/
def regex_match (env : Env) (text : String) : Except Fault (Option UrlMatch) :=
  if env.regex_returns text then pure (url_regex_match text)
  else throw Fault.stack_overflow

/-- Method `HttpClient::parseHost`. -/
def HttpClient.parseHost (env : Env) (self : HttpClient) (host : String) :
    Except Fault HttpClient := do
  match ← regex_match env host with
  | some found =>
    let self := { self with scheme_ := found.scheme, host_ := found.host }
    match found.port with
    | some digits =>
      let port ← stoi digits
      pure { self with port_ := port }
    | none => pure { self with port_ := if self.scheme_ == "https" then 443 else 80 }
  | none => pure { self with scheme_ := "http", host_ := host, port_ := 80 }

/-- Method `HttpClient::ensureClient`: when there is no httplib client yet,
make one for `host_` and `port_` (an `SSLClient` for https, which the build
must support) and give it the two timeouts. -/
def HttpClient.ensureClient (env : Env) (self : HttpClient) : Except Fault HttpClient :=
  match self.client_ with
  | some _ => pure self
  | none => do
    let ssl : Bool ←
      if self.scheme_ == "https" then
        if env.openssl_support then pure true
        else throw (Fault.runtime_error "HTTPS no soportado. Recompilar con OpenSSL")
      else pure false
    let client : HttplibClient :=
      { ssl := ssl, host := self.host_, port := self.port_,
        read_timeout_sec := self.timeout_seconds_,
        write_timeout_sec := self.timeout_seconds_ }
    pure { self with client_ := some client }

/-- Constructor `HttpClient::HttpClient(host)`.  The members start empty, with
`port_` not yet assigned (`parseHost` assigns it on every path that returns). -/
def HttpClient.new (env : Env) (host : String) : Except Fault HttpClient := do
  let self : HttpClient :=
    { host_ := "", port_ := 0, scheme_ := "", client_ := none, timeout_seconds_ := 30 }
  let self ← self.parseHost env host
  self.ensureClient env

/-! ## Observable behaviour -/

/-- The value a Domain Client operation hands to its `onSuccess`. -/
inductive Payload where
  | auth (response : AuthResponse)
  | void
  | user (user : User)
  | business (business : Business)
  | business_list (businesses : List Business)
  | product (product : Product)
  | product_list (products : List ProductWithBusiness)
  | search_history (history : List SearchHistoryEntry)
  | recommendations (recs : UserRecommendations)
deriving DecidableEq, Repr

/-- Struct `CallbackContext` of `bizmap_c_api.cpp`. -/
structure CallbackContext where
  user_data : Nat
  login_callback : Nat
  error_callback : Nat
  void_callback : Nat
  products_callback : Nat
  businesses_callback : Nat
  profile_callback : Nat
  recommendations_callback : Nat
deriving DecidableEq, Repr

/-- What an observer of the library can see happen.  The last four are calls
through a C function pointer `fn`; the products, businesses, profile and
recommendations callbacks share the signature `(void*, const char*)` and are
all `json_callback`.  A `const char*` argument is recorded as the text it points
to, which ends before the first NUL. -/
inductive Event where
  | request (client : HttplibClient) (request : Request)
  | on_success (result : Payload)
  | on_error (error : ApiError)
  | new_context (address : Nat)
  | delete_context (address : Nat)
  | login_callback (fn user_data : Nat) (access_token refresh_token : String) (expires_in : Int)
  | error_callback (fn user_data : Nat) (status_code : Int) (error_message : String)
  | void_callback (fn user_data : Nat)
  | json_callback (fn user_data : Nat) (json : String)
deriving DecidableEq, Repr

/-- The state callbacks act on: the live `CallbackContext` objects by address,
the last address handed out, and the events so far, oldest first. -/
structure World where
  contexts : List (Nat × CallbackContext)
  last_address : Nat
  trace : List Event
deriving DecidableEq, Repr

/-- A callable taking one argument: a `std::function<void(const T&)>`. -/
abbrev Callback (α : Type) := α → World → Except Fault World

/-- A callable taking no argument: a `std::function<void()>`. -/
abbrev VoidCallback := World → Except Fault World

namespace World

/-- The world before anything happened. -/
def empty : World := { contexts := [], last_address := 0, trace := [] }

/-- Append one event to the trace. -/
def record (w : World) (e : Event) : World := { w with trace := w.trace ++ [e] }

/-- Expression `new CallbackContext{...}`: a fresh non-null address holding the
given object. -/
def new_context (w : World) (ctx : CallbackContext) : Nat × World :=
  let address := w.last_address + 1
  (address,
    { contexts := (address, ctx) :: w.contexts
      last_address := address
      trace := w.trace ++ [Event.new_context address] })

/-- Read through a `CallbackContext*`. -/
def deref (w : World) (address : Nat) : Except Fault CallbackContext :=
  match w.contexts.lookup address with
  | some ctx => pure ctx
  | none => throw Fault.use_after_free

/-- Statement `delete ctx`. -/
def delete_context (w : World) (address : Nat) : Except Fault World :=
  match w.contexts.lookup address with
  | some _ =>
    pure
      { w with
        contexts := w.contexts.eraseP (fun entry => entry.1 == address)
        trace := w.trace ++ [Event.delete_context address] }
  | none => throw Fault.double_free

end World

/-- The text `HttpClient::get` appends to "Error de red: " for an error code. -/
def get_error_text : HttplibError → String
  | .Connection => "No se pudo conectar al servidor"
  | .BindIPAddress => "Error al vincular dirección IP"
  | .Read => "Error al leer respuesta"
  | .Write => "Error al escribir petición"
  | .ExceedRedirectCount => "Demasiadas redirecciones"
  | .Canceled => "Petición cancelada"
  | .SSLConnection => "Error de conexión SSL"
  | .SSLLoadingCerts => "Error al cargar certificados SSL"
  | .SSLServerVerification => "Error de verificación del servidor SSL"
  | .UnsupportedMultipartBoundaryChars => "Caracteres no soportados en boundary multipart"
  | .Other => "Error desconocido"

/-- The blocking call `client_->Get(...)` (or `Post`, `Put`, `Delete`): the
request leaves through the httplib client, and the outcome comes back. -/
def HttpClient.perform (env : Env) (self : HttpClient) (request : Request) (w : World) :
    Except Fault (HttplibResult × World) :=
  match self.client_ with
  | some client => pure (env.exchange client request, w.record (Event.request client request))
  | none => throw Fault.null_dereference

/-- Method `HttpClient::get`.  The path goes to httplib as `path.c_str()`. -/
def HttpClient.get (env : Env) (self : HttpClient) (path : String) (headers : Headers)
    (on_response : Int → String → World → Except Fault World)
    (on_error : Callback String) (w : World) : Except Fault (HttpClient × World) := do
  let self ← self.ensureClient env
  let http_headers : Headers := headers
  let (result, w) ← self.perform env
    { method := Method.GET, path := c_str path, headers := http_headers, body := "",
      content_type := "" } w
  match result with
  | .response status body =>
    let w ← on_response status body w
    pure (self, w)
  | .error err =>
    let error_msg := "Error de red: " ++ get_error_text err
    let w ← on_error error_msg w
    pure (self, w)

/-- Method `HttpClient::post`.  The path goes to httplib as `path.c_str()`, the
body as the `std::string` it is. -/
def HttpClient.post (env : Env) (self : HttpClient) (path : String) (body : String)
    (headers : Headers) (on_response : Int → String → World → Except Fault World)
    (on_error : Callback String) (w : World) : Except Fault (HttpClient × World) := do
  let self ← self.ensureClient env
  let http_headers : Headers := headers
  let (result, w) ← self.perform env
    { method := Method.POST, path := c_str path, headers := http_headers, body := body,
      content_type := "application/json" } w
  match result with
  | .response status body =>
    let w ← on_response status body w
    pure (self, w)
  | .error _ =>
    let w ← on_error "Error de red: no se pudo completar la petición POST" w
    pure (self, w)

/-- Method `HttpClient::put`.  The path goes to httplib as `path.c_str()`, the
body as the `std::string` it is. -/
def HttpClient.put (env : Env) (self : HttpClient) (path : String) (body : String)
    (headers : Headers) (on_response : Int → String → World → Except Fault World)
    (on_error : Callback String) (w : World) : Except Fault (HttpClient × World) := do
  let self ← self.ensureClient env
  let http_headers : Headers := headers
  let (result, w) ← self.perform env
    { method := Method.PUT, path := c_str path, headers := http_headers, body := body,
      content_type := "application/json" } w
  match result with
  | .response status body =>
    let w ← on_response status body w
    pure (self, w)
  | .error _ =>
    let w ← on_error "Error de red: no se pudo completar la petición PUT" w
    pure (self, w)

/-- Method `HttpClient::del`.  The path goes to httplib as `path.c_str()`. -/
def HttpClient.del (env : Env) (self : HttpClient) (path : String) (headers : Headers)
    (on_response : Int → String → World → Except Fault World)
    (on_error : Callback String) (w : World) : Except Fault (HttpClient × World) := do
  let self ← self.ensureClient env
  let http_headers : Headers := headers
  let (result, w) ← self.perform env
    { method := Method.DELETE, path := c_str path, headers := http_headers, body := "",
      content_type := "" } w
  match result with
  | .response status body =>
    let w ← on_response status body w
    pure (self, w)
  | .error _ =>
    let w ← on_error "Error de red: no se pudo completar la petición DELETE" w
    pure (self, w)

/-! ## The codec (`json_converters.cpp`) -/

/-- What `escape_json_string` writes for one character. -/
def escape_json_char (c : Char) : String :=
  if c = '"' then "\\\""
  else if c = '\\' then "\\\\"
  else if c = '\x08' then "\\b"
  else if c = '\x0c' then "\\f"
  else if c = '\n' then "\\n"
  else if c = '\r' then "\\r"
  else if c = '\t' then "\\t"
  else String.singleton c

/-- Function `escape_json_string`. -/
def escape_json_string (str : String) : String :=
  str.toList.foldl (fun oss c => oss ++ escape_json_char c) ""

/-- Function `to_json::login_request`. -/
def to_json.login_request (username password : String) : String :=
  "\x7b"
    ++ "\"username\":\"" ++ escape_json_string username ++ "\","
    ++ "\"password\":\"" ++ escape_json_string password ++ "\""
    ++ "\x7d"

/-- Function `to_json::register_request`. -/
def to_json.register_request (req : RegisterRequest) : String :=
  let oss :=
    "\x7b"
      ++ "\"username\":\"" ++ escape_json_string req.username ++ "\","
      ++ "\"email\":\"" ++ escape_json_string req.email ++ "\","
      ++ "\"password\":\"" ++ escape_json_string req.password ++ "\","
      ++ "\"full_name\":\"" ++ escape_json_string req.full_name ++ "\""
  let oss :=
    if !req.phone.isEmpty then oss ++ ",\"phone\":\"" ++ escape_json_string req.phone ++ "\""
    else oss
  oss ++ "\x7d"

/-- Function `from_json::parse_auth_response`: the text is not read. -/
def from_json.parse_auth_response (_json_str : String) : AuthResponse :=
  { access_token := "", refresh_token := "", token_type := "Bearer", expires_in := 86400 }

/-- Function `from_json::parse_user`: a default-initialised `User`. -/
def from_json.parse_user (_json_str : String) : User :=
  { id := "", username := "", email := "", full_name := "", phone := "",
    is_active := .indeterminate, created_at := .indeterminate,
    updated_at := .indeterminate }

/-- Function `from_json::parse_business`: a default-initialised `Business`. -/
def from_json.parse_business (_json_str : String) : Business :=
  { id := "", owner_id := "", name := "", description := "", category := "", phone := "",
    email := "", website := "", address := "", location := GeoLocation.default,
    rating := .indeterminate, total_reviews := .indeterminate,
    is_verified := .indeterminate, is_active := .indeterminate, images := [],
    created_at := .indeterminate, updated_at := .indeterminate, distance_meters := none }

/-- Function `from_json::parse_product`: a default-initialised `Product`. -/
def from_json.parse_product (_json_str : String) : Product :=
  { id := "", business_id := "", name := "", description := "", price := .indeterminate,
    currency := "", category := "", is_available := .indeterminate,
    stock_quantity := .indeterminate, images := [], created_at := .indeterminate,
    updated_at := .indeterminate }

/-- Function `from_json::parse_business_list`: an empty vector. -/
def from_json.parse_business_list (_json_str : String) : List Business := []

/-- Function `from_json::parse_product_list`: an empty vector. -/
def from_json.parse_product_list (_json_str : String) : List ProductWithBusiness := []

/-- Function `from_json::parse_recommendations`: two empty vectors. -/
def from_json.parse_recommendations (_json_str : String) : UserRecommendations :=
  { popular_searches := [], popular_categories := [] }

/-- Function `from_json::parse_search_history`: an empty vector. -/
def from_json.parse_search_history (_json_str : String) : List SearchHistoryEntry := []

/-- Function `from_json::parse_error`. -/
def from_json.parse_error (status_code : Int) (json_str : String) : ApiError :=
  { status_code := status_code, error_message := json_str, error_code := "" }

/-! ## The Domain Client (`api_client.cpp`) -/

structure ApiClient where
  base_url_ : String
  auth_token_ : String
  http_client_ : HttpClient
deriving DecidableEq, Repr

namespace ApiClient

/-- Constructor `ApiClient::ApiClient(base_url)`. -/
def new (env : Env) (base_url : String) : Except Fault ApiClient := do
  let http_client ← HttpClient.new env base_url
  pure { base_url_ := base_url, auth_token_ := "", http_client_ := http_client }

/-- Method `ApiClient::setBaseUrl`. -/
def setBaseUrl (env : Env) (self : ApiClient) (url : String) : Except Fault ApiClient := do
  let self := { self with base_url_ := url }
  let http_client ← HttpClient.new env url
  pure { self with http_client_ := http_client }

/-- Method `ApiClient::setAuthToken`. -/
def setAuthToken (self : ApiClient) (token : String) : ApiClient :=
  { self with auth_token_ := token }

/-- Method `ApiClient::clearAuthToken`. -/
def clearAuthToken (self : ApiClient) : ApiClient :=
  { self with auth_token_ := "" }

/-- Method `ApiClient::getAuthToken`. -/
def getAuthToken (self : ApiClient) : String := self.auth_token_

/-- Method `ApiClient::login`. -/
def login (env : Env) (self : ApiClient) (username password : String)
    (onSuccess : Callback AuthResponse) (onError : Callback ApiError) (w : World) :
    Except Fault (ApiClient × World) := do
  let body := to_json.login_request username password
  let headers : Headers := [("Content-Type", "application/json")]
  let (http_client, w) ← self.http_client_.post env "/api/v1/auth/login" body headers
    (fun status response_body =>
      if status ≥ 200 ∧ status < 300 then
        onSuccess (from_json.parse_auth_response response_body)
      else onError (from_json.parse_error status response_body))
    (fun error_msg => onError (ApiError.mk2 0 error_msg)) w
  pure ({ self with http_client_ := http_client }, w)

/-- Method `ApiClient::registerUser`. -/
def registerUser (env : Env) (self : ApiClient) (request : RegisterRequest)
    (onSuccess : VoidCallback) (onError : Callback ApiError) (w : World) :
    Except Fault (ApiClient × World) := do
  let body := to_json.register_request request
  let headers : Headers := [("Content-Type", "application/json")]
  let (http_client, w) ← self.http_client_.post env "/api/v1/auth/register" body headers
    (fun status response_body =>
      if status ≥ 200 ∧ status < 300 then onSuccess
      else onError (from_json.parse_error status response_body))
    (fun error_msg => onError (ApiError.mk2 0 error_msg)) w
  pure ({ self with http_client_ := http_client }, w)

/-- Method `ApiClient::logout`. -/
def logout (env : Env) (self : ApiClient) (onSuccess : VoidCallback)
    (onError : Callback ApiError) (w : World) : Except Fault (ApiClient × World) := do
  let headers : Headers :=
    [("Content-Type", "application/json"), ("Authorization", "Bearer " ++ self.auth_token_)]
  let (http_client, w) ← self.http_client_.post env "/api/v1/auth/logout" "\x7b\x7d" headers
    (fun status response_body =>
      if status ≥ 200 ∧ status < 300 then onSuccess
      else onError (from_json.parse_error status response_body))
    (fun error_msg => onError (ApiError.mk2 0 error_msg)) w
  pure ({ self with http_client_ := http_client }, w)

/-- Method `ApiClient::getProfile`. -/
def getProfile (env : Env) (self : ApiClient) (onSuccess : Callback User)
    (onError : Callback ApiError) (w : World) : Except Fault (ApiClient × World) := do
  let headers : Headers :=
    [("Content-Type", "application/json"), ("Authorization", "Bearer " ++ self.auth_token_)]
  let (http_client, w) ← self.http_client_.get env "/api/v1/auth/profile" headers
    (fun status response_body =>
      if status ≥ 200 ∧ status < 300 then onSuccess (from_json.parse_user response_body)
      else onError (from_json.parse_error status response_body))
    (fun error_msg => onError (ApiError.mk2 0 error_msg)) w
  pure ({ self with http_client_ := http_client }, w)

/-- The path `ApiClient::searchBusinesses` writes into its `ostringstream`. -/
def searchBusinesses_path (env : Env) (params : BusinessSearchParams) : String :=
  let oss := "/api/v1/businesses/search?q=" ++ params.query
  let oss :=
    match params.location with
    | some location =>
      let oss := oss ++ "&lat=" ++ env.ostream_double location.latitude
        ++ "&lng=" ++ env.ostream_double location.longitude
      match params.radius_meters with
      | some radius_meters => oss ++ "&radius=" ++ int_to_string radius_meters
      | none => oss
    | none => oss
  let oss :=
    match params.category with
    | some category => oss ++ "&category=" ++ category
    | none => oss
  oss ++ "&limit=" ++ int_to_string params.limit ++ "&offset=" ++ int_to_string params.offset

/-- Method `ApiClient::searchBusinesses`. -/
def searchBusinesses (env : Env) (self : ApiClient) (params : BusinessSearchParams)
    (onSuccess : Callback (List Business)) (onError : Callback ApiError) (w : World) :
    Except Fault (ApiClient × World) := do
  let oss := searchBusinesses_path env params
  let headers : Headers := [("Content-Type", "application/json")]
  let (http_client, w) ← self.http_client_.get env oss headers
    (fun status response_body =>
      if status ≥ 200 ∧ status < 300 then
        onSuccess (from_json.parse_business_list response_body)
      else onError (from_json.parse_error status response_body))
    (fun error_msg => onError (ApiError.mk2 0 error_msg)) w
  pure ({ self with http_client_ := http_client }, w)

/-- Method `ApiClient::getBusinessById`. -/
def getBusinessById (env : Env) (self : ApiClient) (business_id : String)
    (onSuccess : Callback Business) (onError : Callback ApiError) (w : World) :
    Except Fault (ApiClient × World) := do
  let endpoint := "/api/v1/businesses/" ++ business_id
  let headers : Headers := [("Content-Type", "application/json")]
  let (http_client, w) ← self.http_client_.get env endpoint headers
    (fun status response_body =>
      if status ≥ 200 ∧ status < 300 then onSuccess (from_json.parse_business response_body)
      else onError (from_json.parse_error status response_body))
    (fun error_msg => onError (ApiError.mk2 0 error_msg)) w
  pure ({ self with http_client_ := http_client }, w)

/-- The path `ApiClient::searchProducts` writes into its `ostringstream`. -/
def searchProducts_path (env : Env) (params : ProductSearchParams) : String :=
  let oss := "/api/v1/products/search?q=" ++ params.query
  let oss :=
    match params.location with
    | some location =>
      let oss := oss ++ "&lat=" ++ env.ostream_double location.latitude
        ++ "&lng=" ++ env.ostream_double location.longitude
      match params.radius_meters with
      | some radius_meters => oss ++ "&radius=" ++ int_to_string radius_meters
      | none => oss
    | none => oss
  let oss :=
    match params.min_price with
    | some min_price => oss ++ "&min_price=" ++ env.ostream_double min_price
    | none => oss
  let oss :=
    match params.max_price with
    | some max_price => oss ++ "&max_price=" ++ env.ostream_double max_price
    | none => oss
  let oss :=
    match params.category with
    | some category => oss ++ "&category=" ++ category
    | none => oss
  oss ++ "&limit=" ++ int_to_string params.limit ++ "&offset=" ++ int_to_string params.offset

/-- Method `ApiClient::searchProducts`. -/
def searchProducts (env : Env) (self : ApiClient) (params : ProductSearchParams)
    (onSuccess : Callback (List ProductWithBusiness)) (onError : Callback ApiError)
    (w : World) : Except Fault (ApiClient × World) := do
  let oss := searchProducts_path env params
  let headers : Headers := [("Content-Type", "application/json")]
  let headers :=
    if !self.auth_token_.isEmpty then
      headers.set "Authorization" ("Bearer " ++ self.auth_token_)
    else headers
  let (http_client, w) ← self.http_client_.get env oss headers
    (fun status response_body =>
      if status ≥ 200 ∧ status < 300 then
        onSuccess (from_json.parse_product_list response_body)
      else onError (from_json.parse_error status response_body))
    (fun error_msg => onError (ApiError.mk2 0 error_msg)) w
  pure ({ self with http_client_ := http_client }, w)

/-- Method `ApiClient::getProductById`. -/
def getProductById (env : Env) (self : ApiClient) (product_id : String)
    (onSuccess : Callback Product) (onError : Callback ApiError) (w : World) :
    Except Fault (ApiClient × World) := do
  let endpoint := "/api/v1/products/" ++ product_id
  let headers : Headers := [("Content-Type", "application/json")]
  let (http_client, w) ← self.http_client_.get env endpoint headers
    (fun status response_body =>
      if status ≥ 200 ∧ status < 300 then onSuccess (from_json.parse_product response_body)
      else onError (from_json.parse_error status response_body))
    (fun error_msg => onError (ApiError.mk2 0 error_msg)) w
  pure ({ self with http_client_ := http_client }, w)

/-- Method `ApiClient::getBusinessProducts`. -/
def getBusinessProducts (env : Env) (self : ApiClient) (business_id : String)
    (onSuccess : Callback (List ProductWithBusiness)) (onError : Callback ApiError)
    (w : World) : Except Fault (ApiClient × World) := do
  let endpoint := "/api/v1/products/business/" ++ business_id
  let headers : Headers := [("Content-Type", "application/json")]
  let (http_client, w) ← self.http_client_.get env endpoint headers
    (fun status response_body =>
      if status ≥ 200 ∧ status < 300 then
        onSuccess (from_json.parse_product_list response_body)
      else onError (from_json.parse_error status response_body))
    (fun error_msg => onError (ApiError.mk2 0 error_msg)) w
  pure ({ self with http_client_ := http_client }, w)

/-- Method `ApiClient::getSearchHistory`. -/
def getSearchHistory (env : Env) (self : ApiClient) (limit : Int)
    (onSuccess : Callback (List SearchHistoryEntry)) (onError : Callback ApiError)
    (w : World) : Except Fault (ApiClient × World) := do
  let endpoint := "/api/v1/search/history?limit=" ++ int_to_string limit
  let headers : Headers :=
    [("Content-Type", "application/json"), ("Authorization", "Bearer " ++ self.auth_token_)]
  let (http_client, w) ← self.http_client_.get env endpoint headers
    (fun status response_body =>
      if status ≥ 200 ∧ status < 300 then
        onSuccess (from_json.parse_search_history response_body)
      else onError (from_json.parse_error status response_body))
    (fun error_msg => onError (ApiError.mk2 0 error_msg)) w
  pure ({ self with http_client_ := http_client }, w)

/-- Method `ApiClient::getRecommendations`. -/
def getRecommendations (env : Env) (self : ApiClient)
    (onSuccess : Callback UserRecommendations) (onError : Callback ApiError) (w : World) :
    Except Fault (ApiClient × World) := do
  let headers : Headers :=
    [("Content-Type", "application/json"), ("Authorization", "Bearer " ++ self.auth_token_)]
  let (http_client, w) ← self.http_client_.get env "/api/v1/search/recommendations" headers
    (fun status response_body =>
      if status ≥ 200 ∧ status < 300 then
        onSuccess (from_json.parse_recommendations response_body)
      else onError (from_json.parse_error status response_body))
    (fun error_msg => onError (ApiError.mk2 0 error_msg)) w
  pure ({ self with http_client_ := http_client }, w)

/-- Method `ApiClient::clearSearchHistory`. -/
def clearSearchHistory (env : Env) (self : ApiClient) (onSuccess : VoidCallback)
    (onError : Callback ApiError) (w : World) : Except Fault (ApiClient × World) := do
  let headers : Headers :=
    [("Content-Type", "application/json"), ("Authorization", "Bearer " ++ self.auth_token_)]
  let (http_client, w) ← self.http_client_.del env "/api/v1/search/history" headers
    (fun status response_body =>
      if status ≥ 200 ∧ status < 300 then onSuccess
      else onError (from_json.parse_error status response_body))
    (fun error_msg => onError (ApiError.mk2 0 error_msg)) w
  pure ({ self with http_client_ := http_client }, w)

end ApiClient

/-- One call of a Domain Client operation, with its typed parameters. -/
inductive DomainCall where
  | login (username password : String)
  | registerUser (request : RegisterRequest)
  | logout
  | getProfile
  | searchBusinesses (params : BusinessSearchParams)
  | getBusinessById (business_id : String)
  | searchProducts (params : ProductSearchParams)
  | getProductById (product_id : String)
  | getBusinessProducts (business_id : String)
  | getSearchHistory (limit : Int)
  | getRecommendations
  | clearSearchHistory
deriving DecidableEq, Repr

/-- Make the call on the client, every typed result wrapped as a `Payload`. -/
def ApiClient.call (env : Env) (self : ApiClient) (op : DomainCall)
    (onSuccess : Callback Payload) (onError : Callback ApiError) (w : World) :
    Except Fault (ApiClient × World) :=
  match op with
  | .login username password =>
    self.login env username password (fun r => onSuccess (.auth r)) onError w
  | .registerUser request => self.registerUser env request (onSuccess .void) onError w
  | .logout => self.logout env (onSuccess .void) onError w
  | .getProfile => self.getProfile env (fun r => onSuccess (.user r)) onError w
  | .searchBusinesses params =>
    self.searchBusinesses env params (fun r => onSuccess (.business_list r)) onError w
  | .getBusinessById business_id =>
    self.getBusinessById env business_id (fun r => onSuccess (.business r)) onError w
  | .searchProducts params =>
    self.searchProducts env params (fun r => onSuccess (.product_list r)) onError w
  | .getProductById product_id =>
    self.getProductById env product_id (fun r => onSuccess (.product r)) onError w
  | .getBusinessProducts business_id =>
    self.getBusinessProducts env business_id (fun r => onSuccess (.product_list r)) onError w
  | .getSearchHistory limit =>
    self.getSearchHistory env limit (fun r => onSuccess (.search_history r)) onError w
  | .getRecommendations =>
    self.getRecommendations env (fun r => onSuccess (.recommendations r)) onError w
  | .clearSearchHistory => self.clearSearchHistory env (onSuccess .void) onError w

/-- An `onSuccess` that only leaves a mark in the trace. -/
def observe_success : Callback Payload := fun result w => pure (w.record (.on_success result))

/-- An `onError` that only leaves a mark in the trace. -/
def observe_error : Callback ApiError := fun error w => pure (w.record (.on_error error))

/-- The interface table of the backend, read as a function: the request each
operation is to hand to httplib (method, path, headers, body).  A path made
with a text of the caller is the C string of what the operation writes. -/
def DomainCall.request (env : Env) (self : ApiClient) : DomainCall → Request
  | .login username password =>
    { method := .POST, path := "/api/v1/auth/login",
      headers := [("Content-Type", "application/json")],
      body := to_json.login_request username password, content_type := "application/json" }
  | .registerUser request =>
    { method := .POST, path := "/api/v1/auth/register",
      headers := [("Content-Type", "application/json")],
      body := to_json.register_request request, content_type := "application/json" }
  | .logout =>
    { method := .POST, path := "/api/v1/auth/logout",
      headers := [("Content-Type", "application/json"),
        ("Authorization", "Bearer " ++ self.auth_token_)],
      body := "\x7b\x7d", content_type := "application/json" }
  | .getProfile =>
    { method := .GET, path := "/api/v1/auth/profile",
      headers := [("Content-Type", "application/json"),
        ("Authorization", "Bearer " ++ self.auth_token_)],
      body := "", content_type := "" }
  | .searchBusinesses params =>
    { method := .GET, path := c_str (ApiClient.searchBusinesses_path env params),
      headers := [("Content-Type", "application/json")], body := "", content_type := "" }
  | .getBusinessById business_id =>
    { method := .GET, path := c_str ("/api/v1/businesses/" ++ business_id),
      headers := [("Content-Type", "application/json")], body := "", content_type := "" }
  | .searchProducts params =>
    { method := .GET, path := c_str (ApiClient.searchProducts_path env params),
      headers :=
        if self.auth_token_.isEmpty then [("Content-Type", "application/json")]
        else [("Content-Type", "application/json"),
          ("Authorization", "Bearer " ++ self.auth_token_)],
      body := "", content_type := "" }
  | .getProductById product_id =>
    { method := .GET, path := c_str ("/api/v1/products/" ++ product_id),
      headers := [("Content-Type", "application/json")], body := "", content_type := "" }
  | .getBusinessProducts business_id =>
    { method := .GET, path := c_str ("/api/v1/products/business/" ++ business_id),
      headers := [("Content-Type", "application/json")], body := "", content_type := "" }
  | .getSearchHistory limit =>
    { method := .GET, path := "/api/v1/search/history?limit=" ++ int_to_string limit,
      headers := [("Content-Type", "application/json"),
        ("Authorization", "Bearer " ++ self.auth_token_)],
      body := "", content_type := "" }
  | .getRecommendations =>
    { method := .GET, path := "/api/v1/search/recommendations",
      headers := [("Content-Type", "application/json"),
        ("Authorization", "Bearer " ++ self.auth_token_)],
      body := "", content_type := "" }
  | .clearSearchHistory =>
    { method := .DELETE, path := "/api/v1/search/history",
      headers := [("Content-Type", "application/json"),
        ("Authorization", "Bearer " ++ self.auth_token_)],
      body := "", content_type := "" }

/-- The description `HttpClient` gives its `on_error` when httplib returns no
response, by method. -/
def failure_description (method : Method) (err : HttplibError) : String :=
  match method with
  | .GET => "Error de red: " ++ get_error_text err
  | .POST => "Error de red: no se pudo completar la petición POST"
  | .PUT => "Error de red: no se pudo completar la petición PUT"
  | .DELETE => "Error de red: no se pudo completar la petición DELETE"

/-! ## The C bridge (`bizmap_c_api.cpp`) -/

/-- A `BizMapClientHandle`: the null handle, or a pointer to a live `ApiClient`
whose state is the given one. -/
abbrev BizMapClientHandle := Option ApiClient

/-- Function `bizmap_create_client`.  Its `catch (...)` intercepts the
exceptions of the constructor, and nothing else. -/
def bizmap_create_client (env : Env) (base_url : Option String) :
    Except Fault BizMapClientHandle :=
  try
    let url := base_url.getD "http://localhost:8080"
    let client ← ApiClient.new env url
    pure (some client)
  catch fault => if fault.is_exception then pure none else throw fault

/-- Function `bizmap_set_base_url`. -/
def bizmap_set_base_url (env : Env) (client : BizMapClientHandle) (base_url : Option String) :
    Except Fault BizMapClientHandle :=
  match client, base_url with
  | some api, some base_url => do
    let api ← api.setBaseUrl env base_url
    pure (some api)
  | _, _ => pure client

/-- Function `bizmap_set_auth_token`. -/
def bizmap_set_auth_token (client : BizMapClientHandle) (token : Option String) :
    BizMapClientHandle :=
  match client, token with
  | some api, some token => some (api.setAuthToken token)
  | _, _ => client

/-- Function `bizmap_clear_auth_token`. -/
def bizmap_clear_auth_token (client : BizMapClientHandle) : BizMapClientHandle :=
  match client with
  | some api => some api.clearAuthToken
  | none => client

/-- Function `bizmap_destroy_client`: what the handle points to after the call.
A live client is deleted, so that nothing is left; the null handle is left as it
is. -/
def bizmap_destroy_client (client : BizMapClientHandle) : BizMapClientHandle :=
  match client with
  | some _ => none
  | none => client

/-- A `CallbackContext` with every callback pointer null, as the initialiser
`CallbackContext{user_data}` leaves it. -/
def CallbackContext.of_user_data (user_data : Nat) : CallbackContext :=
  { user_data := user_data, login_callback := 0, error_callback := 0, void_callback := 0,
    products_callback := 0, businesses_callback := 0, profile_callback := 0,
    recommendations_callback := 0 }

/-- The `onError` lambda `[ctx](const ApiError& error)`, the same text in every
entry point.  The message goes to the host as `error.error_message.c_str()`. -/
def on_error_lambda (ctx : Nat) : Callback ApiError := fun error w => do
  let context ← w.deref ctx
  let w :=
    if context.error_callback ≠ 0 then
      w.record (.error_callback context.error_callback context.user_data error.status_code
        (c_str error.error_message))
    else w
  w.delete_context ctx

/-- The `onSuccess` lambda of `bizmap_login`.  The two tokens go to the host as
`response.access_token.c_str()` and `response.refresh_token.c_str()`. -/
def login_lambda (ctx : Nat) : Callback AuthResponse := fun response w => do
  let context ← w.deref ctx
  let w :=
    if context.login_callback ≠ 0 then
      w.record (.login_callback context.login_callback context.user_data
        (c_str response.access_token) (c_str response.refresh_token) response.expires_in)
    else w
  w.delete_context ctx

/-- The `onSuccess` lambda `[ctx]()` of the entry points with a
`BizMapVoidCallback`. -/
def void_lambda (ctx : Nat) : VoidCallback := fun w => do
  let context ← w.deref ctx
  let w :=
    if context.void_callback ≠ 0 then
      w.record (.void_callback context.void_callback context.user_data)
    else w
  w.delete_context ctx

/-- The `onSuccess` lambda of the entry points that deliver JSON text: it reads
one callback member of the context and passes it the placeholder `json` as
`json.c_str()`, whatever the typed result is. -/
def json_lambda (member : CallbackContext → Nat) (json : String) (ctx : Nat) : VoidCallback :=
  fun w => do
    let context ← w.deref ctx
    let w :=
      if member context ≠ 0 then
        w.record (.json_callback (member context) context.user_data (c_str json))
      else w
    w.delete_context ctx

/-- Function `bizmap_login`. -/
def bizmap_login (env : Env) (client : BizMapClientHandle) (username password : Option String)
    (on_success on_error user_data : Nat) (w : World) :
    Except Fault (BizMapClientHandle × World) :=
  match client, username, password with
  | some api, some username, some password => do
    let (ctx, w) := w.new_context
      { CallbackContext.of_user_data user_data with
        login_callback := on_success, error_callback := on_error }
    let (api, w) ← api.login env username password (login_lambda ctx) (on_error_lambda ctx) w
    pure (some api, w)
  | _, _, _ => pure (client, w)

/-- Function `bizmap_register`. -/
def bizmap_register (env : Env) (client : BizMapClientHandle)
    (username email password full_name : Option String)
    (on_success on_error user_data : Nat) (w : World) :
    Except Fault (BizMapClientHandle × World) :=
  match client, username, email, password with
  | some api, some username, some email, some password => do
    let (ctx, w) := w.new_context
      { CallbackContext.of_user_data user_data with
        void_callback := on_success, error_callback := on_error }
    let req : RegisterRequest :=
      { username := username, email := email, password := password,
        full_name := full_name.getD "", phone := "" }
    let (api, w) ← api.registerUser env req (void_lambda ctx) (on_error_lambda ctx) w
    pure (some api, w)
  | _, _, _, _ => pure (client, w)

/-- Function `bizmap_logout`. -/
def bizmap_logout (env : Env) (client : BizMapClientHandle)
    (on_success on_error user_data : Nat) (w : World) :
    Except Fault (BizMapClientHandle × World) :=
  match client with
  | some api => do
    let (ctx, w) := w.new_context
      { CallbackContext.of_user_data user_data with
        void_callback := on_success, error_callback := on_error }
    let (api, w) ← api.logout env (void_lambda ctx) (on_error_lambda ctx) w
    pure (some api, w)
  | none => pure (client, w)

/-- Function `bizmap_get_profile`. -/
def bizmap_get_profile (env : Env) (client : BizMapClientHandle)
    (on_success on_error user_data : Nat) (w : World) :
    Except Fault (BizMapClientHandle × World) :=
  match client with
  | some api => do
    let (ctx, w) := w.new_context
      { CallbackContext.of_user_data user_data with
        profile_callback := on_success, error_callback := on_error }
    let (api, w) ← api.getProfile env
      (fun _user => json_lambda CallbackContext.profile_callback "\x7b\x7d" ctx)
      (on_error_lambda ctx) w
    pure (some api, w)
  | none => pure (client, w)

/-- The `ProductSearchParams` that `bizmap_search_products` fills in from its
arguments.  The query and the category are `std::string`s made from a
`const char*`: they hold its C string. -/
def product_search_params (query : String) (latitude longitude : Double) (radius_meters : Int)
    (min_price max_price : Double) (category : Option String) (limit offset : Int) :
    ProductSearchParams :=
  let params := { ProductSearchParams.default with query := c_str query }
  let params :=
    if latitude.ne_zero || longitude.ne_zero then
      { params with location := some ⟨latitude, longitude⟩ }
    else params
  let params :=
    if radius_meters > 0 then { params with radius_meters := some radius_meters } else params
  let params :=
    if min_price.ge_zero then { params with min_price := some min_price } else params
  let params :=
    if max_price.ge_zero then { params with max_price := some max_price } else params
  let params :=
    match category with
    | some category => { params with category := some (c_str category) }
    | none => params
  { params with
    limit := if limit > 0 then limit else 20
    offset := if offset ≥ 0 then offset else 0 }

/-- Function `bizmap_search_products`. -/
def bizmap_search_products (env : Env) (client : BizMapClientHandle) (query : Option String)
    (latitude longitude : Double) (radius_meters : Int) (min_price max_price : Double)
    (category : Option String) (limit offset : Int)
    (on_success on_error user_data : Nat) (w : World) :
    Except Fault (BizMapClientHandle × World) :=
  match client, query with
  | some api, some query => do
    let (ctx, w) := w.new_context
      { CallbackContext.of_user_data user_data with
        products_callback := on_success, error_callback := on_error }
    let params := product_search_params query latitude longitude radius_meters min_price
      max_price category limit offset
    let (api, w) ← api.searchProducts env params
      (fun _products => json_lambda CallbackContext.products_callback "[]" ctx)
      (on_error_lambda ctx) w
    pure (some api, w)
  | _, _ => pure (client, w)

/-- Function `bizmap_get_product`. -/
def bizmap_get_product (env : Env) (client : BizMapClientHandle) (product_id : Option String)
    (on_success on_error user_data : Nat) (w : World) :
    Except Fault (BizMapClientHandle × World) :=
  match client, product_id with
  | some api, some product_id => do
    let (ctx, w) := w.new_context
      { CallbackContext.of_user_data user_data with
        products_callback := on_success, error_callback := on_error }
    let (api, w) ← api.getProductById env product_id
      (fun _product => json_lambda CallbackContext.products_callback "\x7b\x7d" ctx)
      (on_error_lambda ctx) w
    pure (some api, w)
  | _, _ => pure (client, w)

/-- The `BusinessSearchParams` that `bizmap_search_businesses` fills in from
its arguments.  The query and the category are `std::string`s made from a
`const char*`: they hold its C string. -/
def business_search_params (query : Option String) (latitude longitude : Double)
    (radius_meters : Int) (category : Option String) (limit offset : Int) :
    BusinessSearchParams :=
  let params := { BusinessSearchParams.default with query := c_str (query.getD "") }
  let params :=
    if latitude.ne_zero || longitude.ne_zero then
      { params with location := some ⟨latitude, longitude⟩ }
    else params
  let params :=
    if radius_meters > 0 then { params with radius_meters := some radius_meters } else params
  let params :=
    match category with
    | some category => { params with category := some (c_str category) }
    | none => params
  { params with
    limit := if limit > 0 then limit else 20
    offset := if offset ≥ 0 then offset else 0 }

/-- Function `bizmap_search_businesses`. -/
def bizmap_search_businesses (env : Env) (client : BizMapClientHandle) (query : Option String)
    (latitude longitude : Double) (radius_meters : Int) (category : Option String)
    (limit offset : Int) (on_success on_error user_data : Nat) (w : World) :
    Except Fault (BizMapClientHandle × World) :=
  match client with
  | some api => do
    let (ctx, w) := w.new_context
      { CallbackContext.of_user_data user_data with
        businesses_callback := on_success, error_callback := on_error }
    let params := business_search_params query latitude longitude radius_meters category
      limit offset
    let (api, w) ← api.searchBusinesses env params
      (fun _businesses => json_lambda CallbackContext.businesses_callback "[]" ctx)
      (on_error_lambda ctx) w
    pure (some api, w)
  | none => pure (client, w)

/-- Function `bizmap_get_business`. -/
def bizmap_get_business (env : Env) (client : BizMapClientHandle) (business_id : Option String)
    (on_success on_error user_data : Nat) (w : World) :
    Except Fault (BizMapClientHandle × World) :=
  match client, business_id with
  | some api, some business_id => do
    let (ctx, w) := w.new_context
      { CallbackContext.of_user_data user_data with
        businesses_callback := on_success, error_callback := on_error }
    let (api, w) ← api.getBusinessById env business_id
      (fun _business => json_lambda CallbackContext.businesses_callback "\x7b\x7d" ctx)
      (on_error_lambda ctx) w
    pure (some api, w)
  | _, _ => pure (client, w)

/-- Function `bizmap_get_business_products`. -/
def bizmap_get_business_products (env : Env) (client : BizMapClientHandle)
    (business_id : Option String) (on_success on_error user_data : Nat) (w : World) :
    Except Fault (BizMapClientHandle × World) :=
  match client, business_id with
  | some api, some business_id => do
    let (ctx, w) := w.new_context
      { CallbackContext.of_user_data user_data with
        products_callback := on_success, error_callback := on_error }
    let (api, w) ← api.getBusinessProducts env business_id
      (fun _products => json_lambda CallbackContext.products_callback "[]" ctx)
      (on_error_lambda ctx) w
    pure (some api, w)
  | _, _ => pure (client, w)

/-- Function `bizmap_get_search_history`. -/
def bizmap_get_search_history (env : Env) (client : BizMapClientHandle) (limit : Int)
    (on_success on_error user_data : Nat) (w : World) :
    Except Fault (BizMapClientHandle × World) :=
  match client with
  | some api => do
    let (ctx, w) := w.new_context
      { CallbackContext.of_user_data user_data with
        products_callback := on_success, error_callback := on_error }
    let (api, w) ← api.getSearchHistory env (if limit > 0 then limit else 20)
      (fun _history => json_lambda CallbackContext.products_callback "[]" ctx)
      (on_error_lambda ctx) w
    pure (some api, w)
  | none => pure (client, w)

/-- Function `bizmap_get_recommendations`. -/
def bizmap_get_recommendations (env : Env) (client : BizMapClientHandle)
    (on_success on_error user_data : Nat) (w : World) :
    Except Fault (BizMapClientHandle × World) :=
  match client with
  | some api => do
    let (ctx, w) := w.new_context
      { CallbackContext.of_user_data user_data with
        recommendations_callback := on_success, error_callback := on_error }
    let (api, w) ← api.getRecommendations env
      (fun _recs => json_lambda CallbackContext.recommendations_callback "\x7b\x7d" ctx)
      (on_error_lambda ctx) w
    pure (some api, w)
  | none => pure (client, w)

/-- Function `bizmap_clear_search_history`. -/
def bizmap_clear_search_history (env : Env) (client : BizMapClientHandle)
    (on_success on_error user_data : Nat) (w : World) :
    Except Fault (BizMapClientHandle × World) :=
  match client with
  | some api => do
    let (ctx, w) := w.new_context
      { CallbackContext.of_user_data user_data with
        void_callback := on_success, error_callback := on_error }
    let (api, w) ← api.clearSearchHistory env (void_lambda ctx) (on_error_lambda ctx) w
    pure (some api, w)
  | none => pure (client, w)

/-- One call of an asynchronous entry point of the bridge, with the arguments
that are particular to it; the handle, the two callbacks and `user_data` are
common to all and passed alongside. -/
inductive CCall where
  | login (username password : Option String)
  | register (username email password full_name : Option String)
  | logout
  | get_profile
  | search_products (query : Option String) (latitude longitude : Double)
      (radius_meters : Int) (min_price max_price : Double) (category : Option String)
      (limit offset : Int)
  | get_product (product_id : Option String)
  | search_businesses (query : Option String) (latitude longitude : Double)
      (radius_meters : Int) (category : Option String) (limit offset : Int)
  | get_business (business_id : Option String)
  | get_business_products (business_id : Option String)
  | get_search_history (limit : Int)
  | get_recommendations
  | clear_search_history
deriving DecidableEq, Repr

/-- Make the call: dispatch to the entry point. -/
def bizmap_call (env : Env) (client : BizMapClientHandle) (call : CCall)
    (on_success on_error user_data : Nat) (w : World) :
    Except Fault (BizMapClientHandle × World) :=
  match call with
  | .login username password =>
    bizmap_login env client username password on_success on_error user_data w
  | .register username email password full_name =>
    bizmap_register env client username email password full_name on_success on_error
      user_data w
  | .logout => bizmap_logout env client on_success on_error user_data w
  | .get_profile => bizmap_get_profile env client on_success on_error user_data w
  | .search_products query latitude longitude radius_meters min_price max_price category
      limit offset =>
    bizmap_search_products env client query latitude longitude radius_meters min_price
      max_price category limit offset on_success on_error user_data w
  | .get_product product_id =>
    bizmap_get_product env client product_id on_success on_error user_data w
  | .search_businesses query latitude longitude radius_meters category limit offset =>
    bizmap_search_businesses env client query latitude longitude radius_meters category
      limit offset on_success on_error user_data w
  | .get_business business_id =>
    bizmap_get_business env client business_id on_success on_error user_data w
  | .get_business_products business_id =>
    bizmap_get_business_products env client business_id on_success on_error user_data w
  | .get_search_history limit =>
    bizmap_get_search_history env client limit on_success on_error user_data w
  | .get_recommendations => bizmap_get_recommendations env client on_success on_error user_data w
  | .clear_search_history =>
    bizmap_clear_search_history env client on_success on_error user_data w

/-- Whether a required string parameter of the call is null: the username or
password of login; the username, email or password of register; the query of
search_products; the id of get_product, get_business and
get_business_products.  No other parameter is required. -/
def CCall.missing_required : CCall → Bool
  | .login username password => username.isNone || password.isNone
  | .register username email password _ =>
    username.isNone || email.isNone || password.isNone
  | .search_products query _ _ _ _ _ _ _ _ => query.isNone
  | .get_product product_id => product_id.isNone
  | .get_business business_id => business_id.isNone
  | .get_business_products business_id => business_id.isNone
  | _ => false

/-- The Domain Client call an entry point makes for its arguments, when no
required string is null. -/
def CCall.domain_call : CCall → Option DomainCall
  | .login (some username) (some password) => some (.login username password)
  | .register (some username) (some email) (some password) full_name =>
    some (.registerUser
      { username := username, email := email, password := password,
        full_name := full_name.getD "", phone := "" })
  | .logout => some .logout
  | .get_profile => some .getProfile
  | .search_products (some query) latitude longitude radius_meters min_price max_price
      category limit offset =>
    some (.searchProducts (product_search_params query latitude longitude radius_meters
      min_price max_price category limit offset))
  | .get_product (some product_id) => some (.getProductById product_id)
  | .search_businesses query latitude longitude radius_meters category limit offset =>
    some (.searchBusinesses (business_search_params query latitude longitude radius_meters
      category limit offset))
  | .get_business (some business_id) => some (.getBusinessById business_id)
  | .get_business_products (some business_id) => some (.getBusinessProducts business_id)
  | .get_search_history limit => some (.getSearchHistory (if limit > 0 then limit else 20))
  | .get_recommendations => some .getRecommendations
  | .clear_search_history => some .clearSearchHistory
  | _ => none

/-- The function pointer an event is a call through, for the calls into the
host. -/
def Event.callee : Event → Option Nat
  | .login_callback fn _ _ _ _ => some fn
  | .error_callback fn _ _ _ => some fn
  | .void_callback fn _ => some fn
  | .json_callback fn _ _ => some fn
  | _ => none

/-- The first argument of a call into the host. -/
def Event.first_argument : Event → Option Nat
  | .login_callback _ user_data _ _ _ => some user_data
  | .error_callback _ user_data _ _ => some user_data
  | .void_callback _ user_data => some user_data
  | .json_callback _ user_data _ => some user_data
  | _ => none

/-- Whether the event is an `onSuccess` mark. -/
def Event.is_on_success : Event → Bool
  | .on_success _ => true
  | _ => false

/-- Whether the event is an `onError` mark. -/
def Event.is_on_error : Event → Bool
  | .on_error _ => true
  | _ => false

/-- Whether the event is a call of a `BizMapErrorCallback`. -/
def Event.is_error_callback : Event → Bool
  | .error_callback _ _ _ _ => true
  | _ => false

/-- The value an operation parses out of the body of a successful response. -/
def DomainCall.result : DomainCall → String → Payload
  | .login _ _, body => .auth (from_json.parse_auth_response body)
  | .registerUser _, _ => .void
  | .logout, _ => .void
  | .getProfile, body => .user (from_json.parse_user body)
  | .searchBusinesses _, body => .business_list (from_json.parse_business_list body)
  | .getBusinessById _, body => .business (from_json.parse_business body)
  | .searchProducts _, body => .product_list (from_json.parse_product_list body)
  | .getProductById _, body => .product (from_json.parse_product body)
  | .getBusinessProducts _, body => .product_list (from_json.parse_product_list body)
  | .getSearchHistory _, body => .search_history (from_json.parse_search_history body)
  | .getRecommendations, body => .recommendations (from_json.parse_recommendations body)
  | .clearSearchHistory, _ => .void

/-- A callback has run and the operation returns: the client is as it was, the
world is the one the callback left (or the callback's exception goes on). -/
def with_client {α : Type} (c : α) (r : Except Fault World) : Except Fault (α × World) :=
  r.map (fun w => (c, w))

/-- The call into the host an entry point makes through `fn` when the exchange
succeeds with the given body. -/
def CCall.success_event (call : CCall) (fn user_data : Nat) (body : String) : Event :=
  match call with
  | .login _ _ =>
    .login_callback fn user_data (c_str (from_json.parse_auth_response body).access_token)
      (c_str (from_json.parse_auth_response body).refresh_token)
      (from_json.parse_auth_response body).expires_in
  | .register _ _ _ _ => .void_callback fn user_data
  | .logout => .void_callback fn user_data
  | .clear_search_history => .void_callback fn user_data
  | .get_profile => .json_callback fn user_data "\x7b\x7d"
  | .get_product _ => .json_callback fn user_data "\x7b\x7d"
  | .get_business _ => .json_callback fn user_data "\x7b\x7d"
  | .get_recommendations => .json_callback fn user_data "\x7b\x7d"
  | .search_products _ _ _ _ _ _ _ _ _ => .json_callback fn user_data "[]"
  | .search_businesses _ _ _ _ _ _ _ => .json_callback fn user_data "[]"
  | .get_business_products _ => .json_callback fn user_data "[]"
  | .get_search_history _ => .json_callback fn user_data "[]"

/-- The calls into the host that follow an outcome of the exchange: the success
callback for a status in [200,300), the error callback otherwise (with the C
string of the response body for a message), and no call when the pointer is
null. -/
def CCall.host_calls (call : CCall) (request : Request) (on_success on_error user_data : Nat) :
    HttplibResult → List Event
  | .response status body =>
    if 200 ≤ status ∧ status < 300 then
      if on_success ≠ 0 then [call.success_event on_success user_data body] else []
    else if on_error ≠ 0 then [.error_callback on_error user_data status (c_str body)]
    else []
  | .error err =>
    if on_error ≠ 0 then
      [.error_callback on_error user_data 0 (failure_description request.method err)]
    else []

/-! ## Reading a request path as a query string -/

/-- Cut a text at every `sep`. -/
def split_at (sep : Char) : List Char → List (List Char)
  | [] => [[]]
  | c :: cs =>
    if c = sep then [] :: split_at sep cs
    else
      match split_at sep cs with
      | [] => [[c]]
      | piece :: pieces => (c :: piece) :: pieces

/-- The query string of a path: what follows its first `?`. -/
def query_string (path : String) : List Char :=
  (path.toList.dropWhile (fun c => c != '?')).drop 1

/-- The names of the parameters in a text of the form `name=value&name=value`:
the text is cut at every `&`, and the name of a piece is what precedes its first
`=`. -/
def piece_names (text : List Char) : List String :=
  (split_at '&' text).map (fun piece => String.mk (piece.takeWhile (fun c => c != '=')))

/-- The names of the parameters of the query string of a path. -/
def param_names (path : String) : List String := piece_names (query_string path)

/-- The names of the parameters that a value written verbatim after `name=`
brings in by itself: none when the value has no `&`. -/
def injected_names (value : String) : List String :=
  (piece_names ("=" ++ value).data).tail

/-- Whether the query string of the path has a parameter of the given name. -/
def has_param (name : String) (path : String) : Bool := (param_names path).contains name

/-! ## The search paths as the interface description lays them out -/

/-- The text of an optional piece of a path: what `text` gives for a value that
is present, nothing for one that is absent. -/
def when_present {α : Type} (value : Option α) (text : α → String) : String :=
  match value with
  | some a => text a
  | none => ""

/-- The path of a business search with each optional piece written on its own:
the prefix and the query, then `&lat=`/`&lng=` when a location is present,
`&radius=` when a radius is present, `&category=` when a category is present,
then `&limit=` and `&offset=`. -/
def flat_businesses_path (env : Env) (params : BusinessSearchParams) : String :=
  "/api/v1/businesses/search?q=" ++ params.query
    ++ when_present params.location (fun location =>
        "&lat=" ++ env.ostream_double location.latitude
          ++ "&lng=" ++ env.ostream_double location.longitude)
    ++ when_present params.radius_meters (fun radius_meters =>
        "&radius=" ++ int_to_string radius_meters)
    ++ when_present params.category (fun category => "&category=" ++ category)
    ++ "&limit=" ++ int_to_string params.limit
    ++ "&offset=" ++ int_to_string params.offset

/-- The path of a business search with the radius as a part of the location:
the prefix and the query, then `&lat=`/`&lng=` when a location is present
(followed by `&radius=` when a radius is present too), `&category=` when a
category is present, then `&limit=` and `&offset=`. -/
def spec_businesses_path (env : Env) (params : BusinessSearchParams) : String :=
  "/api/v1/businesses/search?q=" ++ params.query
    ++ when_present params.location (fun location =>
        "&lat=" ++ env.ostream_double location.latitude
          ++ "&lng=" ++ env.ostream_double location.longitude
          ++ when_present params.radius_meters (fun radius_meters =>
              "&radius=" ++ int_to_string radius_meters))
    ++ when_present params.category (fun category => "&category=" ++ category)
    ++ "&limit=" ++ int_to_string params.limit
    ++ "&offset=" ++ int_to_string params.offset

/-- The path of a product search laid out the same way: the prefix and the
query, then `&lat=`/`&lng=` when a location is present (followed by `&radius=`
when a radius is present too), `&min_price=`, `&max_price=` and `&category=`
when present, then `&limit=` and `&offset=`. -/
def spec_products_path (env : Env) (params : ProductSearchParams) : String :=
  "/api/v1/products/search?q=" ++ params.query
    ++ when_present params.location (fun location =>
        "&lat=" ++ env.ostream_double location.latitude
          ++ "&lng=" ++ env.ostream_double location.longitude
          ++ when_present params.radius_meters (fun radius_meters =>
              "&radius=" ++ int_to_string radius_meters))
    ++ when_present params.min_price (fun min_price =>
        "&min_price=" ++ env.ostream_double min_price)
    ++ when_present params.max_price (fun max_price =>
        "&max_price=" ++ env.ostream_double max_price)
    ++ when_present params.category (fun category => "&category=" ++ category)
    ++ "&limit=" ++ int_to_string params.limit
    ++ "&offset=" ++ int_to_string params.offset

/-- The parameter names that layout gives a product search, in order. -/
def spec_products_names (params : ProductSearchParams) : List String :=
  ["q"]
    ++ (if params.location.isSome then
          ["lat", "lng"] ++ (if params.radius_meters.isSome then ["radius"] else [])
        else [])
    ++ (if params.min_price.isSome then ["min_price"] else [])
    ++ (if params.max_price.isSome then ["max_price"] else [])
    ++ (if params.category.isSome then ["category"] else [])
    ++ ["limit", "offset"]

/-- Every parameter name of a product search, in the order of the interface
description. -/
def products_parameter_order : List String :=
  ["q", "lat", "lng", "radius", "min_price", "max_price", "category", "limit", "offset"]

/-- The 40.7128 of the interface description, as a `double`
(bits `0x40445B3D07C84B5E`). -/
def latitude_40_7128 : Double := ⟨false, 1028, 0x45B3D07C84B5E⟩

/-- The -74.0060 of the interface description, as a `double`
(bits `0xC05280624DD2F1AA`). -/
def longitude_neg_74_006 : Double := ⟨true, 1029, 0x280624DD2F1AA⟩

/-- The business search of the interface description: "pizza" around
(40.7128, -74.0060) within 5000 m, limit 20, offset 0. -/
def pizza_search : BusinessSearchParams :=
  { query := "pizza", category := none
    location := some ⟨latitude_40_7128, longitude_neg_74_006⟩
    radius_meters := some 5000, limit := 20, offset := 0 }

/-- The same search with no location: "pizza" within 5000 m of nowhere. -/
def pizza_nowhere : BusinessSearchParams := { pizza_search with location := none }

/-! ## The interface table -/

/-- The method and the path the interface table gives each operation that is not
a search (`none` for the two searches, whose path is built from parameters). -/
def interface_table : DomainCall → Option (Method × String)
  | .login _ _ => some (.POST, "/api/v1/auth/login")
  | .registerUser _ => some (.POST, "/api/v1/auth/register")
  | .logout => some (.POST, "/api/v1/auth/logout")
  | .getProfile => some (.GET, "/api/v1/auth/profile")
  | .getBusinessById id => some (.GET, "/api/v1/businesses/" ++ id)
  | .getProductById id => some (.GET, "/api/v1/products/" ++ id)
  | .getBusinessProducts id => some (.GET, "/api/v1/products/business/" ++ id)
  | .getSearchHistory limit =>
    some (.GET, "/api/v1/search/history?limit=" ++ int_to_string limit)
  | .getRecommendations => some (.GET, "/api/v1/search/recommendations")
  | .clearSearchHistory => some (.DELETE, "/api/v1/search/history")
  | .searchBusinesses _ => none
  | .searchProducts _ => none

/-- The id argument of the three operations that take one. -/
def DomainCall.id_argument : DomainCall → Option String
  | .getBusinessById id => some id
  | .getProductById id => some id
  | .getBusinessProducts id => some id
  | _ => none

/-- The "auth" column of the interface table. -/
inductive AuthMark where
  | required
  | when_token
  | no
deriving DecidableEq, Repr

/-- The mark the interface table gives each operation: required for logout,
getProfile, getSearchHistory, getRecommendations and clearSearchHistory; sent
when a token is held for searchProducts; none for the others. -/
def DomainCall.auth_mark : DomainCall → AuthMark
  | .logout => .required
  | .getProfile => .required
  | .getSearchHistory _ => .required
  | .getRecommendations => .required
  | .clearSearchHistory => .required
  | .searchProducts _ => .when_token
  | .login _ _ => .no
  | .registerUser _ => .no
  | .searchBusinesses _ => .no
  | .getBusinessById _ => .no
  | .getProductById _ => .no
  | .getBusinessProducts _ => .no

/-- The text of a structured result, by entry point: `[]` for the four that
deliver a list, `\x7b\x7d` for the four that deliver an object, none for the
entry points that deliver no structured result. -/
def CCall.placeholder_json : CCall → Option String
  | .search_products _ _ _ _ _ _ _ _ _ => some "[]"
  | .search_businesses _ _ _ _ _ _ _ => some "[]"
  | .get_business_products _ => some "[]"
  | .get_search_history _ => some "[]"
  | .get_profile => some "\x7b\x7d"
  | .get_product _ => some "\x7b\x7d"
  | .get_business _ => some "\x7b\x7d"
  | .get_recommendations => some "\x7b\x7d"
  | _ => none

/-! ## The base URL as the interface description reads it -/

/-- The string `scheme://host[:port][rest]` made of the given parts. -/
def UrlMatch.text (u : UrlMatch) : String :=
  u.scheme ++ "://" ++ u.host ++ when_present u.port (fun port => ":" ++ port) ++ u.rest

/-- The form of the interface description: the scheme is http or https, the host
is not empty and has neither `:` nor `/`, and the port, when there is one, is a
non-empty string of decimal digits. -/
def UrlMatch.of_the_form (u : UrlMatch) : Bool :=
  (u.scheme == "http" || u.scheme == "https")
    && !u.host.toList.isEmpty && u.host.toList.all is_host_char
    && (match u.port with
        | some port => !port.toList.isEmpty && port.toList.all Char.isDigit
        | none => true)

/-- The rest begins where the host or the port ends: after a port it does not
go on with a digit; after a host without a port it is empty, or begins with `/`,
or with a `:` that no digit follows. -/
def UrlMatch.rest_apart (u : UrlMatch) : Bool :=
  match u.port, u.rest.toList with
  | _, [] => true
  | some _, c :: _ => !c.isDigit
  | none, c :: cs =>
    c == '/' || (c == ':' && (match cs with
      | [] => true
      | d :: _ => !d.isDigit))

/-- The rest has no line terminator. -/
def UrlMatch.one_line (u : UrlMatch) : Bool := !u.rest.toList.any is_line_terminator

/-- A wrapper whose members are not yet assigned, as the constructor has it
before `parseHost`. -/
def HttpClient.blank : HttpClient :=
  { host_ := "", port_ := 0, scheme_ := "", client_ := none, timeout_seconds_ := 30 }

/-! ## Reading a request body back -/

/-- The character an escape stands for, by the character that follows the
backslash, for the seven escapes `escape_json_string` writes. -/
def unescape_json_char (c : Char) : Option Char :=
  if c = '"' then some '"'
  else if c = '\\' then some '\\'
  else if c = 'b' then some '\x08'
  else if c = 'f' then some '\x0c'
  else if c = 'n' then some '\n'
  else if c = 'r' then some '\r'
  else if c = 't' then some '\t'
  else none

/-- Read a JSON string value from just after its opening quote, undoing the
escapes: the characters of the value, and the text that follows the closing
quote.  The flag tells that the previous character was the backslash of an
escape.  There is no value when the closing quote is missing or an escape is
not one of the seven. -/
def read_json_string : Bool → List Char → Option (List Char × List Char)
  | _, [] => none
  | true, c :: rest =>
    match unescape_json_char c, read_json_string false rest with
    | some d, some (value, after) => some (d :: value, after)
    | _, _ => none
  | false, c :: rest =>
    if c = '"' then some ([], rest)
    else if c = '\\' then read_json_string true rest
    else
      match read_json_string false rest with
      | some (value, after) => some (c :: value, after)
      | none => none

/-- The string an escaped text stands for: the value read from the text closed
by a quote, when nothing is left after that quote. -/
def unescape_json_string (escaped : String) : Option String :=
  match read_json_string false (escaped.toList ++ ['"']) with
  | some (value, []) => some (String.mk value)
  | _ => none

/-- Take a literal off the front of a text: what follows it, when the text
starts with it. -/
def drop_literal : List Char → List Char → Option (List Char)
  | [], text => some text
  | _ :: _, [] => none
  | l :: literal, c :: text => if l = c then drop_literal literal text else none

/-- Read a login request body back: the username and the password of an object
with exactly the two fields `username` and `password`, in that order. -/
def parse_login_request (body : String) : Option (String × String) :=
  match drop_literal "\x7b\"username\":\"".toList body.toList with
  | none => none
  | some text =>
    match read_json_string false text with
    | none => none
    | some (username, text) =>
      match drop_literal ",\"password\":\"".toList text with
      | none => none
      | some text =>
        match read_json_string false text with
        | none => none
        | some (password, text) =>
          if text = ['\x7d'] then some (String.mk username, String.mk password) else none

/-- The body of a register request as the interface description words it: an
object with the five fields of `RegisterRequest`, each with its escaped value. -/
def spec_register_body (req : RegisterRequest) : String :=
  "\x7b\"username\":\"" ++ escape_json_string req.username
    ++ "\",\"email\":\"" ++ escape_json_string req.email
    ++ "\",\"password\":\"" ++ escape_json_string req.password
    ++ "\",\"full_name\":\"" ++ escape_json_string req.full_name
    ++ "\",\"phone\":\"" ++ escape_json_string req.phone
    ++ "\"\x7d"

/-! ## The JNI bridge (`jni_bridge.cpp`) -/

/-- Struct `JavaCallbackContext`: the two global references to the host
callbacks (0 is null).  The `JavaVM*` it holds too is the one virtual machine of
the process, on whose attached thread its destructor runs. -/
structure JavaCallbackContext where
  callback_success : Nat
  callback_error : Nat
deriving DecidableEq, Repr

/-- The arguments of one `invoke` of a host callback. -/
inductive JavaCall where
  | login_success (access_token refresh_token : String) (expires_in : Int)
  | error (status_code : Int) (message : String)
  | void_success
  | json_success (json : String)
deriving DecidableEq, Repr

/-- What the bridge does to the virtual machine. -/
inductive JniEvent where
  | new_global_ref (ref : Nat)
  | delete_global_ref (ref : Nat)
  | new_local_ref (ref : Nat)
  | delete_local_ref (ref : Nat)
  | new_java_context (address : Nat)
  | delete_java_context (address : Nat)
  | invoke (callback : Nat) (call : JavaCall)
deriving DecidableEq, Repr

/-- The part of the virtual machine and of the native heap the bridge acts on:
the live global references, the live local references of the thread, the live
`JavaCallbackContext` objects by address, the last reference and the last
address handed out, and what was done so far, oldest first. -/
structure Jvm where
  global_refs : List Nat
  local_refs : List Nat
  java_contexts : List (Nat × JavaCallbackContext)
  last_ref : Nat
  last_address : Nat
  log : List JniEvent
deriving DecidableEq, Repr

namespace Jvm

/-- A virtual machine where the bridge has done nothing yet. -/
def empty : Jvm :=
  { global_refs := [], local_refs := [], java_contexts := [], last_ref := 0,
    last_address := 0, log := [] }

/-- Function `NewGlobalRef`: null for a null object, a fresh global reference
otherwise. -/
def NewGlobalRef (j : Jvm) (obj : Nat) : Nat × Jvm :=
  if obj = 0 then (0, j)
  else
    let ref := j.last_ref + 1
    (ref,
      { j with
        global_refs := ref :: j.global_refs
        last_ref := ref
        log := j.log ++ [JniEvent.new_global_ref ref] })

/-- Function `DeleteGlobalRef` on a reference that is not null. -/
def DeleteGlobalRef (j : Jvm) (ref : Nat) : Except Fault Jvm :=
  if ref ∈ j.global_refs then
    pure
      { j with
        global_refs := j.global_refs.erase ref
        log := j.log ++ [JniEvent.delete_global_ref ref] }
  else throw Fault.double_free

/-- A JNI function that returns a new local reference: `FindClass`,
`NewStringUTF`, `NewObject`. -/
def new_local_ref (j : Jvm) : Nat × Jvm :=
  let ref := j.last_ref + 1
  (ref,
    { j with
      local_refs := ref :: j.local_refs
      last_ref := ref
      log := j.log ++ [JniEvent.new_local_ref ref] })

/-- Function `GetObjectClass`: a new local reference to the class of an object
that is not null. -/
def GetObjectClass (j : Jvm) (obj : Nat) : Except Fault (Nat × Jvm) :=
  if obj = 0 then throw Fault.null_dereference else pure j.new_local_ref

/-- Function `DeleteLocalRef`. -/
def DeleteLocalRef (j : Jvm) (ref : Nat) : Except Fault Jvm :=
  if ref ∈ j.local_refs then
    pure
      { j with
        local_refs := j.local_refs.erase ref
        log := j.log ++ [JniEvent.delete_local_ref ref] }
  else throw Fault.double_free

/-- Function `CallObjectMethod` on the `invoke` of a host callback: the callback
runs, and the object it returns, when it returns one, comes back as a new local
reference (null otherwise).  A Kotlin function object always returns one,
`Unit`. -/
def CallObjectMethod (j : Jvm) (returns_object : Bool) (callback : Nat) (call : JavaCall) :
    Nat × Jvm :=
  let j := { j with log := j.log ++ [JniEvent.invoke callback call] }
  if returns_object then j.new_local_ref else (0, j)

/-- Expression `new JavaCallbackContext{...}`. -/
def new_java_context (j : Jvm) (ctx : JavaCallbackContext) : Nat × Jvm :=
  let address := j.last_address + 1
  (address,
    { j with
      java_contexts := (address, ctx) :: j.java_contexts
      last_address := address
      log := j.log ++ [JniEvent.new_java_context address] })

/-- Read through a `JavaCallbackContext*`. -/
def deref (j : Jvm) (address : Nat) : Except Fault JavaCallbackContext :=
  match j.java_contexts.lookup address with
  | some ctx => pure ctx
  | none => throw Fault.use_after_free

/-- Statement `delete ctx`: the destructor deletes the two global references
that are not null, then the object is gone. -/
def delete_java_context (j : Jvm) (address : Nat) : Except Fault Jvm :=
  match j.java_contexts.lookup address with
  | some ctx => do
    let j ← if ctx.callback_success ≠ 0 then j.DeleteGlobalRef ctx.callback_success else pure j
    let j ← if ctx.callback_error ≠ 0 then j.DeleteGlobalRef ctx.callback_error else pure j
    pure
      { j with
        java_contexts := j.java_contexts.eraseP (fun entry => entry.1 == address)
        log := j.log ++ [JniEvent.delete_java_context address] }
  | none => throw Fault.double_free

end Jvm

/-- The success closure of `nativeLogin`. -/
def jni_login_success (returns_object : Bool) (user_data : Nat)
    (access_token refresh_token : String) (expires_in : Int) (j : Jvm) : Except Fault Jvm := do
  let ctx ← j.deref user_data
  let (callbackClass, j) ← j.GetObjectClass ctx.callback_success
  let (jAccessToken, j) := j.new_local_ref
  let (jRefreshToken, j) := j.new_local_ref
  let (integerClass, j) := j.new_local_ref
  let (jExpiresIn, j) := j.new_local_ref
  let (_, j) := j.CallObjectMethod returns_object ctx.callback_success
    (.login_success access_token refresh_token expires_in)
  let j ← j.DeleteLocalRef jExpiresIn
  let j ← j.DeleteLocalRef integerClass
  let j ← j.DeleteLocalRef jAccessToken
  let j ← j.DeleteLocalRef jRefreshToken
  let j ← j.DeleteLocalRef callbackClass
  j.delete_java_context user_data

/-- The error closure, the same text in the four entry points. -/
def jni_error (returns_object : Bool) (user_data : Nat) (status_code : Int)
    (error_message : String) (j : Jvm) : Except Fault Jvm := do
  let ctx ← j.deref user_data
  let (callbackClass, j) ← j.GetObjectClass ctx.callback_error
  let (integerClass, j) := j.new_local_ref
  let (jStatusCode, j) := j.new_local_ref
  let (jMessage, j) := j.new_local_ref
  let (_, j) := j.CallObjectMethod returns_object ctx.callback_error
    (.error status_code error_message)
  let j ← j.DeleteLocalRef jStatusCode
  let j ← j.DeleteLocalRef integerClass
  let j ← j.DeleteLocalRef jMessage
  let j ← j.DeleteLocalRef callbackClass
  j.delete_java_context user_data

/-- The success closure of `nativeRegister`. -/
def jni_void_success (returns_object : Bool) (user_data : Nat) (j : Jvm) :
    Except Fault Jvm := do
  let ctx ← j.deref user_data
  let (callbackClass, j) ← j.GetObjectClass ctx.callback_success
  let (_, j) := j.CallObjectMethod returns_object ctx.callback_success .void_success
  let j ← j.DeleteLocalRef callbackClass
  j.delete_java_context user_data

/-- The success closure of `nativeSearchProducts` and of
`nativeSearchBusinesses`. -/
def jni_json_success (returns_object : Bool) (user_data : Nat) (json : String) (j : Jvm) :
    Except Fault Jvm := do
  let ctx ← j.deref user_data
  let (callbackClass, j) ← j.GetObjectClass ctx.callback_success
  let (jJson, j) := j.new_local_ref
  let (_, j) := j.CallObjectMethod returns_object ctx.callback_success (.json_success json)
  let j ← j.DeleteLocalRef jJson
  let j ← j.DeleteLocalRef callbackClass
  j.delete_java_context user_data

/-- The function pointer of the success closure an entry point passes. -/
def jni_success_closure : Nat := 1

/-- The function pointer of the error closure an entry point passes. -/
def jni_error_closure : Nat := 2

/-- What a call into the host made by the C interface does to the virtual
machine, the host being the JNI bridge: the call runs the closure of its kind
on its user data and arguments. -/
def jni_closure (returns_object : Bool) : Event → Jvm → Except Fault Jvm
  | .login_callback _ user_data access_token refresh_token expires_in, j =>
    jni_login_success returns_object user_data access_token refresh_token expires_in j
  | .error_callback _ user_data status_code error_message, j =>
    jni_error returns_object user_data status_code error_message j
  | .void_callback _ user_data, j => jni_void_success returns_object user_data j
  | .json_callback _ user_data json, j => jni_json_success returns_object user_data json j
  | _, j => pure j

/-- The closures run by a list of events, in order. -/
def jni_closures (returns_object : Bool) : List Event → Jvm → Except Fault Jvm
  | [], j => pure j
  | e :: es, j => do
    let j ← jni_closure returns_object e j
    jni_closures returns_object es j

/-- The body the four asynchronous entry points share: pin the two host
callbacks, make the context, make the call of the C interface with the two
closures and the context as user data; the closures run where that call calls
into the host.  The handle 0 is the null handle. -/
def jni_entry (env : Env) (returns_object : Bool) (handle : BizMapClientHandle)
    (call : CCall) (onSuccess onError : Nat) (j : Jvm) (w : World) :
    Except Fault (BizMapClientHandle × Jvm × World) := do
  let (callback_success, j) := j.NewGlobalRef onSuccess
  let (callback_error, j) := j.NewGlobalRef onError
  let (ctx, j) := j.new_java_context ⟨callback_success, callback_error⟩
  let (client, w') ← bizmap_call env handle call jni_success_closure jni_error_closure ctx w
  let j ← jni_closures returns_object (w'.trace.drop w.trace.length) j
  pure (client, j, w')

/-- Function `Java_com_aisoldev_bizmap_BizMapClient_nativeLogin`, for strings
that are not null. -/
def nativeLogin (env : Env) (returns_object : Bool) (handle : BizMapClientHandle)
    (username password : String) (onSuccess onError : Nat) (j : Jvm) (w : World) :
    Except Fault (BizMapClientHandle × Jvm × World) :=
  jni_entry env returns_object handle (.login (some username) (some password))
    onSuccess onError j w

/-- Function `Java_com_aisoldev_bizmap_BizMapClient_nativeRegister`, for strings
that are not null. -/
def nativeRegister (env : Env) (returns_object : Bool) (handle : BizMapClientHandle)
    (username email password fullName : String) (onSuccess onError : Nat) (j : Jvm)
    (w : World) : Except Fault (BizMapClientHandle × Jvm × World) :=
  jni_entry env returns_object handle
    (.register (some username) (some email) (some password) (some fullName))
    onSuccess onError j w

/-- Function `Java_com_aisoldev_bizmap_BizMapClient_nativeSearchProducts`, for a
query that is not null. -/
def nativeSearchProducts (env : Env) (returns_object : Bool) (handle : BizMapClientHandle)
    (query : String) (latitude longitude : Double) (radiusMeters : Int)
    (minPrice maxPrice : Double) (category : Option String) (limit offset : Int)
    (onSuccess onError : Nat) (j : Jvm) (w : World) :
    Except Fault (BizMapClientHandle × Jvm × World) :=
  jni_entry env returns_object handle
    (.search_products (some query) latitude longitude radiusMeters minPrice maxPrice
      category limit offset)
    onSuccess onError j w

/-- Function `Java_com_aisoldev_bizmap_BizMapClient_nativeSearchBusinesses`, for
a query that is not null. -/
def nativeSearchBusinesses (env : Env) (returns_object : Bool)
    (handle : BizMapClientHandle) (query : String) (latitude longitude : Double)
    (radiusMeters : Int) (category : Option String) (limit offset : Int)
    (onSuccess onError : Nat) (j : Jvm) (w : World) :
    Except Fault (BizMapClientHandle × Jvm × World) :=
  jni_entry env returns_object handle
    (.search_businesses (some query) latitude longitude radiusMeters category limit offset)
    onSuccess onError j w

/-- The four asynchronous entry points of the JNI bridge, by their arguments. -/
inductive JniCall where
  | login (username password : String)
  | register (username email password fullName : String)
  | search_products (query : String) (latitude longitude : Double) (radiusMeters : Int)
      (minPrice maxPrice : Double) (category : Option String) (limit offset : Int)
  | search_businesses (query : String) (latitude longitude : Double) (radiusMeters : Int)
      (category : Option String) (limit offset : Int)
deriving DecidableEq, Repr

/-- Make the call: dispatch to the entry point. -/
def jni_call (env : Env) (returns_object : Bool) (handle : BizMapClientHandle)
    (call : JniCall) (onSuccess onError : Nat) (j : Jvm) (w : World) :
    Except Fault (BizMapClientHandle × Jvm × World) :=
  match call with
  | .login username password =>
    nativeLogin env returns_object handle username password onSuccess onError j w
  | .register username email password fullName =>
    nativeRegister env returns_object handle username email password fullName onSuccess
      onError j w
  | .search_products query latitude longitude radiusMeters minPrice maxPrice category limit
      offset =>
    nativeSearchProducts env returns_object handle query latitude longitude radiusMeters
      minPrice maxPrice category limit offset onSuccess onError j w
  | .search_businesses query latitude longitude radiusMeters category limit offset =>
    nativeSearchBusinesses env returns_object handle query latitude longitude radiusMeters
      category limit offset onSuccess onError j w

/-- The call of the C interface an entry point makes. -/
def JniCall.c_call : JniCall → CCall
  | .login username password => .login (some username) (some password)
  | .register username email password fullName =>
    .register (some username) (some email) (some password) (some fullName)
  | .search_products query latitude longitude radiusMeters minPrice maxPrice category limit
      offset =>
    .search_products (some query) latitude longitude radiusMeters minPrice maxPrice category
      limit offset
  | .search_businesses query latitude longitude radiusMeters category limit offset =>
    .search_businesses (some query) latitude longitude radiusMeters category limit offset

/-- Whether the event is the deletion of the `JavaCallbackContext` at the
address. -/
def JniEvent.is_delete_of (address : Nat) : JniEvent → Bool
  | .delete_java_context a => a == address
  | _ => false

/-- Whether the event is the deletion of a global reference. -/
def JniEvent.is_delete_global : JniEvent → Bool
  | .delete_global_ref _ => true
  | _ => false

/-! ## Concrete instances -/

/-- The httplib client of a wrapper made for `http://localhost:8080`. -/
def localhost_httplib : HttplibClient :=
  { ssl := false, host := "localhost", port := 8080, read_timeout_sec := 30,
    write_timeout_sec := 30 }

/-- The client `ApiClient("http://localhost:8080")`. -/
def localhost_client : ApiClient :=
  { base_url_ := "http://localhost:8080"
    auth_token_ := ""
    http_client_ :=
      { host_ := "localhost", port_ := 8080, scheme_ := "http",
        client_ := some localhost_httplib, timeout_seconds_ := 30 } }

/-- The text of a `double` in the classic locale, as the C string that the
conversion `%g` leaves in the buffer of the stream. -/
def classic_text (x : Double) : String := c_str (ostream_double_classic x)

/-- A build without TLS in the classic locale and with stack enough for every
URL, whose backend answers every request with the given status and body. -/
def Env.answering (status : Int) (body : String) : Env :=
  { openssl_support := false
    ostream_double := classic_text
    ostream_text := fun _ h => by simpa using List.mem_takeWhile_imp h
    regex_overflows := fun _ => false
    exchange := fun _ _ => .response status body }

/-- A build without TLS in the classic locale and with stack enough for every
URL, whose backend cannot be reached. -/
def Env.unreachable : Env :=
  { openssl_support := false
    ostream_double := classic_text
    ostream_text := fun _ h => by simpa using List.mem_takeWhile_imp h
    regex_overflows := fun _ => false
    exchange := fun _ _ => .error .Connection }

/-- A build like `Env.unreachable` where the recursion of the URL matcher
exhausts the stack on every text of more than 50000 characters. -/
def Env.shallow_stack : Env :=
  { Env.unreachable with regex_overflows := fun text => decide (50000 < text.length) }

/-- A URL of 50009 characters: `http://h/` followed by 50000 letters. -/
def long_url : String := "http://h/" ++ String.mk (List.replicate 50000 'a')

/-- The body of the login response of the interface description. -/
def login_response_body : String :=
  "\x7b\"access_token\":\"T\",\"refresh_token\":\"R\",\"token_type\":\"Bearer\",\"expires_in\":3600\x7d"

/-- The client of `http://localhost:8080` after `setAuthToken("old")`. -/
def logged_client : ApiClient := localhost_client.setAuthToken "old"


/-! # Properties

## C strings -/

theorem c_str_no_nul (text : String) : '\x00' ∉ (c_str text).toList := by
  intro h
  simpa using List.mem_takeWhile_imp h

theorem mem_c_str (text : String) (c : Char) (h : c ∈ (c_str text).toList) :
    c ∈ text.toList :=
  (List.takeWhile_sublist _).subset h

theorem takeWhile_no_nul (l : List Char) (h : '\x00' ∉ l) :
    l.takeWhile (fun c => c != '\x00') = l := by
  induction l with
  | nil => rfl
  | cons c l ih =>
    have hc : (c != '\x00') = true := by
      simpa using fun e : c = '\x00' => h (e ▸ List.mem_cons_self _ _)
    have hl : '\x00' ∉ l := fun e => h (List.mem_cons_of_mem _ e)
    rw [List.takeWhile_cons, hc, if_pos rfl, ih hl]

theorem c_str_of_no_nul (text : String) (h : '\x00' ∉ text.toList) : c_str text = text := by
  apply String.ext
  exact takeWhile_no_nul _ h

theorem takeWhile_append_no_nul (a b : List Char) (h : '\x00' ∉ a) :
    (a ++ b).takeWhile (fun c => c != '\x00') = a ++ b.takeWhile (fun c => c != '\x00') := by
  induction a with
  | nil => rfl
  | cons c a ih =>
    have hc : (c != '\x00') = true := by
      simpa using fun e : c = '\x00' => h (e ▸ List.mem_cons_self _ _)
    have ha : '\x00' ∉ a := fun e => h (List.mem_cons_of_mem _ e)
    rw [List.cons_append, List.takeWhile_cons, hc, if_pos rfl, ih ha, List.cons_append]

/-- A text that starts without a NUL keeps that start, and is cut in what follows. -/
theorem c_str_append (a b : String) (h : '\x00' ∉ a.toList) :
    c_str (a ++ b) = a ++ c_str b := by
  apply String.ext
  simp only [c_str, String.toList, String.data_append]
  exact takeWhile_append_no_nul _ _ h

theorem c_str_idem (text : String) : c_str (c_str text) = c_str text :=
  c_str_of_no_nul _ (c_str_no_nul text)

/-- What follows a NUL does not arrive. -/
theorem c_str_cut (a b : String) (h : '\x00' ∉ a.toList) :
    c_str (a ++ String.singleton '\x00' ++ b) = a := by
  rw [String.append_assoc, c_str_append a _ h]
  have : c_str (String.singleton '\x00' ++ b) = "" := by
    apply String.ext
    simp [c_str, String.singleton, String.data_append, List.takeWhile]
  rw [this]
  simp

/-! ## Texts of numbers -/

theorem digitChar_is_digit (n : Nat) (h : n < 10) : (Nat.digitChar n).isDigit = true := by
  interval_cases n <;> decide

theorem toDigitsCore_digits (fuel n : Nat) (ds : List Char)
    (hds : ∀ c ∈ ds, c.isDigit = true) :
    ∀ c ∈ Nat.toDigitsCore 10 fuel n ds, c.isDigit = true := by
  induction fuel generalizing n ds with
  | zero => simpa [Nat.toDigitsCore] using hds
  | succ fuel ih =>
    have hd : (Nat.digitChar (n % 10)).isDigit = true :=
      digitChar_is_digit _ (Nat.mod_lt _ (by decide))
    intro c hc
    simp only [Nat.toDigitsCore] at hc
    split at hc
    · rcases List.mem_cons.mp hc with h | h
      · subst h; exact hd
      · exact hds c h
    · refine ih _ _ (fun c hc => ?_) c hc
      rcases List.mem_cons.mp hc with h | h
      · subst h; exact hd
      · exact hds c h

theorem toDigits_digits (n : Nat) : ∀ c ∈ Nat.toDigits 10 n, c.isDigit = true :=
  toDigitsCore_digits _ _ [] (fun _ h => absurd h (List.not_mem_nil _))

/-- The text of an `int` is made of decimal digits and a minus sign. -/
theorem int_to_string_chars (i : Int) :
    ∀ c ∈ (int_to_string i).toList, c = '-' ∨ c.isDigit = true := by
  intro c hc
  cases i with
  | ofNat m =>
    have h : (int_to_string (Int.ofNat m)).toList = Nat.toDigits 10 m := rfl
    rw [h] at hc
    exact Or.inr (toDigits_digits m c hc)
  | negSucc m =>
    have h : (int_to_string (Int.negSucc m)).toList = '-' :: Nat.toDigits 10 (m + 1) := rfl
    rw [h] at hc
    rcases List.mem_cons.mp hc with h | h
    · exact Or.inl h
    · exact Or.inr (toDigits_digits _ c h)

theorem int_to_string_no_amp (i : Int) : '&' ∉ (int_to_string i).toList := by
  intro h
  rcases int_to_string_chars i _ h with h | h
  · exact absurd h (by decide)
  · exact absurd h (by decide)

theorem int_to_string_no_nul (i : Int) : '\x00' ∉ (int_to_string i).toList := by
  intro h
  rcases int_to_string_chars i _ h with h | h
  · exact absurd h (by decide)
  · exact absurd h (by decide)

/-! ## What a call does -/

theorem HttpClient.ensureClient_of_some (env : Env) (self : HttpClient) (k : HttplibClient)
    (hk : self.client_ = some k) : self.ensureClient env = .ok self := by
  unfold HttpClient.ensureClient
  rw [hk]
  rfl

theorem HttpClient.get_eq (env : Env) (self : HttpClient) (k : HttplibClient)
    (hk : self.client_ = some k) (path : String) (headers : Headers)
    (f : Int → String → World → Except Fault World) (g : Callback String) (w : World) :
    self.get env path headers f g w =
      match env.exchange k ⟨.GET, c_str path, headers, "", ""⟩ with
      | .response s b => with_client self (f s b (w.record (.request k ⟨.GET, c_str path, headers, "", ""⟩)))
      | .error e => with_client self (g ("Error de red: " ++ get_error_text e)
          (w.record (.request k ⟨.GET, c_str path, headers, "", ""⟩))) := by
  unfold HttpClient.get
  rw [HttpClient.ensureClient_of_some env self k hk]
  simp only [bind, Except.bind, HttpClient.perform, hk, pure, Except.pure, with_client,
    Except.map]

theorem HttpClient.post_eq (env : Env) (self : HttpClient) (k : HttplibClient)
    (hk : self.client_ = some k) (path body : String) (headers : Headers)
    (f : Int → String → World → Except Fault World) (g : Callback String) (w : World) :
    self.post env path body headers f g w =
      match env.exchange k ⟨.POST, c_str path, headers, body, "application/json"⟩ with
      | .response s b => with_client self
          (f s b (w.record (.request k ⟨.POST, c_str path, headers, body, "application/json"⟩)))
      | .error _ => with_client self (g "Error de red: no se pudo completar la petición POST"
          (w.record (.request k ⟨.POST, c_str path, headers, body, "application/json"⟩))) := by
  unfold HttpClient.post
  rw [HttpClient.ensureClient_of_some env self k hk]
  simp only [bind, Except.bind, HttpClient.perform, hk, pure, Except.pure, with_client,
    Except.map]

theorem HttpClient.del_eq (env : Env) (self : HttpClient) (k : HttplibClient)
    (hk : self.client_ = some k) (path : String) (headers : Headers)
    (f : Int → String → World → Except Fault World) (g : Callback String) (w : World) :
    self.del env path headers f g w =
      match env.exchange k ⟨.DELETE, c_str path, headers, "", ""⟩ with
      | .response s b => with_client self
          (f s b (w.record (.request k ⟨.DELETE, c_str path, headers, "", ""⟩)))
      | .error _ => with_client self (g "Error de red: no se pudo completar la petición DELETE"
          (w.record (.request k ⟨.DELETE, c_str path, headers, "", ""⟩))) := by
  unfold HttpClient.del
  rw [HttpClient.ensureClient_of_some env self k hk]
  simp only [bind, Except.bind, HttpClient.perform, hk, pure, Except.pure, with_client,
    Except.map]

/-- The fixed paths hold no NUL: httplib is given them whole. -/
theorem c_str_fixed_paths :
    c_str "/api/v1/auth/login" = "/api/v1/auth/login" ∧
    c_str "/api/v1/auth/register" = "/api/v1/auth/register" ∧
    c_str "/api/v1/auth/logout" = "/api/v1/auth/logout" ∧
    c_str "/api/v1/auth/profile" = "/api/v1/auth/profile" ∧
    c_str "/api/v1/search/recommendations" = "/api/v1/search/recommendations" ∧
    c_str "/api/v1/search/history" = "/api/v1/search/history" := by
  decide

/-- The path of the search history holds no NUL. -/
theorem c_str_history_path (limit : Int) :
    c_str ("/api/v1/search/history?limit=" ++ int_to_string limit) =
      "/api/v1/search/history?limit=" ++ int_to_string limit := by
  rw [c_str_append _ _ (by decide), c_str_of_no_nul _ (int_to_string_no_nul limit)]

/-- The descriptions of a transport failure hold no NUL. -/
theorem c_str_failure_description (method : Method) (err : HttplibError) :
    c_str (failure_description method err) = failure_description method err := by
  cases method <;> cases err <;> decide

theorem c_str_get_failure (err : HttplibError) :
    c_str ("Error de red: " ++ get_error_text err) = "Error de red: " ++ get_error_text err :=
  c_str_failure_description .GET err

theorem c_str_failure_texts :
    c_str "Error de red: no se pudo completar la petición POST" =
      "Error de red: no se pudo completar la petición POST" ∧
    c_str "Error de red: no se pudo completar la petición DELETE" =
      "Error de red: no se pudo completar la petición DELETE" := by
  decide

/-- The two placeholders hold no NUL. -/
theorem c_str_placeholders : c_str "[]" = "[]" ∧ c_str "\x7b\x7d" = "\x7b\x7d" := by
  decide

theorem Headers.set_authorization (v t : String) :
    Headers.set [("Content-Type", v)] "Authorization" t =
      [("Content-Type", v), ("Authorization", t)] := by
  have h : ("Content-Type" == "Authorization") = false := by decide
  simp [Headers.set, h]

/-- What a Domain Client call does, for a client whose HTTP wrapper holds the
httplib client `k`: the request of the interface table leaves, and the outcome
decides the one callback that runs. -/
theorem ApiClient.call_eq (env : Env) (c : ApiClient) (k : HttplibClient)
    (hk : c.http_client_.client_ = some k) (op : DomainCall)
    (onSuccess : Callback Payload) (onError : Callback ApiError) (w : World) :
    c.call env op onSuccess onError w =
      match env.exchange k (op.request env c) with
      | .response status body =>
        if 200 ≤ status ∧ status < 300 then
          with_client c (onSuccess (op.result body) (w.record (.request k (op.request env c))))
        else
          with_client c (onError ⟨status, body, ""⟩ (w.record (.request k (op.request env c))))
      | .error e =>
        with_client c (onError ⟨0, failure_description (op.request env c).method e, ""⟩
          (w.record (.request k (op.request env c)))) := by
  cases op <;>
    simp only [ApiClient.call, ApiClient.login, ApiClient.registerUser, ApiClient.logout,
      ApiClient.getProfile, ApiClient.searchBusinesses, ApiClient.getBusinessById,
      ApiClient.searchProducts, ApiClient.getProductById, ApiClient.getBusinessProducts,
      ApiClient.getSearchHistory, ApiClient.getRecommendations, ApiClient.clearSearchHistory,
      HttpClient.get_eq env _ k hk, HttpClient.post_eq env _ k hk, HttpClient.del_eq env _ k hk,
      DomainCall.request, DomainCall.result, failure_description, from_json.parse_error,
      ApiError.mk2, ge_iff_le, c_str_fixed_paths, c_str_history_path]
  all_goals try
    cases hte : c.auth_token_.isEmpty <;>
      simp only [hte, Headers.set_authorization, Bool.not_true, Bool.not_false, if_true,
        if_false, Bool.false_eq_true]
  all_goals
    generalize env.exchange k _ = r
    cases r with
    | response s b =>
      by_cases h : 200 ≤ s ∧ s < 300 <;>
        simp only [h, if_true, if_false, with_client, Except.map, bind, Except.bind, pure,
          Except.pure, and_self, not_false_eq_true] <;>
        first
        | (generalize onSuccess _ _ = r2; cases r2 <;> rfl)
        | (generalize onError _ _ = r2; cases r2 <;> rfl)
    | error e =>
      simp only [with_client, Except.map, bind, Except.bind, pure, Except.pure]
      generalize onError _ _ = r2
      cases r2 <;> rfl

theorem World.deref_head (cs : List (Nat × CallbackContext)) (a n : Nat) (t : List Event)
    (ctx : CallbackContext) : World.deref ⟨(a, ctx) :: cs, n, t⟩ a = .ok ctx := by
  simp [World.deref, List.lookup, pure, Except.pure]

theorem World.delete_context_head (cs : List (Nat × CallbackContext)) (a n : Nat)
    (t : List Event) (ctx : CallbackContext) :
    World.delete_context ⟨(a, ctx) :: cs, n, t⟩ a = .ok ⟨cs, n, t ++ [.delete_context a]⟩ := by
  simp [World.delete_context, List.lookup, pure, Except.pure, List.eraseP]

theorem on_error_lambda_eq (cs : List (Nat × CallbackContext)) (a n : Nat) (t : List Event)
    (ctx : CallbackContext) (error : ApiError) :
    on_error_lambda a error ⟨(a, ctx) :: cs, n, t⟩ =
      .ok ⟨cs, n, t ++ ((if ctx.error_callback ≠ 0 then
        [Event.error_callback ctx.error_callback ctx.user_data error.status_code
          (c_str error.error_message)] else []) ++ [.delete_context a])⟩ := by
  unfold on_error_lambda
  simp only [World.deref_head, bind, Except.bind]
  by_cases h : ctx.error_callback = 0 <;>
    simp [h, World.record, World.delete_context_head]

theorem login_lambda_eq (cs : List (Nat × CallbackContext)) (a n : Nat) (t : List Event)
    (ctx : CallbackContext) (response : AuthResponse) :
    login_lambda a response ⟨(a, ctx) :: cs, n, t⟩ =
      .ok ⟨cs, n, t ++ ((if ctx.login_callback ≠ 0 then
        [Event.login_callback ctx.login_callback ctx.user_data (c_str response.access_token)
          (c_str response.refresh_token) response.expires_in] else []) ++
        [.delete_context a])⟩ := by
  unfold login_lambda
  simp only [World.deref_head, bind, Except.bind]
  by_cases h : ctx.login_callback = 0 <;>
    simp [h, World.record, World.delete_context_head]

theorem void_lambda_eq (cs : List (Nat × CallbackContext)) (a n : Nat) (t : List Event)
    (ctx : CallbackContext) :
    void_lambda a ⟨(a, ctx) :: cs, n, t⟩ =
      .ok ⟨cs, n, t ++ ((if ctx.void_callback ≠ 0 then
        [Event.void_callback ctx.void_callback ctx.user_data] else []) ++
        [.delete_context a])⟩ := by
  unfold void_lambda
  simp only [World.deref_head, bind, Except.bind]
  by_cases h : ctx.void_callback = 0 <;>
    simp [h, World.record, World.delete_context_head]

theorem json_lambda_eq (member : CallbackContext → Nat) (json : String)
    (cs : List (Nat × CallbackContext)) (a n : Nat) (t : List Event) (ctx : CallbackContext) :
    json_lambda member json a ⟨(a, ctx) :: cs, n, t⟩ =
      .ok ⟨cs, n, t ++ ((if member ctx ≠ 0 then
        [Event.json_callback (member ctx) ctx.user_data (c_str json)] else []) ++
        [.delete_context a])⟩ := by
  unfold json_lambda
  simp only [World.deref_head, bind, Except.bind]
  by_cases h : member ctx = 0 <;>
    simp [h, World.record, World.delete_context_head]

/-- What an entry point does for a live handle and arguments with no required
string missing: one context is made, the request leaves, the outcome decides the
call into the host, and the context is deleted. -/
theorem bizmap_call_eq (env : Env) (c : ApiClient) (k : HttplibClient)
    (hk : c.http_client_.client_ = some k) (call : CCall) (op : DomainCall)
    (hop : call.domain_call = some op) (on_success on_error user_data : Nat) (w : World) :
    bizmap_call env (some c) call on_success on_error user_data w =
      .ok (some c,
        { contexts := w.contexts
          last_address := w.last_address + 1
          trace := w.trace ++
            ([Event.new_context (w.last_address + 1), Event.request k (op.request env c)] ++
              call.host_calls (op.request env c) on_success on_error user_data
                (env.exchange k (op.request env c)) ++
              [Event.delete_context (w.last_address + 1)]) }) := by
  unfold CCall.domain_call at hop
  split at hop <;> cases hop <;>
    simp only [bizmap_call, bizmap_login, bizmap_register, bizmap_logout, bizmap_get_profile,
      bizmap_search_products, bizmap_get_product, bizmap_search_businesses,
      bizmap_get_business, bizmap_get_business_products, bizmap_get_search_history,
      bizmap_get_recommendations, bizmap_clear_search_history,
      ApiClient.login, ApiClient.registerUser, ApiClient.logout,
      ApiClient.getProfile, ApiClient.searchBusinesses, ApiClient.getBusinessById,
      ApiClient.searchProducts, ApiClient.getProductById, ApiClient.getBusinessProducts,
      ApiClient.getSearchHistory, ApiClient.getRecommendations, ApiClient.clearSearchHistory,
      World.new_context, HttpClient.get_eq env _ k hk, HttpClient.post_eq env _ k hk,
      HttpClient.del_eq env _ k hk, DomainCall.request, c_str_fixed_paths, c_str_history_path]
  all_goals try
    cases hte : c.auth_token_.isEmpty <;>
      simp only [hte, Headers.set_authorization, Bool.not_true, Bool.not_false, if_true,
        if_false, Bool.false_eq_true]
  all_goals
    generalize env.exchange k _ = r
    cases r with
    | response s b =>
      by_cases h : 200 ≤ s ∧ s < 300 <;>
        by_cases hs : on_success = 0 <;> by_cases he : on_error = 0 <;>
        simp [h, hs, he, World.record, with_client, Except.map, bind, Except.bind, pure,
          Except.pure, login_lambda_eq, on_error_lambda_eq, void_lambda_eq, json_lambda_eq,
          CCall.host_calls, CCall.success_event, CallbackContext.of_user_data,
          from_json.parse_error, ApiError.mk2, failure_description, c_str_failure_texts,
          c_str_get_failure,          c_str_placeholders]
    | error err =>
      by_cases he : on_error = 0 <;>
        simp [he, World.record, with_client, Except.map, bind, Except.bind, pure,
          Except.pure, login_lambda_eq, on_error_lambda_eq, void_lambda_eq, json_lambda_eq,
          CCall.host_calls, CCall.success_event, CallbackContext.of_user_data,
          from_json.parse_error, ApiError.mk2, failure_description, c_str_failure_texts,
          c_str_get_failure,          c_str_placeholders]

theorem HttpClient.ensureClient_has_client (env : Env) (h h' : HttpClient)
    (hok : h.ensureClient env = .ok h') : ∃ k, h'.client_ = some k := by
  unfold HttpClient.ensureClient at hok
  cases hc : h.client_ with
  | some k =>
    simp only [hc, pure, Except.pure, Except.ok.injEq] at hok
    exact ⟨k, hok ▸ hc⟩
  | none =>
    by_cases hs : (h.scheme_ == "https") = true <;>
      by_cases ho : env.openssl_support = true <;>
      simp [hc, hs, ho, bind, Except.bind, pure, Except.pure, throw, throwThe,
        MonadExceptOf.throw] at hok <;>
      (subst hok; exact ⟨_, rfl⟩)

/-- The constructor leaves the wrapper with an httplib client: every `ApiClient`
that exists satisfies the hypothesis the properties below make on it. -/
theorem ApiClient.new_has_client (env : Env) (base_url : String) (c : ApiClient)
    (h : ApiClient.new env base_url = .ok c) : ∃ k, c.http_client_.client_ = some k := by
  unfold ApiClient.new at h
  cases hn : HttpClient.new env base_url with
  | error f => simp [hn, bind, Except.bind] at h
  | ok http =>
    simp only [hn, bind, Except.bind, pure, Except.pure, Except.ok.injEq] at h
    subst h
    unfold HttpClient.new at hn
    simp only [bind, Except.bind] at hn
    split at hn
    · cases hn
    · exact HttpClient.ensureClient_has_client env _ _ hn

theorem localhost_client_eq (env : Env) :
    ApiClient.new env "http://localhost:8080" = .ok localhost_client := by
  rfl

/-- With no required string missing, an entry point has a Domain Client call to
make. -/
theorem CCall.domain_call_of_required (call : CCall) (hreq : call.missing_required = false) :
    ∃ op, call.domain_call = some op := by
  cases call with
  | login username password =>
    cases username <;> cases password <;> simp [CCall.missing_required] at hreq
    exact ⟨_, rfl⟩
  | register username email password full_name =>
    cases username <;> cases email <;> cases password <;>
      simp [CCall.missing_required] at hreq
    exact ⟨_, rfl⟩
  | search_products query latitude longitude radius_meters min_price max_price category
      limit offset =>
    cases query <;> simp [CCall.missing_required] at hreq
    exact ⟨_, rfl⟩
  | get_product product_id =>
    cases product_id <;> simp [CCall.missing_required] at hreq
    exact ⟨_, rfl⟩
  | get_business business_id =>
    cases business_id <;> simp [CCall.missing_required] at hreq
    exact ⟨_, rfl⟩
  | get_business_products business_id =>
    cases business_id <;> simp [CCall.missing_required] at hreq
    exact ⟨_, rfl⟩
  | logout => exact ⟨_, rfl⟩
  | get_profile => exact ⟨_, rfl⟩
  | search_businesses query latitude longitude radius_meters category limit offset =>
    exact ⟨_, rfl⟩
  | get_search_history limit => exact ⟨_, rfl⟩
  | get_recommendations => exact ⟨_, rfl⟩
  | clear_search_history => exact ⟨_, rfl⟩

/-! ## Query strings -/

theorem split_at_ne_nil (sep : Char) (l : List Char) : split_at sep l ≠ [] := by
  cases l with
  | nil => simp [split_at]
  | cons c cs =>
    unfold split_at
    split
    · simp
    · split <;> simp

theorem split_at_append (sep : Char) (a b : List Char) :
    split_at sep (a ++ sep :: b) = split_at sep a ++ split_at sep b := by
  induction a with
  | nil => simp [split_at]
  | cons c a ih =>
    by_cases hc : c = sep
    · simp [split_at, hc, ih]
    · cases hs : split_at sep a with
      | nil => exact absurd hs (split_at_ne_nil sep a)
      | cons p ps => simp [split_at, hc, ih, hs]

theorem split_at_clean (sep : Char) (a : List Char) (h : sep ∉ a) : split_at sep a = [a] := by
  induction a with
  | nil => simp [split_at]
  | cons c a ih =>
    have hc : c ≠ sep := fun e => h (e ▸ List.mem_cons_self _ _)
    have ha : sep ∉ a := fun e => h (List.mem_cons_of_mem _ e)
    simp [split_at, hc, ih ha]

/-- A text that starts with a clean prefix has a first piece that starts with
it. -/
theorem split_at_head (sep : Char) (a z : List Char) (h : sep ∉ a) :
    ∃ p ps, split_at sep (a ++ z) = (a ++ p) :: ps := by
  induction a with
  | nil =>
    cases hs : split_at sep z with
    | nil => exact absurd hs (split_at_ne_nil sep z)
    | cons p ps => exact ⟨p, ps, by simp [hs]⟩
  | cons c a ih =>
    have hc : c ≠ sep := fun e => h (e ▸ List.mem_cons_self _ _)
    have ha : sep ∉ a := fun e => h (List.mem_cons_of_mem _ e)
    obtain ⟨p, ps, hp⟩ := ih ha
    exact ⟨p, ps, by simp [split_at, hc, hp]⟩


theorem piece_names_append (a b : List Char) :
    piece_names (a ++ '&' :: b) = piece_names a ++ piece_names b := by
  simp [piece_names, split_at_append]

theorem takeWhile_name (k z : List Char) (hk : '=' ∉ k) :
    (k ++ '=' :: z).takeWhile (fun c => c != '=') = k := by
  induction k with
  | nil => simp [List.takeWhile]
  | cons c k ih =>
    have hc : c ≠ '=' := fun e => hk (e ▸ List.mem_cons_self _ _)
    have hk' : '=' ∉ k := fun e => hk (List.mem_cons_of_mem _ e)
    have hb : (c != '=') = true := by simpa using hc
    simp [List.takeWhile, hb, ih hk']

/-- A text `name=value` followed by `&rest`: the names are those of
`name=value`, then those of the rest. -/
theorem names_split (k v rest : String) :
    piece_names (k ++ ("=" ++ (v ++ ("&" ++ rest)))).data =
      piece_names (k ++ ("=" ++ v)).data ++ piece_names rest.data := by
  have h : (k ++ ("=" ++ (v ++ ("&" ++ rest)))).data =
      (k ++ ("=" ++ v)).data ++ '&' :: rest.data := by
    simp [String.data_append]
  rw [h, piece_names_append]

/-- A text `name=value`: the name, then what the value brings in. -/
theorem names_chunk (k v : String) (hk : '&' ∉ k.data ∧ '=' ∉ k.data) :
    piece_names (k ++ ("=" ++ v)).data = k :: injected_names v := by
  have h1 : (k ++ ("=" ++ v)).data = k.data ++ ('=' :: v.data) := by
    simp [String.data_append]
  have h2 : ("=" ++ v).data = [] ++ ('=' :: v.data) := by
    simp [String.data_append]
  obtain ⟨p, ps, hp⟩ := split_at_head '&' ['='] v.data (by decide)
  have hs : split_at '&' ('=' :: v.data) = ('=' :: p) :: ps := by simpa using hp
  have hsk : ∀ l : List Char, '&' ∉ l →
      split_at '&' (l ++ '=' :: v.data) = (l ++ '=' :: p) :: ps := by
    intro l
    induction l with
    | nil => intro _; simpa using hs
    | cons c l ih =>
      intro hl
      have hc : c ≠ '&' := fun e => hl (e ▸ List.mem_cons_self _ _)
      have hl' : '&' ∉ l := fun e => hl (List.mem_cons_of_mem _ e)
      simp [split_at, hc, ih hl']
  unfold injected_names piece_names
  rw [h1, h2, hsk k.data hk.1]
  simp only [List.nil_append, hs, List.map_cons, List.tail_cons, takeWhile_name _ _ hk.2]

theorem injected_names_clean (v : String) (hv : '&' ∉ v.data) : injected_names v = [] := by
  have h : '&' ∉ ("=" ++ v).data := by
    simp only [String.data_append, List.mem_append, not_or]
    exact ⟨by decide, hv⟩
  have h' : split_at '&' ("=" ++ v).data = [("=" ++ v).data] := split_at_clean _ _ h
  unfold injected_names piece_names
  rw [h']
  rfl

theorem query_string_businesses (rest : String) :
    query_string ("/api/v1/businesses/search?q=" ++ rest) = ("q" ++ ("=" ++ rest)).data := by
  simp [query_string, List.dropWhile]

theorem query_string_products (rest : String) :
    query_string ("/api/v1/products/search?q=" ++ rest) = ("q" ++ ("=" ++ rest)).data := by
  simp [query_string, List.dropWhile]

/-- The parameters of the path of a business search, in order: each name the
operation writes, followed by what its value brings in. -/
theorem searchBusinesses_param_names (env : Env) (params : BusinessSearchParams) :
    param_names (ApiClient.searchBusinesses_path env params) =
      ("q" :: injected_names params.query) ++
      ((match params.location with
        | some location =>
          ("lat" :: injected_names (env.ostream_double location.latitude)) ++
          (("lng" :: injected_names (env.ostream_double location.longitude)) ++
            (match params.radius_meters with
            | some radius_meters => "radius" :: injected_names (int_to_string radius_meters)
            | none => []))
        | none => []) ++
      ((match params.category with
        | some category => "category" :: injected_names category
        | none => []) ++
      (("limit" :: injected_names (int_to_string params.limit)) ++
        ("offset" :: injected_names (int_to_string params.offset))))) := by
  obtain ⟨query, category, location, radius_meters, limit, offset⟩ := params
  have e_lat : "&lat=" = "&" ++ ("lat" ++ "=") := by decide
  have e_lng : "&lng=" = "&" ++ ("lng" ++ "=") := by decide
  have e_radius : "&radius=" = "&" ++ ("radius" ++ "=") := by decide
  have e_category : "&category=" = "&" ++ ("category" ++ "=") := by decide
  have e_limit : "&limit=" = "&" ++ ("limit" ++ "=") := by decide
  have e_offset : "&offset=" = "&" ++ ("offset" ++ "=") := by decide
  simp only [ApiClient.searchBusinesses_path, param_names]
  generalize int_to_string = f
  cases category <;> cases location <;> cases radius_meters <;>
    simp only [e_lat, e_lng, e_radius, e_category, e_limit, e_offset, String.append_assoc,
      query_string_businesses, names_split] <;>
    simp +decide only [names_chunk, List.append_nil, List.nil_append, List.append_assoc,
      List.cons_append]

/-- The parameters of the path of a product search, in order: each name the
operation writes, followed by what its value brings in. -/
theorem searchProducts_param_names (env : Env) (params : ProductSearchParams) :
    param_names (ApiClient.searchProducts_path env params) =
      ("q" :: injected_names params.query) ++
      ((match params.location with
        | some location =>
          ("lat" :: injected_names (env.ostream_double location.latitude)) ++
          (("lng" :: injected_names (env.ostream_double location.longitude)) ++
            (match params.radius_meters with
            | some radius_meters => "radius" :: injected_names (int_to_string radius_meters)
            | none => []))
        | none => []) ++
      ((match params.min_price with
        | some min_price => "min_price" :: injected_names (env.ostream_double min_price)
        | none => []) ++
      ((match params.max_price with
        | some max_price => "max_price" :: injected_names (env.ostream_double max_price)
        | none => []) ++
      ((match params.category with
        | some category => "category" :: injected_names category
        | none => []) ++
      (("limit" :: injected_names (int_to_string params.limit)) ++
        ("offset" :: injected_names (int_to_string params.offset))))))) := by
  obtain ⟨query, category, location, radius_meters, min_price, max_price, limit, offset⟩ :=
    params
  have e_lat : "&lat=" = "&" ++ ("lat" ++ "=") := by decide
  have e_lng : "&lng=" = "&" ++ ("lng" ++ "=") := by decide
  have e_radius : "&radius=" = "&" ++ ("radius" ++ "=") := by decide
  have e_min : "&min_price=" = "&" ++ ("min_price" ++ "=") := by decide
  have e_max : "&max_price=" = "&" ++ ("max_price" ++ "=") := by decide
  have e_category : "&category=" = "&" ++ ("category" ++ "=") := by decide
  have e_limit : "&limit=" = "&" ++ ("limit" ++ "=") := by decide
  have e_offset : "&offset=" = "&" ++ ("offset" ++ "=") := by decide
  simp only [ApiClient.searchProducts_path, param_names]
  generalize int_to_string = f
  cases category <;> cases location <;> cases radius_meters <;> cases min_price <;>
    cases max_price <;>
    simp only [e_lat, e_lng, e_radius, e_min, e_max, e_category, e_limit, e_offset,
      String.append_assoc, query_string_products, names_split] <;>
    simp +decide only [names_chunk, List.append_nil, List.nil_append, List.append_assoc,
      List.cons_append]


/-! ## Paths without a NUL -/

theorem no_nul_append {a b : String} (ha : '\x00' ∉ a.toList) (hb : '\x00' ∉ b.toList) :
    '\x00' ∉ (a ++ b).toList := by
  simp only [String.toList, String.data_append, List.mem_append, not_or]
  exact ⟨ha, hb⟩

/-- The path of a business search holds no NUL when the query and the category
hold none. -/
theorem searchBusinesses_path_no_nul (env : Env) (params : BusinessSearchParams)
    (hq : '\x00' ∉ params.query.toList)
    (hc : ∀ cat, params.category = some cat → '\x00' ∉ cat.toList) :
    '\x00' ∉ (ApiClient.searchBusinesses_path env params).toList := by
  obtain ⟨query, category, location, radius_meters, limit, offset⟩ := params
  cases category <;> cases location <;> cases radius_meters <;>
    simp only [ApiClient.searchBusinesses_path] <;>
    (repeat' apply no_nul_append) <;>
    first
    | exact hq
    | exact hc _ rfl
    | exact env.ostream_text _
    | exact int_to_string_no_nul _
    | decide

/-- The path of a product search holds no NUL when the query and the category
hold none. -/
theorem searchProducts_path_no_nul (env : Env) (params : ProductSearchParams)
    (hq : '\x00' ∉ params.query.toList)
    (hc : ∀ cat, params.category = some cat → '\x00' ∉ cat.toList) :
    '\x00' ∉ (ApiClient.searchProducts_path env params).toList := by
  obtain ⟨query, category, location, radius_meters, min_price, max_price, limit, offset⟩ :=
    params
  cases category <;> cases location <;> cases radius_meters <;> cases min_price <;>
    cases max_price <;>
    simp only [ApiClient.searchProducts_path] <;>
    (repeat' apply no_nul_append) <;>
    first
    | exact hq
    | exact hc _ rfl
    | exact env.ostream_text _
    | exact int_to_string_no_nul _
    | decide

/-- The query and the category `bizmap_search_businesses` puts in its
parameters hold no NUL. -/
theorem business_search_params_no_nul (query : Option String) (latitude longitude : Double)
    (radius_meters : Int) (category : Option String) (limit offset : Int) :
    '\x00' ∉ (business_search_params query latitude longitude radius_meters category limit
        offset).query.toList ∧
    ∀ cat, (business_search_params query latitude longitude radius_meters category limit
        offset).category = some cat → '\x00' ∉ cat.toList := by
  constructor
  · by_cases hloc : (latitude.ne_zero || longitude.ne_zero) = true <;>
      by_cases hr : radius_meters > 0 <;> cases category <;>
      simp only [business_search_params, hloc, hr, if_true, if_false] <;>
      exact c_str_no_nul _
  · intro cat hcat
    by_cases hloc : (latitude.ne_zero || longitude.ne_zero) = true <;>
      by_cases hr : radius_meters > 0 <;> cases category <;>
      simp only [business_search_params, BusinessSearchParams.default, hloc, hr, if_true,
        if_false, Option.some.injEq, reduceCtorEq] at hcat <;>
      (subst hcat; exact c_str_no_nul _)

/-- The query and the category `bizmap_search_products` puts in its parameters
hold no NUL. -/
theorem product_search_params_no_nul (query : String) (latitude longitude : Double)
    (radius_meters : Int) (min_price max_price : Double) (category : Option String)
    (limit offset : Int) :
    '\x00' ∉ (product_search_params query latitude longitude radius_meters min_price
        max_price category limit offset).query.toList ∧
    ∀ cat, (product_search_params query latitude longitude radius_meters min_price
        max_price category limit offset).category = some cat → '\x00' ∉ cat.toList := by
  constructor
  · by_cases hloc : (latitude.ne_zero || longitude.ne_zero) = true <;>
      by_cases hr : radius_meters > 0 <;>
      by_cases hmin : min_price.ge_zero = true <;>
      by_cases hmax : max_price.ge_zero = true <;> cases category <;>
      simp only [product_search_params, hloc, hr, hmin, hmax, if_true, if_false] <;>
      exact c_str_no_nul _
  · intro cat hcat
    by_cases hloc : (latitude.ne_zero || longitude.ne_zero) = true <;>
      by_cases hr : radius_meters > 0 <;>
      by_cases hmin : min_price.ge_zero = true <;>
      by_cases hmax : max_price.ge_zero = true <;> cases category <;>
      simp only [product_search_params, ProductSearchParams.default, hloc, hr, hmin, hmax,
        if_true, if_false, Option.some.injEq, reduceCtorEq] at hcat <;>
      (subst hcat; exact c_str_no_nul _)

/-- The path `bizmap_search_businesses` writes reaches httplib whole. -/
theorem business_search_path_whole (env : Env) (query : Option String)
    (latitude longitude : Double) (radius_meters : Int) (category : Option String)
    (limit offset : Int) :
    c_str (ApiClient.searchBusinesses_path env
        (business_search_params query latitude longitude radius_meters category limit
          offset)) =
      ApiClient.searchBusinesses_path env
        (business_search_params query latitude longitude radius_meters category limit
          offset) :=
  c_str_of_no_nul _ (searchBusinesses_path_no_nul env _
    (business_search_params_no_nul query latitude longitude radius_meters category limit
      offset).1
    (business_search_params_no_nul query latitude longitude radius_meters category limit
      offset).2)

/-- The path `bizmap_search_products` writes reaches httplib whole. -/
theorem product_search_path_whole (env : Env) (query : String)
    (latitude longitude : Double) (radius_meters : Int) (min_price max_price : Double)
    (category : Option String) (limit offset : Int) :
    c_str (ApiClient.searchProducts_path env
        (product_search_params query latitude longitude radius_meters min_price max_price
          category limit offset)) =
      ApiClient.searchProducts_path env
        (product_search_params query latitude longitude radius_meters min_price max_price
          category limit offset) :=
  c_str_of_no_nul _ (searchProducts_path_no_nul env _
    (product_search_params_no_nul query latitude longitude radius_meters min_price max_price
      category limit offset).1
    (product_search_params_no_nul query latitude longitude radius_meters min_price max_price
      category limit offset).2)

/-! ## The classic text of a double -/

theorem mem_strip_trailing_zeros (l : List Char) (c : Char)
    (h : c ∈ strip_trailing_zeros l) : c ∈ l := by
  unfold strip_trailing_zeros at h
  have h1 := List.mem_reverse.mp h
  have h2 := (List.dropWhile_sublist _).subset h1
  exact List.mem_reverse.mp h2

theorem mem_fraction_text (l : List Char) (c : Char) (h : c ∈ fraction_text l) :
    c = '.' ∨ c ∈ l := by
  unfold fraction_text at h
  split at h
  · exact absurd h (List.not_mem_nil _)
  · rename_i kept _
    rcases List.mem_cons.mp h with h | h
    · exact Or.inl h
    · exact Or.inr (mem_strip_trailing_zeros l c h)

theorem exponent_text_chars (k : Nat) (c : Char) (h : c ∈ exponent_text k) :
    c.isDigit = true ∨ c = '.' ∨ c = 'e' ∨ c = '+' ∨ c = '-' := by
  unfold exponent_text at h
  simp only at h
  have hed := toDigits_digits (if 401 ≤ k then k - 401 else 401 - k)
  generalize Nat.toDigits 10 (if 401 ≤ k then k - 401 else 401 - k) = ed at h hed
  rcases List.mem_append.mp h with h | h
  · rcases List.mem_cons.mp h with h | h
    · exact Or.inr (Or.inr (Or.inl h))
    · rcases List.mem_cons.mp h with h | h
      · split at h
        · exact Or.inr (Or.inr (Or.inr (Or.inl h)))
        · exact Or.inr (Or.inr (Or.inr (Or.inr h)))
      · exact absurd h (List.not_mem_nil _)
  · split at h
    · rcases List.mem_cons.mp h with h | h
      · subst h; exact Or.inl (by decide)
      · exact Or.inl (hed c h)
    · exact Or.inl (hed c h)

theorem g6_layout_chars (k : Nat) (digits : List Char)
    (hd : ∀ c ∈ digits, c.isDigit = true) (c : Char) (h : c ∈ g6_layout k digits) :
    c.isDigit = true ∨ c = '.' ∨ c = 'e' ∨ c = '+' ∨ c = '-' := by
  unfold g6_layout at h
  split at h
  · split at h
    · rcases List.mem_append.mp h with h | h
      · exact Or.inl (hd c (List.mem_of_mem_take h))
      · rcases mem_fraction_text _ _ h with h | h
        · exact Or.inr (Or.inl h)
        · exact Or.inl (hd c (List.mem_of_mem_drop h))
    · rcases List.mem_cons.mp h with h | h
      · subst h; exact Or.inl (by decide)
      · rcases mem_fraction_text _ _ h with h | h
        · exact Or.inr (Or.inl h)
        · rcases List.mem_append.mp h with h | h
          · rw [List.eq_of_mem_replicate h]; exact Or.inl (by decide)
          · exact Or.inl (hd c h)
  · rcases List.mem_append.mp h with h | h
    · rcases List.mem_append.mp h with h | h
      · exact Or.inl (hd c (List.mem_of_mem_take h))
      · rcases mem_fraction_text _ _ h with h | h
        · exact Or.inr (Or.inl h)
        · exact Or.inl (hd c (List.mem_of_mem_drop h))
    · exact exponent_text_chars k c h

/-- A character of the `%g` text of a positive value is a decimal digit, the
point, the `e` or a sign. -/
theorem format_g6_chars (n d : Nat) (c : Char) (h : c ∈ format_g6 n d) :
    c.isDigit = true ∨ c = '.' ∨ c = 'e' ∨ c = '+' ∨ c = '-' :=
  g6_layout_chars _ _ (toDigits_digits _) c h

theorem format_g6_no_amp (n d : Nat) : '&' ∉ format_g6 n d := by
  intro h
  rcases format_g6_chars n d _ h with h | h | h | h | h <;> exact absurd h (by decide)

/-- The classic text of a double has no `&`. -/
theorem ostream_double_classic_no_amp (x : Double) :
    '&' ∉ (ostream_double_classic x).toList := by
  unfold ostream_double_classic
  simp only [String.toList]
  intro h
  rcases List.mem_append.mp h with h | h
  · by_cases hs : x.sign = true
    · rw [if_pos hs] at h
      exact absurd h (by decide)
    · rw [if_neg hs] at h
      exact absurd h (List.not_mem_nil _)
  · by_cases h1 : x.exponent % 2048 = 2047
    · rw [if_pos h1] at h
      by_cases h2 : x.fraction % 2 ^ 52 = 0
      · rw [if_pos h2] at h
        exact absurd h (by decide)
      · rw [if_neg h2] at h
        exact absurd h (by decide)
    · rw [if_neg h1] at h
      by_cases h3 : x.exponent % 2048 = 0 ∧ x.fraction % 2 ^ 52 = 0
      · rw [if_pos h3] at h
        exact absurd h (by decide)
      · rw [if_neg h3] at h
        by_cases h4 : 1075 ≤ (if x.exponent % 2048 = 0 then 1 else x.exponent % 2048)
        · rw [if_pos h4] at h
          exact format_g6_no_amp _ _ h
        · rw [if_neg h4] at h
          exact format_g6_no_amp _ _ h


theorem format_g6_no_nul (n d : Nat) : '\x00' ∉ format_g6 n d := by
  intro h
  rcases format_g6_chars n d _ h with h | h | h | h | h <;> exact absurd h (by decide)

/-- The classic text of a double has no NUL. -/
theorem ostream_double_classic_no_nul (x : Double) :
    '\x00' ∉ (ostream_double_classic x).toList := by
  unfold ostream_double_classic
  simp only [String.toList]
  intro h
  rcases List.mem_append.mp h with h | h
  · by_cases hs : x.sign = true
    · rw [if_pos hs] at h
      exact absurd h (by decide)
    · rw [if_neg hs] at h
      exact absurd h (List.not_mem_nil _)
  · by_cases h1 : x.exponent % 2048 = 2047
    · rw [if_pos h1] at h
      by_cases h2 : x.fraction % 2 ^ 52 = 0
      · rw [if_pos h2] at h
        exact absurd h (by decide)
      · rw [if_neg h2] at h
        exact absurd h (by decide)
    · rw [if_neg h1] at h
      by_cases h3 : x.exponent % 2048 = 0 ∧ x.fraction % 2 ^ 52 = 0
      · rw [if_pos h3] at h
        exact absurd h (by decide)
      · rw [if_neg h3] at h
        by_cases h4 : 1075 ≤ (if x.exponent % 2048 = 0 then 1 else x.exponent % 2048)
        · rw [if_pos h4] at h
          exact format_g6_no_nul _ _ h
        · rw [if_neg h4] at h
          exact format_g6_no_nul _ _ h

/-- The C string the conversion leaves is the whole classic text. -/
theorem classic_text_eq (x : Double) : classic_text x = ostream_double_classic x :=
  c_str_of_no_nul _ (ostream_double_classic_no_nul x)

/-- The text of a double in the classic locale has no `&`. -/
theorem classic_text_no_amp (x : Double) : '&' ∉ (classic_text x).toList := by
  rw [classic_text_eq]
  exact ostream_double_classic_no_amp x

/-! ## The two search entry points -/

theorem injected_names_int (i : Int) : injected_names (int_to_string i) = [] :=
  injected_names_clean _ (int_to_string_no_amp i)

/-- What `bizmap_search_businesses` does on a live handle: its one request is a
GET of the path built from the normalised parameters. -/
theorem bizmap_search_businesses_run (env : Env) (c : ApiClient) (k : HttplibClient)
    (hk : c.http_client_.client_ = some k) (query : Option String)
    (latitude longitude : Double) (radius_meters : Int) (category : Option String)
    (limit offset : Int) (on_success on_error user_data : Nat) (w : World) :
    ∃ fired : List Event,
      bizmap_call env (some c)
          (.search_businesses query latitude longitude radius_meters category limit offset)
          on_success on_error user_data w =
        .ok (some c,
          { contexts := w.contexts
            last_address := w.last_address + 1
            trace := w.trace ++
              ([Event.new_context (w.last_address + 1),
                  Event.request k
                    { method := .GET
                      path := ApiClient.searchBusinesses_path env
                        (business_search_params query latitude longitude radius_meters
                          category limit offset)
                      headers := [("Content-Type", "application/json")]
                      body := "", content_type := "" }] ++
                fired ++ [Event.delete_context (w.last_address + 1)]) }) := by
  have hrun := bizmap_call_eq env c k hk
    (.search_businesses query latitude longitude radius_meters category limit offset)
    (.searchBusinesses (business_search_params query latitude longitude radius_meters
      category limit offset)) rfl on_success on_error user_data w
  simp only [DomainCall.request, business_search_path_whole] at hrun
  exact ⟨_, hrun⟩

/-- What `bizmap_search_products` does on a live handle with a query: its one
request is a GET of the path built from the normalised parameters. -/
theorem bizmap_search_products_run (env : Env) (c : ApiClient) (k : HttplibClient)
    (hk : c.http_client_.client_ = some k) (query : String)
    (latitude longitude : Double) (radius_meters : Int) (min_price max_price : Double)
    (category : Option String) (limit offset : Int) (on_success on_error user_data : Nat)
    (w : World) :
    ∃ (headers : Headers) (fired : List Event),
      bizmap_call env (some c)
          (.search_products (some query) latitude longitude radius_meters min_price
            max_price category limit offset)
          on_success on_error user_data w =
        .ok (some c,
          { contexts := w.contexts
            last_address := w.last_address + 1
            trace := w.trace ++
              ([Event.new_context (w.last_address + 1),
                  Event.request k
                    { method := .GET
                      path := ApiClient.searchProducts_path env
                        (product_search_params query latitude longitude radius_meters
                          min_price max_price category limit offset)
                      headers := headers
                      body := "", content_type := "" }] ++
                fired ++ [Event.delete_context (w.last_address + 1)]) }) := by
  have hrun := bizmap_call_eq env c k hk
    (.search_products (some query) latitude longitude radius_meters min_price max_price
      category limit offset)
    (.searchProducts (product_search_params query latitude longitude radius_meters
      min_price max_price category limit offset)) rfl on_success on_error user_data w
  simp only [DomainCall.request, product_search_path_whole] at hrun
  exact ⟨_, _, hrun⟩

/-- The parameter names of the path `bizmap_search_businesses` requests, when
the query and the category have no `&`. -/
theorem business_search_names (env : Env) (query : Option String)
    (latitude longitude : Double) (radius_meters : Int) (category : Option String)
    (limit offset : Int)
    (hq : ∀ q, query = some q → '&' ∉ q.toList)
    (hc : ∀ cat, category = some cat → '&' ∉ cat.toList)
    (henv : (latitude.ne_zero || longitude.ne_zero) = true →
      ∀ d, '&' ∉ (env.ostream_double d).toList) :
    param_names (ApiClient.searchBusinesses_path env
        (business_search_params query latitude longitude radius_meters category limit offset)) =
      "q" ::
        ((if (latitude.ne_zero || longitude.ne_zero) = true then
            "lat" :: "lng" :: (if radius_meters > 0 then ["radius"] else [])
          else []) ++
        ((if category.isSome then ["category"] else []) ++ ["limit", "offset"])) := by
  rw [searchBusinesses_param_names]
  have hq' : injected_names (c_str (query.getD "")) = [] := by
    cases query with
    | none => exact injected_names_clean _ (by decide)
    | some q => exact injected_names_clean _ (fun h => hq q rfl (mem_c_str _ _ h))
  have hc' : ∀ cat, category = some cat → injected_names (c_str cat) = [] :=
    fun cat h => injected_names_clean _ (fun hm => hc cat h (mem_c_str _ _ hm))
  by_cases hloc : (latitude.ne_zero || longitude.ne_zero) = true
  · have hd : ∀ d, injected_names (env.ostream_double d) = [] :=
      fun d => injected_names_clean _ (henv hloc d)
    by_cases hr : radius_meters > 0 <;> cases category <;>
      simp [business_search_params, BusinessSearchParams.default, hloc, hr, hq', hc', hd,
        injected_names_int]
  · by_cases hr : radius_meters > 0 <;> cases category <;>
      simp [business_search_params, BusinessSearchParams.default, hloc, hr, hq', hc',
        injected_names_int]

/-- The parameter names of the path `bizmap_search_products` requests, when the
query, the category and the texts of numbers have no `&`. -/
theorem product_search_names (env : Env) (query : String)
    (latitude longitude : Double) (radius_meters : Int) (min_price max_price : Double)
    (category : Option String) (limit offset : Int)
    (hq : '&' ∉ query.toList)
    (hc : ∀ cat, category = some cat → '&' ∉ cat.toList)
    (henv : ∀ d, '&' ∉ (env.ostream_double d).toList) :
    param_names (ApiClient.searchProducts_path env
        (product_search_params query latitude longitude radius_meters min_price max_price
          category limit offset)) =
      "q" ::
        ((if (latitude.ne_zero || longitude.ne_zero) = true then
            "lat" :: "lng" :: (if radius_meters > 0 then ["radius"] else [])
          else []) ++
        ((if min_price.ge_zero = true then ["min_price"] else []) ++
        ((if max_price.ge_zero = true then ["max_price"] else []) ++
        ((if category.isSome then ["category"] else []) ++ ["limit", "offset"])))) := by
  rw [searchProducts_param_names]
  have hq' : injected_names (c_str query) = [] :=
    injected_names_clean _ (fun h => hq (mem_c_str _ _ h))
  have hc' : ∀ cat, category = some cat → injected_names (c_str cat) = [] :=
    fun cat h => injected_names_clean _ (fun hm => hc cat h (mem_c_str _ _ hm))
  have hd : ∀ d, injected_names (env.ostream_double d) = [] :=
    fun d => injected_names_clean _ (henv d)
  by_cases hloc : (latitude.ne_zero || longitude.ne_zero) = true <;>
    by_cases hr : radius_meters > 0 <;>
    by_cases hmin : min_price.ge_zero = true <;>
    by_cases hmax : max_price.ge_zero = true <;> cases category <;>
    simp [product_search_params, ProductSearchParams.default, hloc, hr, hmin, hmax, hq', hc',
      hd, injected_names_int]

/-- With a location, the path of a business search has `lat` and `lng`, whatever
the texts are. -/
theorem business_search_has_location (env : Env) (query : Option String)
    (latitude longitude : Double) (radius_meters : Int) (category : Option String)
    (limit offset : Int) (hloc : (latitude.ne_zero || longitude.ne_zero) = true) :
    has_param "lat" (ApiClient.searchBusinesses_path env
        (business_search_params query latitude longitude radius_meters category limit
          offset)) = true ∧
    has_param "lng" (ApiClient.searchBusinesses_path env
        (business_search_params query latitude longitude radius_meters category limit
          offset)) = true := by
  unfold has_param
  rw [searchBusinesses_param_names]
  by_cases hr : radius_meters > 0 <;> cases category <;>
    simp [business_search_params, BusinessSearchParams.default, hloc, hr]

/-- With a location, the path of a product search has `lat` and `lng`, whatever
the texts are. -/
theorem product_search_has_location (env : Env) (query : String)
    (latitude longitude : Double) (radius_meters : Int) (min_price max_price : Double)
    (category : Option String) (limit offset : Int)
    (hloc : (latitude.ne_zero || longitude.ne_zero) = true) :
    has_param "lat" (ApiClient.searchProducts_path env
        (product_search_params query latitude longitude radius_meters min_price max_price
          category limit offset)) = true ∧
    has_param "lng" (ApiClient.searchProducts_path env
        (product_search_params query latitude longitude radius_meters min_price max_price
          category limit offset)) = true := by
  unfold has_param
  rw [searchProducts_param_names]
  by_cases hr : radius_meters > 0 <;>
    by_cases hmin : min_price.ge_zero = true <;>
    by_cases hmax : max_price.ge_zero = true <;> cases category <;>
    simp [product_search_params, ProductSearchParams.default, hloc, hr, hmin, hmax]


/-! ## Price filters of a product search -/

/-- A value below zero is not `>= 0`. -/
theorem Double.not_ge_zero_of_lt_zero (d : Double) (h : d.lt_zero = true) :
    d.ge_zero = false := by
  unfold Double.lt_zero at h
  unfold Double.ge_zero
  cases hs : d.sign <;> cases hz : d.is_zero <;> simp_all

/-- With `min_price >= 0`, the path of a product search has a `min_price`
parameter, whatever the texts are. -/
theorem product_search_has_min_price (env : Env) (query : String)
    (latitude longitude : Double) (radius_meters : Int) (min_price max_price : Double)
    (category : Option String) (limit offset : Int) (hmin : min_price.ge_zero = true) :
    has_param "min_price" (ApiClient.searchProducts_path env
        (product_search_params query latitude longitude radius_meters min_price max_price
          category limit offset)) = true := by
  unfold has_param
  rw [searchProducts_param_names]
  by_cases hloc : (latitude.ne_zero || longitude.ne_zero) = true <;>
    by_cases hr : radius_meters > 0 <;>
    by_cases hmax : max_price.ge_zero = true <;> cases category <;>
    simp [product_search_params, ProductSearchParams.default, hloc, hr, hmin, hmax]

/-- With `max_price >= 0`, the path of a product search has a `max_price`
parameter, whatever the texts are. -/
theorem product_search_has_max_price (env : Env) (query : String)
    (latitude longitude : Double) (radius_meters : Int) (min_price max_price : Double)
    (category : Option String) (limit offset : Int) (hmax : max_price.ge_zero = true) :
    has_param "max_price" (ApiClient.searchProducts_path env
        (product_search_params query latitude longitude radius_meters min_price max_price
          category limit offset)) = true := by
  unfold has_param
  rw [searchProducts_param_names]
  by_cases hloc : (latitude.ne_zero || longitude.ne_zero) = true <;>
    by_cases hr : radius_meters > 0 <;>
    by_cases hmin : min_price.ge_zero = true <;> cases category <;>
    simp [product_search_params, ProductSearchParams.default, hloc, hr, hmin, hmax]


/-! ## Limit and offset of a search -/

/-- The path of a business search ends with the limit and the offset of its
parameters. -/
theorem searchBusinesses_path_tail (env : Env) (params : BusinessSearchParams) :
    ∃ head : String, ApiClient.searchBusinesses_path env params =
      head ++ "&limit=" ++ int_to_string params.limit
        ++ "&offset=" ++ int_to_string params.offset :=
  ⟨_, rfl⟩

/-- The path of a product search ends with the limit and the offset of its
parameters. -/
theorem searchProducts_path_tail (env : Env) (params : ProductSearchParams) :
    ∃ head : String, ApiClient.searchProducts_path env params =
      head ++ "&limit=" ++ int_to_string params.limit
        ++ "&offset=" ++ int_to_string params.offset :=
  ⟨_, rfl⟩

/-- The limit and the offset `bizmap_search_businesses` puts in its
parameters. -/
theorem business_search_params_limit (query : Option String) (latitude longitude : Double)
    (radius_meters : Int) (category : Option String) (limit offset : Int) :
    (business_search_params query latitude longitude radius_meters category limit
        offset).limit = (if limit ≤ 0 then 20 else limit) ∧
    (business_search_params query latitude longitude radius_meters category limit
        offset).offset = (if offset < 0 then 0 else offset) := by
  constructor
  · by_cases h : limit > 0
    · simp [business_search_params, h, not_le.mpr h]
    · simp [business_search_params, h, not_lt.mp h]
  · by_cases h : offset ≥ 0
    · simp [business_search_params, h, not_lt.mpr h]
    · simp [business_search_params, h, not_le.mp h]

/-- The limit and the offset `bizmap_search_products` puts in its parameters. -/
theorem product_search_params_limit (query : String) (latitude longitude : Double)
    (radius_meters : Int) (min_price max_price : Double) (category : Option String)
    (limit offset : Int) :
    (product_search_params query latitude longitude radius_meters min_price max_price
        category limit offset).limit = (if limit ≤ 0 then 20 else limit) ∧
    (product_search_params query latitude longitude radius_meters min_price max_price
        category limit offset).offset = (if offset < 0 then 0 else offset) := by
  constructor
  · by_cases h : limit > 0
    · simp [product_search_params, h, not_le.mpr h]
    · simp [product_search_params, h, not_lt.mp h]
  · by_cases h : offset ≥ 0
    · simp [product_search_params, h, not_lt.mpr h]
    · simp [product_search_params, h, not_le.mp h]


/-! ## Observed calls and the layout of the search paths -/

/-- A call whose two callbacks only leave a mark adds two events to the trace:
the request of the operation, and the mark of the one callback that ran. -/
theorem ApiClient.call_observed (env : Env) (c : ApiClient) (k : HttplibClient)
    (hk : c.http_client_.client_ = some k) (op : DomainCall) (w : World) :
    ∃ outcome : Event,
      c.call env op observe_success observe_error w =
        .ok (c, { w with trace := w.trace ++ [.request k (op.request env c), outcome] }) := by
  rw [ApiClient.call_eq env c k hk]
  cases env.exchange k (op.request env c) with
  | response status body =>
    by_cases h : 200 ≤ status ∧ status < 300
    · exact ⟨.on_success (op.result body), by
        simp [h, with_client, observe_success, World.record, Except.map, pure, Except.pure]⟩
    · exact ⟨.on_error ⟨status, body, ""⟩, by
        simp [h, with_client, observe_error, World.record, Except.map, pure, Except.pure]⟩
  | error err =>
    exact ⟨.on_error ⟨0, failure_description (op.request env c).method err, ""⟩, by
      simp [with_client, observe_error, World.record, Except.map, pure, Except.pure]⟩

/-- The path `searchBusinesses` writes is the one of the interface
description. -/
theorem searchBusinesses_path_eq_spec (env : Env) (params : BusinessSearchParams) :
    ApiClient.searchBusinesses_path env params = spec_businesses_path env params := by
  obtain ⟨query, category, location, radius_meters, limit, offset⟩ := params
  cases category <;> cases location <;> cases radius_meters <;>
    simp [ApiClient.searchBusinesses_path, spec_businesses_path, when_present,
      String.append_assoc]

set_option maxRecDepth 100000 in
set_option exponentiation.threshold 2000 in
/-- The classic text of 40.7128. -/
theorem classic_text_latitude : ostream_double_classic latitude_40_7128 = "40.7128" := by
  decide

set_option maxRecDepth 100000 in
set_option exponentiation.threshold 2000 in
/-- The classic text of -74.0060. -/
theorem classic_text_longitude :
    ostream_double_classic longitude_neg_74_006 = "-74.006" := by
  decide

/-- The path `searchProducts` writes is the one of the interface description. -/
theorem searchProducts_path_eq_spec (env : Env) (params : ProductSearchParams) :
    ApiClient.searchProducts_path env params = spec_products_path env params := by
  obtain ⟨query, category, location, radius_meters, min_price, max_price, limit, offset⟩ :=
    params
  cases category <;> cases location <;> cases radius_meters <;> cases min_price <;>
    cases max_price <;>
    simp [ApiClient.searchProducts_path, spec_products_path, when_present,
      String.append_assoc]

/-- The parameter names of the path of a product search, when the query, the
category and the texts of numbers have no `&`. -/
theorem searchProducts_names_clean (env : Env) (params : ProductSearchParams)
    (hq : '&' ∉ params.query.toList)
    (hc : ∀ cat, params.category = some cat → '&' ∉ cat.toList)
    (henv : ∀ d, '&' ∉ (env.ostream_double d).toList) :
    param_names (ApiClient.searchProducts_path env params) = spec_products_names params := by
  rw [searchProducts_param_names]
  have hq' : injected_names params.query = [] := injected_names_clean _ hq
  have hc' : ∀ cat, params.category = some cat → injected_names cat = [] :=
    fun cat h => injected_names_clean _ (hc cat h)
  have hd : ∀ d, injected_names (env.ostream_double d) = [] :=
    fun d => injected_names_clean _ (henv d)
  obtain ⟨query, category, location, radius_meters, min_price, max_price, limit, offset⟩ :=
    params
  cases category <;> cases location <;> cases radius_meters <;> cases min_price <;>
    cases max_price <;>
    simp_all [spec_products_names, injected_names_int]

/-- The names the layout gives are taken from the nine of the interface
description, in their order, each at most once. -/
theorem spec_products_names_ordered (params : ProductSearchParams) :
    (spec_products_names params).Sublist products_parameter_order ∧
    (spec_products_names params).Nodup := by
  obtain ⟨query, category, location, radius_meters, min_price, max_price, limit, offset⟩ :=
    params
  cases category <;> cases location <;> cases radius_meters <;> cases min_price <;>
    cases max_price <;>
    simp only [spec_products_names, products_parameter_order, Option.isSome_some,
      Option.isSome_none, if_true, Bool.false_eq_true, if_false, List.append_nil,
      List.nil_append, List.cons_append] <;>
    exact ⟨by decide, by decide⟩


/-! ## The request bodies -/

/-- The text `to_json::login_request` writes. -/
theorem login_request_text (username password : String) :
    to_json.login_request username password =
      "\x7b\"username\":\"" ++ escape_json_string username
        ++ "\",\"password\":\"" ++ escape_json_string password ++ "\"\x7d" := by
  have e1 : "\x7b\"username\":\"" = "\x7b" ++ "\"username\":\"" := by decide
  have e2 : "\",\"password\":\"" = "\"," ++ "\"password\":\"" := by decide
  have e3 : "\"\x7d" = "\"" ++ "\x7d" := by decide
  rw [e1, e2, e3]
  simp only [to_json.login_request, String.append_assoc]

/-! ## Escaping and reading back -/

theorem escape_json_foldl (l : List Char) (acc : String) :
    (l.foldl (fun oss c => oss ++ escape_json_char c) acc).data =
      acc.data ++ (l.foldl (fun oss c => oss ++ escape_json_char c) "").data := by
  induction l generalizing acc with
  | nil => simp
  | cons c l ih =>
    simp only [List.foldl_cons]
    rw [ih (acc ++ escape_json_char c), ih ("" ++ escape_json_char c)]
    simp [String.data_append, List.append_assoc]

/-- The escaped text of `c :: l` is what is written for `c`, then the escaped
text of `l`. -/
theorem escape_json_string_cons (c : Char) (l : List Char) :
    (escape_json_string ⟨c :: l⟩).data =
      (escape_json_char c).data ++ (escape_json_string ⟨l⟩).data := by
  simp only [escape_json_string, String.toList, List.foldl_cons]
  rw [escape_json_foldl]
  simp [String.data_append]

/-- Reading an escaped text closed by a quote gives the characters back. -/
theorem read_escaped (l rest : List Char) :
    read_json_string false ((escape_json_string ⟨l⟩).data ++ '"' :: rest) = some (l, rest) := by
  induction l with
  | nil => simp [escape_json_string, read_json_string]
  | cons c l ih =>
    rw [escape_json_string_cons, List.append_assoc]
    unfold escape_json_char
    split_ifs with h1 h2 h3 h4 h5 h6 h7
    all_goals
      subst_vars
      simp +decide [read_json_string, unescape_json_char, ih, String.singleton, *]

/-- Undoing the escapes of an escaped string gives the string back. -/
theorem unescape_escape (s : String) :
    unescape_json_string (escape_json_string s) = some s := by
  unfold unescape_json_string
  have h := read_escaped s.data []
  simp only [String.toList]
  rw [h]

/-- The escaping is injective. -/
theorem escape_json_string_injective : Function.Injective escape_json_string := by
  intro a b h
  have ha := unescape_escape a
  rw [h, unescape_escape b] at ha
  exact (Option.some.inj ha).symm

/-- A text that starts with a literal loses it. -/
theorem drop_literal_append (literal text : List Char) :
    drop_literal literal (literal ++ text) = some text := by
  induction literal with
  | nil => cases text <;> rfl
  | cons l literal ih => simp [drop_literal, ih]

/-- Reading a login request body back gives the username and the password. -/
theorem parse_login_request_text (username password : String) :
    parse_login_request (to_json.login_request username password) =
      some (username, password) := by
  rw [login_request_text]
  have e2 : "\",\"password\":\"" = "\"" ++ ",\"password\":\"" := by decide
  have e3 : "\"\x7d" = "\"" ++ "\x7d" := by decide
  have e4 : ("\"" : String).data = ['"'] := rfl
  have e5 : ("\x7d" : String).data = ['\x7d'] := rfl
  rw [e2, e3]
  unfold parse_login_request
  simp only [String.toList, String.data_append, List.append_assoc, e4, e5,
    List.singleton_append]
  rw [drop_literal_append]
  simp only [List.cons_append, List.nil_append]
  rw [read_escaped username.data]
  simp only [drop_literal, if_true]
  rw [read_escaped password.data]
  simp

/-- The text `to_json::register_request` writes. -/
theorem register_request_text (req : RegisterRequest) :
    to_json.register_request req =
      "\x7b\"username\":\"" ++ escape_json_string req.username
        ++ "\",\"email\":\"" ++ escape_json_string req.email
        ++ "\",\"password\":\"" ++ escape_json_string req.password
        ++ "\",\"full_name\":\"" ++ escape_json_string req.full_name ++ "\""
        ++ (if req.phone.isEmpty then ""
            else ",\"phone\":\"" ++ escape_json_string req.phone ++ "\"")
        ++ "\x7d" := by
  apply String.ext
  cases h : req.phone.isEmpty <;>
    simp [to_json.register_request, h, String.data_append]

/-- With a phone, the text `to_json::register_request` writes has the five
fields. -/
theorem register_request_with_phone (req : RegisterRequest)
    (h : req.phone.isEmpty = false) :
    to_json.register_request req = spec_register_body req := by
  rw [register_request_text, spec_register_body]
  apply String.ext
  simp [h, String.data_append]


/-! ## The client across a call -/

/-- A call leaves the client it is made on as it was: what it returns is that
client and the world its one callback left, or that callback's exception. -/
theorem ApiClient.call_keeps_client (env : Env) (c : ApiClient) (k : HttplibClient)
    (hk : c.http_client_.client_ = some k) (op : DomainCall)
    (onSuccess : Callback Payload) (onError : Callback ApiError) (w : World) :
    ∃ r : Except Fault World, c.call env op onSuccess onError w = with_client c r := by
  rw [ApiClient.call_eq env c k hk]
  cases env.exchange k (op.request env c) with
  | response status body =>
    by_cases h : 200 ≤ status ∧ status < 300
    · refine ⟨onSuccess (op.result body) (w.record (.request k (op.request env c))), ?_⟩
      simp only [h, and_self, if_true]
    · refine ⟨onError ⟨status, body, ""⟩ (w.record (.request k (op.request env c))), ?_⟩
      simp only [h, if_false]
  | error err => exact ⟨_, rfl⟩

/-- The client a call returns is the one it was made on. -/
theorem ApiClient.call_client_eq (env : Env) (c : ApiClient) (k : HttplibClient)
    (hk : c.http_client_.client_ = some k) (op : DomainCall)
    (onSuccess : Callback Payload) (onError : Callback ApiError) (w : World)
    (c' : ApiClient) (w' : World) (h : c.call env op onSuccess onError w = .ok (c', w')) :
    c' = c := by
  obtain ⟨r, hr⟩ := ApiClient.call_keeps_client env c k hk op onSuccess onError w
  rw [hr] at h
  cases r with
  | error e => simp [with_client, Except.map] at h
  | ok w'' =>
    simp only [with_client, Except.map, Except.ok.injEq, Prod.mk.injEq] at h
    exact h.1.symm


/-! ## The radius of a search -/

/-- With a location and a radius, the path of a business search has a `radius`
parameter, whatever the texts are. -/
theorem searchBusinesses_has_radius (env : Env) (params : BusinessSearchParams)
    (h : params.location.isSome = true ∧ params.radius_meters.isSome = true) :
    has_param "radius" (ApiClient.searchBusinesses_path env params) = true := by
  unfold has_param
  rw [searchBusinesses_param_names]
  obtain ⟨query, category, location, radius_meters, limit, offset⟩ := params
  cases location <;> cases radius_meters <;> simp at h ⊢

/-- With a location and a radius, the path of a product search has a `radius`
parameter, whatever the texts are. -/
theorem searchProducts_has_radius (env : Env) (params : ProductSearchParams)
    (h : params.location.isSome = true ∧ params.radius_meters.isSome = true) :
    has_param "radius" (ApiClient.searchProducts_path env params) = true := by
  unfold has_param
  rw [searchProducts_param_names]
  obtain ⟨query, category, location, radius_meters, min_price, max_price, limit, offset⟩ :=
    params
  cases location <;> cases radius_meters <;> simp at h ⊢

/-- The `radius` parameter of the path of a business search, when the query, the
category and the texts of numbers have no `&`. -/
theorem searchBusinesses_radius_clean (env : Env) (params : BusinessSearchParams)
    (hq : '&' ∉ params.query.toList)
    (hc : ∀ cat, params.category = some cat → '&' ∉ cat.toList)
    (henv : ∀ d, '&' ∉ (env.ostream_double d).toList) :
    has_param "radius" (ApiClient.searchBusinesses_path env params) =
      (params.location.isSome && params.radius_meters.isSome) := by
  unfold has_param
  rw [searchBusinesses_param_names]
  have hq' : injected_names params.query = [] := injected_names_clean _ hq
  have hc' : ∀ cat, params.category = some cat → injected_names cat = [] :=
    fun cat h => injected_names_clean _ (hc cat h)
  have hd : ∀ d, injected_names (env.ostream_double d) = [] :=
    fun d => injected_names_clean _ (henv d)
  obtain ⟨query, category, location, radius_meters, limit, offset⟩ := params
  cases category <;> cases location <;> cases radius_meters <;>
    simp_all +decide [injected_names_int]

/-- The `radius` parameter of the path of a product search, when the query, the
category and the texts of numbers have no `&`. -/
theorem searchProducts_radius_clean (env : Env) (params : ProductSearchParams)
    (hq : '&' ∉ params.query.toList)
    (hc : ∀ cat, params.category = some cat → '&' ∉ cat.toList)
    (henv : ∀ d, '&' ∉ (env.ostream_double d).toList) :
    has_param "radius" (ApiClient.searchProducts_path env params) =
      (params.location.isSome && params.radius_meters.isSome) := by
  unfold has_param
  rw [searchProducts_names_clean env params hq hc henv]
  obtain ⟨query, category, location, radius_meters, min_price, max_price, limit, offset⟩ :=
    params
  cases category <;> cases location <;> cases radius_meters <;> cases min_price <;>
    cases max_price <;>
    simp +decide [spec_products_names]


/-! ## The pattern of the base URL -/

/-- Taking while `p` holds stops at the end of a list where `p` holds, when what
follows is empty or begins with a character where `p` fails. -/
theorem takeWhile_append_stop (p : Char → Bool) (l tail : List Char)
    (hl : ∀ c ∈ l, p c = true) (ht : ∀ c, tail.head? = some c → p c = false) :
    (l ++ tail).takeWhile p = l ∧ (l ++ tail).dropWhile p = tail := by
  induction l with
  | nil =>
    cases tail with
    | nil => simp
    | cons c cs => simp [List.takeWhile, List.dropWhile, ht c rfl]
  | cons a l ih =>
    have ha : p a = true := hl a (List.mem_cons_self a l)
    have ih' := ih (fun c hc => hl c (List.mem_cons_of_mem a hc))
    simp [List.takeWhile, List.dropWhile, ha, ih'.1, ih'.2]

/-- What is dropped while `p` holds begins, if it is not empty, with a character
where `p` fails. -/
theorem dropWhile_head (p : Char → Bool) (l : List Char) (c : Char)
    (h : (l.dropWhile p).head? = some c) : p c = false := by
  induction l with
  | nil => simp at h
  | cons a l ih =>
    by_cases ha : p a = true
    · simp only [List.dropWhile, ha] at h
      exact ih h
    · simp only [List.dropWhile, ha] at h
      simp only [List.head?_cons, Option.some.injEq] at h
      subst h
      simpa using ha

/-- A list that begins with a literal is the literal and what follows it. -/
theorem eq_append_of_isPrefixOf (literal l : List Char)
    (h : literal.isPrefixOf l = true) : l = literal ++ l.drop literal.length := by
  induction literal generalizing l with
  | nil => simp
  | cons a literal ih =>
    cases l with
    | nil => simp [List.isPrefixOf] at h
    | cons b l =>
      simp only [List.isPrefixOf, Bool.and_eq_true, beq_iff_eq] at h
      obtain ⟨rfl, h⟩ := h
      have := ih l h
      simp only [List.length_cons, List.drop_succ_cons, List.cons_append, List.cons.injEq,
        true_and]
      exact this


/-- A text that begins with `http://` does not begin with `https://`. -/
theorem http_is_not_https (l : List Char) :
    "https://".toList.isPrefixOf ("http://".toList ++ l) = false := rfl

/-- A text that begins with `http://` begins with it. -/
theorem http_is_http (l : List Char) :
    "http://".toList.isPrefixOf ("http://".toList ++ l) = true := by
  simp [List.isPrefixOf]

/-- A text that begins with `https://` begins with it. -/
theorem https_is_https (l : List Char) :
    "https://".toList.isPrefixOf ("https://".toList ++ l) = true := by
  simp [List.isPrefixOf]

/-- The pattern matches a string of the form, and gives its parts. -/
theorem url_regex_match_of_form (u : UrlMatch) (hform : u.of_the_form = true)
    (hapart : u.rest_apart = true) (hline : u.one_line = true) :
    url_regex_match u.text = some u := by
  obtain ⟨scheme, host, port, rest⟩ := u
  obtain ⟨host⟩ := host
  obtain ⟨rest⟩ := rest
  simp only [UrlMatch.of_the_form, Bool.and_eq_true, Bool.or_eq_true, beq_iff_eq,
    Bool.not_eq_true', List.isEmpty_eq_false, String.toList, List.all_eq_true] at hform
  obtain ⟨⟨⟨hs, hne⟩, hh⟩, hp⟩ := hform
  simp only [UrlMatch.one_line, Bool.not_eq_true', String.toList] at hline
  simp only [UrlMatch.rest_apart, String.toList] at hapart
  have hempty : host.isEmpty = false := by cases host <;> simp at hne ⊢
  cases port with
  | none =>
    have ht : ∀ c, rest.head? = some c → is_host_char c = false := by
      intro c hc
      cases rest with
      | nil => simp at hc
      | cons a cs =>
        simp only [List.head?_cons, Option.some.injEq] at hc
        subst hc
        simp only [Bool.or_eq_true, beq_iff_eq, Bool.and_eq_true] at hapart
        rcases hapart with h | ⟨h, _⟩ <;> subst h <;> decide
    obtain ⟨hT, hD⟩ := takeWhile_append_stop is_host_char host rest hh ht
    have hport : (match rest with
        | ':' :: r3 =>
          if (r3.takeWhile Char.isDigit).isEmpty then ((none : Option (List Char)), rest)
          else (some (r3.takeWhile Char.isDigit), r3.dropWhile Char.isDigit)
        | _ => (none, rest)) = (none, rest) := by
      cases rest with
      | nil => rfl
      | cons a cs =>
        by_cases ha : a = ':'
        · subst ha
          have hcs : cs.takeWhile Char.isDigit = [] := by
            cases cs with
            | nil => rfl
            | cons d ds =>
              simp only [Bool.or_eq_true, beq_iff_eq, Bool.and_eq_true] at hapart
              rcases hapart with h | ⟨_, h⟩
              · exact absurd h (by decide)
              · simp only [Bool.not_eq_true'] at h
                simp [List.takeWhile, h]
          simp [hcs]
        · split
          · rename_i heq
            simp only [List.cons.injEq] at heq
            exact absurd heq.1 ha
          · rfl
    have htext : ∀ s : String, (UrlMatch.text ⟨s, ⟨host⟩, none, ⟨rest⟩⟩).toList =
        (s ++ "://").toList ++ (host ++ rest) := by
      intro s
      simp [UrlMatch.text, when_present, String.data_append]
    rcases hs with rfl | rfl
    · simp only [url_regex_match, htext]
      rw [show ("http" ++ "://").toList = "http://".toList from rfl, http_is_not_https,
        http_is_http]
      simp only [Bool.false_eq_true, if_false, if_true]
      rw [show List.drop 7 ("http://".toList ++ (host ++ rest)) = host ++ rest from rfl]
      simp only [hT, hD, hempty, hport, hline, Bool.false_eq_true, if_false, Option.map_none']
    · simp only [url_regex_match, htext]
      rw [show ("https" ++ "://").toList = "https://".toList from rfl, https_is_https]
      simp only [if_true]
      rw [show List.drop 8 ("https://".toList ++ (host ++ rest)) = host ++ rest from rfl]
      simp only [hT, hD, hempty, hport, hline, Bool.false_eq_true, if_false, Option.map_none']
  | some p =>
    obtain ⟨p⟩ := p
    simp only [Bool.and_eq_true, Bool.not_eq_true', List.all_eq_true] at hp
    obtain ⟨hpne, hpall⟩ := hp
    have ht : ∀ c, (':' :: (p ++ rest)).head? = some c → is_host_char c = false := by
      intro c hc
      simp only [List.head?_cons, Option.some.injEq] at hc
      subst hc
      decide
    obtain ⟨hT, hD⟩ := takeWhile_append_stop is_host_char host (':' :: (p ++ rest)) hh ht
    have hrest : ∀ c, rest.head? = some c → c.isDigit = false := by
      intro c hc
      cases rest with
      | nil => simp at hc
      | cons a cs =>
        simp only [List.head?_cons, Option.some.injEq] at hc
        subst hc
        simpa using hapart
    obtain ⟨hpT, hpD⟩ := takeWhile_append_stop Char.isDigit p rest hpall hrest
    have htext : ∀ s : String, (UrlMatch.text ⟨s, ⟨host⟩, some ⟨p⟩, ⟨rest⟩⟩).toList =
        (s ++ "://").toList ++ (host ++ ':' :: (p ++ rest)) := by
      intro s
      simp [UrlMatch.text, when_present, String.data_append]
    rcases hs with rfl | rfl
    · simp only [url_regex_match, htext]
      rw [show ("http" ++ "://").toList = "http://".toList from rfl, http_is_not_https,
        http_is_http]
      simp only [Bool.false_eq_true, if_false, if_true]
      rw [show List.drop 7 ("http://".toList ++ (host ++ ':' :: (p ++ rest))) =
        host ++ ':' :: (p ++ rest) from rfl]
      simp only [hT, hD, hempty, hpT, hpD, hpne, hline, Bool.false_eq_true, if_false,
        Option.map_some']
    · simp only [url_regex_match, htext]
      rw [show ("https" ++ "://").toList = "https://".toList from rfl, https_is_https]
      simp only [if_true]
      rw [show List.drop 8 ("https://".toList ++ (host ++ ':' :: (p ++ rest))) =
        host ++ ':' :: (p ++ rest) from rfl]
      simp only [hT, hD, hempty, hpT, hpD, hpne, hline, Bool.false_eq_true, if_false,
        Option.map_some']

/-- What is taken while `p` holds is made of characters where `p` holds. -/
theorem takeWhile_all (p : Char → Bool) (l : List Char) :
    ∀ c ∈ l.takeWhile p, p c = true := by
  induction l with
  | nil => simp
  | cons a l ih =>
    by_cases ha : p a = true
    · simp only [List.takeWhile, ha]
      intro c hc
      rcases List.mem_cons.mp hc with rfl | hc
      · exact ha
      · exact ih c hc
    · simp [List.takeWhile, ha]

/-- The second stage of the pattern, on what follows the scheme. -/
theorem url_tail_form (scheme : String) (r : List Char) (m : UrlMatch)
    (hscheme : scheme = "http" ∨ scheme = "https")
    (h : (if (r.takeWhile is_host_char).isEmpty then none
      else
        if (match r.dropWhile is_host_char with
            | ':' :: r3 =>
              if (r3.takeWhile Char.isDigit).isEmpty then
                ((none : Option (List Char)), r.dropWhile is_host_char)
              else (some (r3.takeWhile Char.isDigit), r3.dropWhile Char.isDigit)
            | _ => (none, r.dropWhile is_host_char)).2.any is_line_terminator then none
        else some
          { scheme := scheme
            host := String.mk (r.takeWhile is_host_char)
            port := (match r.dropWhile is_host_char with
              | ':' :: r3 =>
                if (r3.takeWhile Char.isDigit).isEmpty then
                  ((none : Option (List Char)), r.dropWhile is_host_char)
                else (some (r3.takeWhile Char.isDigit), r3.dropWhile Char.isDigit)
              | _ => (none, r.dropWhile is_host_char)).1.map String.mk
            rest := String.mk (match r.dropWhile is_host_char with
              | ':' :: r3 =>
                if (r3.takeWhile Char.isDigit).isEmpty then
                  ((none : Option (List Char)), r.dropWhile is_host_char)
                else (some (r3.takeWhile Char.isDigit), r3.dropWhile Char.isDigit)
              | _ => (none, r.dropWhile is_host_char)).2 }) = some m) :
    m.of_the_form = true ∧ m.rest_apart = true ∧ m.one_line = true ∧
      m.text.toList = (scheme ++ "://").toList ++ r := by
  have hsplit := List.takeWhile_append_dropWhile is_host_char r
  have hall := takeWhile_all is_host_char r
  have hdrop := dropWhile_head is_host_char r
  generalize r.takeWhile is_host_char = host at h hsplit hall
  generalize r.dropWhile is_host_char = after at h hsplit hdrop
  cases hhost : host.isEmpty with
  | true => simp [hhost] at h
  | false =>
    simp only [hhost, Bool.false_eq_true, if_false] at h
    have hform : ∀ (port : Option String) (rest : String),
        (match port with
          | some port => !port.data.isEmpty && port.data.all Char.isDigit
          | none => true) = true →
        UrlMatch.of_the_form ⟨scheme, ⟨host⟩, port, rest⟩ = true := by
      intro port rest hport
      have hs : (scheme == "http" || scheme == "https") = true := by
        rcases hscheme with rfl | rfl <;> decide
      have hallb : host.all is_host_char = true := List.all_eq_true.mpr hall
      simp only [UrlMatch.of_the_form, String.toList, hs, hhost, hallb, hport, Bool.not_false,
        Bool.and_self]
    cases after with
    | nil =>
      simp only [List.any_nil, Bool.false_eq_true, if_false, Option.map_none',
        Option.some.injEq] at h
      subst h
      refine ⟨hform none _ rfl, rfl, rfl, ?_⟩
      simp [UrlMatch.text, when_present, String.data_append, ← hsplit]
    | cons a rest =>
      have ha : is_host_char a = false := hdrop a rfl
      by_cases hcolon : a = ':'
      · subst hcolon
        simp only at h
        cases hd : (List.takeWhile Char.isDigit rest).isEmpty with
        | true =>
          simp only [hd, if_true] at h
          cases hl : (':' :: rest).any is_line_terminator with
          | true => simp [hl] at h
          | false =>
            simp only [hl, Bool.false_eq_true, if_false, Option.map_none',
              Option.some.injEq] at h
            subst h
            refine ⟨hform none _ rfl, ?_, ?_, ?_⟩
            · cases rest with
              | nil => rfl
              | cons d ds =>
                cases hdd : d.isDigit with
                | true => simp [List.takeWhile, hdd] at hd
                | false => simp [UrlMatch.rest_apart, hdd]
            · simp only [UrlMatch.one_line, String.toList, hl, Bool.not_false]
            · simp [UrlMatch.text, when_present, String.data_append, ← hsplit]
        | false =>
          simp only [hd, Bool.false_eq_true, if_false] at h
          have hsplit2 := List.takeWhile_append_dropWhile Char.isDigit rest
          have hall2 := takeWhile_all Char.isDigit rest
          have hdrop2 := dropWhile_head Char.isDigit rest
          generalize List.takeWhile Char.isDigit rest = digits at h hd hsplit2 hall2
          generalize List.dropWhile Char.isDigit rest = rest2 at h hsplit2 hdrop2
          cases hl : rest2.any is_line_terminator with
          | true => simp [hl] at h
          | false =>
            simp only [hl, Bool.false_eq_true, if_false, Option.map_some',
              Option.some.injEq] at h
            subst h
            refine ⟨hform (some ⟨digits⟩) _ ?_, ?_, ?_, ?_⟩
            · simp only [hd, Bool.not_false, Bool.true_and]
              exact List.all_eq_true.mpr hall2
            · cases rest2 with
              | nil => rfl
              | cons d ds =>
                have := hdrop2 d rfl
                simp [UrlMatch.rest_apart, this]
            · simp only [UrlMatch.one_line, String.toList, hl, Bool.not_false]
            · simp [UrlMatch.text, when_present, String.data_append, ← hsplit, ← hsplit2]
      · have hslash : a = '/' := by
          simp only [is_host_char, Bool.and_eq_false_iff, bne_eq_false_iff_eq] at ha
          rcases ha with h1 | h1
          · exact absurd h1 hcolon
          · exact h1
        subst hslash
        have hm : (match ('/' :: rest : List Char) with
            | ':' :: r3 =>
              if (r3.takeWhile Char.isDigit).isEmpty then
                ((none : Option (List Char)), '/' :: rest)
              else (some (r3.takeWhile Char.isDigit), r3.dropWhile Char.isDigit)
            | _ => (none, '/' :: rest)) = (none, '/' :: rest) := rfl
        simp only [hm] at h
        cases hl : ('/' :: rest).any is_line_terminator with
        | true => simp [hl] at h
        | false =>
          simp only [hl, Bool.false_eq_true, if_false, Option.map_none',
            Option.some.injEq] at h
          subst h
          refine ⟨hform none _ rfl, ?_, ?_, ?_⟩
          · simp [UrlMatch.rest_apart]
          · simp only [UrlMatch.one_line, String.toList, hl, Bool.not_false]
          · simp [UrlMatch.text, when_present, String.data_append, ← hsplit]

/-- A string the pattern matches is of the form, with the parts it gives. -/
theorem form_of_url_regex_match (s : String) (m : UrlMatch)
    (h : url_regex_match s = some m) :
    m.of_the_form = true ∧ m.rest_apart = true ∧ m.one_line = true ∧ m.text = s := by
  obtain ⟨cs⟩ := s
  unfold url_regex_match at h
  simp only [String.toList] at h
  by_cases h1 : "https://".data.isPrefixOf cs = true
  · simp only [h1, if_true] at h
    obtain ⟨hf, ha, hl, ht⟩ := url_tail_form "https" (cs.drop 8) m (Or.inr rfl) h
    refine ⟨hf, ha, hl, String.ext ?_⟩
    have hcs := eq_append_of_isPrefixOf _ _ h1
    rw [String.toList] at ht
    rw [ht]
    exact hcs.symm
  · simp only [h1, Bool.false_eq_true, if_false] at h
    by_cases h2 : "http://".data.isPrefixOf cs = true
    · simp only [h2, if_true] at h
      obtain ⟨hf, ha, hl, ht⟩ := url_tail_form "http" (cs.drop 7) m (Or.inl rfl) h
      refine ⟨hf, ha, hl, String.ext ?_⟩
      have hcs := eq_append_of_isPrefixOf _ _ h2
      rw [String.toList] at ht
      rw [ht]
      exact hcs.symm
    · simp [h2] at h

/-- A text on which the matcher returns gets what `url_regex_match` finds. -/
theorem regex_match_of_returns (env : Env) (text : String)
    (hreturns : env.regex_returns text = true) :
    regex_match env text = .ok (url_regex_match text) := by
  simp [regex_match, hreturns, pure, Except.pure]

/-- A text on which the matcher exhausts the stack ends `parseHost`. -/
theorem parseHost_overflow (env : Env) (self : HttpClient) (text : String)
    (hreturns : env.regex_returns text = false) :
    self.parseHost env text = .error .stack_overflow := by
  simp [HttpClient.parseHost, regex_match, hreturns, bind, Except.bind, throw, throwThe,
    MonadExceptOf.throw]

/-- The matcher returns on a short text. -/
theorem regex_returns_of_short (env : Env) (text : String)
    (hshort : text.length ≤ regex_short) : env.regex_returns text = true := by
  simp [Env.regex_returns, hshort]

/-- What `parseHost` does with a string of the form. -/
theorem parseHost_of_form (env : Env) (self : HttpClient) (u : UrlMatch)
    (hreturns : env.regex_returns u.text = true) (hform : u.of_the_form = true)
    (hapart : u.rest_apart = true) (hline : u.one_line = true) :
    self.parseHost env u.text =
      match u.port with
      | some port =>
        if (decimal_value port : Int) ≤ INT_MAX then
          .ok { self with scheme_ := u.scheme, host_ := u.host, port_ := decimal_value port }
        else .error .out_of_range
      | none =>
        .ok { self with
          scheme_ := u.scheme, host_ := u.host
          port_ := if u.scheme = "https" then 443 else 80 } := by
  unfold HttpClient.parseHost
  rw [regex_match_of_returns env _ hreturns, url_regex_match_of_form u hform hapart hline]
  obtain ⟨scheme, host, port, rest⟩ := u
  cases port with
  | none => simp [bind, Except.bind, pure, Except.pure]
  | some port =>
    by_cases hfit : (decimal_value port : Int) ≤ INT_MAX
    · simp [stoi, hfit, bind, Except.bind, pure, Except.pure]
    · simp [stoi, hfit, bind, Except.bind]

/-- What `parseHost` does with a string that is not of the form. -/
theorem parseHost_not_of_form (env : Env) (self : HttpClient) (s : String)
    (hreturns : env.regex_returns s = true)
    (h : ∀ u : UrlMatch, u.of_the_form = true → u.rest_apart = true → u.one_line = true →
      u.text ≠ s) :
    self.parseHost env s = .ok { self with scheme_ := "http", host_ := s, port_ := 80 } := by
  unfold HttpClient.parseHost
  rw [regex_match_of_returns env _ hreturns]
  cases hm : url_regex_match s with
  | none => rfl
  | some m =>
    obtain ⟨hf, ha, hl, ht⟩ := form_of_url_regex_match s m hm
    exact absurd ht (h m hf ha hl)


/-! ## How the constructor can end -/

/-- The one fault of `std::stoi` is an exception. -/
theorem stoi_fault (digits : String) (fault : Fault) (h : stoi digits = .error fault) :
    fault.is_exception = true := by
  unfold stoi at h
  split at h
  · cases h
  · cases h
    rfl

/-- When the matcher returns, `parseHost` ends in an exception or returns. -/
theorem parseHost_fault (env : Env) (self : HttpClient) (text : String) (fault : Fault)
    (hreturns : env.regex_returns text = true)
    (h : self.parseHost env text = .error fault) : fault.is_exception = true := by
  unfold HttpClient.parseHost at h
  rw [regex_match_of_returns env _ hreturns] at h
  cases hm : url_regex_match text with
  | none => simp [hm, bind, Except.bind, pure, Except.pure] at h
  | some found =>
    cases hp : found.port with
    | none => simp [hm, hp, bind, Except.bind, pure, Except.pure] at h
    | some digits =>
      cases hs : stoi digits with
      | ok port => simp [hm, hp, hs, bind, Except.bind, pure, Except.pure] at h
      | error f =>
        simp [hm, hp, hs, bind, Except.bind, pure, Except.pure] at h
        subst h
        exact stoi_fault digits f hs

/-- The one fault of `ensureClient` is an exception. -/
theorem ensureClient_fault (env : Env) (self : HttpClient) (fault : Fault)
    (h : self.ensureClient env = .error fault) : fault.is_exception = true := by
  unfold HttpClient.ensureClient at h
  cases hc : self.client_ with
  | some k => simp [hc, pure, Except.pure] at h
  | none =>
    by_cases hs : (self.scheme_ == "https") = true <;>
      by_cases ho : env.openssl_support = true <;>
      simp [hc, hs, ho, bind, Except.bind, pure, Except.pure, throw, throwThe,
        MonadExceptOf.throw] at h
    subst h
    rfl

/-- How the constructor of the client can end: with a client, with an exception,
or, when the matcher does not return, with the exhaustion of the stack. -/
theorem ApiClient.new_fault (env : Env) (url : String) (fault : Fault)
    (h : ApiClient.new env url = .error fault) :
    (fault.is_exception = true ∧ env.regex_returns url = true) ∨
    (fault = .stack_overflow ∧ env.regex_returns url = false) := by
  cases hret : env.regex_returns url with
  | false =>
    right
    simp [ApiClient.new, HttpClient.new, parseHost_overflow env _ _ hret, bind,
      Except.bind] at h
    exact ⟨h.symm, rfl⟩
  | true =>
    left
    refine ⟨?_, rfl⟩
    unfold ApiClient.new HttpClient.new at h
    cases hp : HttpClient.parseHost env
        { host_ := "", port_ := 0, scheme_ := "", client_ := none, timeout_seconds_ := 30 }
        url with
    | error f =>
      simp [hp, bind, Except.bind] at h
      subst h
      exact parseHost_fault env _ url f hret hp
    | ok parsed =>
      cases he : parsed.ensureClient env with
      | error f =>
        simp [hp, he, bind, Except.bind] at h
        subst h
        exact ensureClient_fault env parsed f he
      | ok http => simp [hp, he, bind, Except.bind, pure, Except.pure] at h

theorem long_url_length : long_url.length = 50009 := by
  have h9 : "http://h/".length = 9 := by decide
  have hrest : (String.mk (List.replicate 50000 'a')).length = 50000 :=
    List.length_replicate 50000 'a'
  unfold long_url
  rw [String.length_append, h9, hrest]

theorem long_url_overflows : Env.shallow_stack.regex_returns long_url = false := by
  unfold Env.regex_returns
  rw [long_url_length]
  simp [Env.shallow_stack, long_url_length, regex_short]

/-- A URL on which the matcher does not return ends the constructor, and
`bizmap_create_client` with it. -/
theorem create_client_overflow (env : Env) (url : String)
    (hreturns : env.regex_returns url = false) :
    ApiClient.new env url = .error .stack_overflow ∧
    bizmap_create_client env (some url) = .error .stack_overflow := by
  have hnew : ApiClient.new env url = .error .stack_overflow := by
    simp [ApiClient.new, HttpClient.new, parseHost_overflow env _ url hreturns, bind,
      Except.bind]
  refine ⟨hnew, ?_⟩
  simp [bizmap_create_client, hnew, tryCatch, tryCatchThe, MonadExceptOf.tryCatch,
    Except.tryCatch, bind, Except.bind, Fault.is_exception, throw, throwThe,
    MonadExceptOf.throw]

theorem slash_url_text (tail : String) :
    UrlMatch.text ⟨"http", "h", none, "/" ++ tail⟩ = "http://h/" ++ tail := by
  apply String.ext
  simp [UrlMatch.text, when_present, String.data_append]

theorem letters_one_line (n : Nat) :
    UrlMatch.one_line ⟨"http", "h", none, "/" ++ String.mk (List.replicate n 'a')⟩ = true := by
  have hletters : ∀ n : Nat, (List.replicate n 'a').any is_line_terminator = false := by
    intro n
    induction n with
    | zero => rfl
    | succ n ih =>
      rw [List.replicate_succ, List.any_cons, ih]
      rfl
  simp only [UrlMatch.one_line, String.toList, String.data_append, List.any_append,
    hletters, Bool.or_false, Bool.not_eq_true']
  rfl

/-- The long URL is of the form: scheme http, host `h`, no port, and for a rest
`/` followed by the 50000 letters. -/
theorem long_url_form :
    UrlMatch.text ⟨"http", "h", none, "/" ++ String.mk (List.replicate 50000 'a')⟩ =
      long_url ∧
    UrlMatch.of_the_form ⟨"http", "h", none, "/" ++ String.mk (List.replicate 50000 'a')⟩ =
      true ∧
    UrlMatch.rest_apart ⟨"http", "h", none, "/" ++ String.mk (List.replicate 50000 'a')⟩ =
      true ∧
    UrlMatch.one_line ⟨"http", "h", none, "/" ++ String.mk (List.replicate 50000 'a')⟩ =
      true :=
  ⟨slash_url_text _, rfl, rfl, letters_one_line 50000⟩

/-! ## The JNI bridge -/

/-- The success closure of `nativeLogin`, run on a live context whose two global
references are live: the context and the two references are released, and the
local references are as many as before, or one more when `invoke` returned an
object. -/
theorem jni_login_success_run (returns_object : Bool) (J : Jvm) (a s e : Nat)
    (G : List Nat) (C : List (Nat × JavaCallbackContext))
    (access_token refresh_token : String) (expires_in : Int)
    (hs : s ≠ 0) (he : e ≠ 0) (hse : e ≠ s)
    (hC : J.java_contexts = (a, ⟨s, e⟩) :: C) (hG : J.global_refs = e :: s :: G) :
    ∃ (J' : Jvm) (added : List JniEvent),
      jni_login_success returns_object a access_token refresh_token expires_in J = .ok J' ∧
      J'.java_contexts = C ∧ J'.global_refs = G ∧
      J'.local_refs.length = J.local_refs.length + (if returns_object then 1 else 0) ∧
      J'.log = J.log ++ added ∧
      added.countP (JniEvent.is_delete_of a) = 1 := by
  obtain ⟨globals, locals, contexts, last_ref, last_address, log⟩ := J
  simp only at hC hG
  subst hC hG
  cases returns_object <;>
    simp [jni_login_success, Jvm.deref, Jvm.GetObjectClass, Jvm.new_local_ref,
      Jvm.CallObjectMethod, Jvm.DeleteLocalRef, Jvm.delete_java_context, Jvm.DeleteGlobalRef,
      List.lookup, hs, he, hse, bind, Except.bind, pure, Except.pure, throw, throwThe,
      MonadExceptOf.throw, List.erase_cons, JniEvent.is_delete_of]

/-- The error closure, run on a live context whose two global references are
live. -/
theorem jni_error_run (returns_object : Bool) (J : Jvm) (a s e : Nat)
    (G : List Nat) (C : List (Nat × JavaCallbackContext))
    (status_code : Int) (error_message : String)
    (hs : s ≠ 0) (he : e ≠ 0) (hse : e ≠ s)
    (hC : J.java_contexts = (a, ⟨s, e⟩) :: C) (hG : J.global_refs = e :: s :: G) :
    ∃ (J' : Jvm) (added : List JniEvent),
      jni_error returns_object a status_code error_message J = .ok J' ∧
      J'.java_contexts = C ∧ J'.global_refs = G ∧
      J'.local_refs.length = J.local_refs.length + (if returns_object then 1 else 0) ∧
      J'.log = J.log ++ added ∧
      added.countP (JniEvent.is_delete_of a) = 1 := by
  obtain ⟨globals, locals, contexts, last_ref, last_address, log⟩ := J
  simp only at hC hG
  subst hC hG
  cases returns_object <;>
    simp [jni_error, Jvm.deref, Jvm.GetObjectClass, Jvm.new_local_ref,
      Jvm.CallObjectMethod, Jvm.DeleteLocalRef, Jvm.delete_java_context, Jvm.DeleteGlobalRef,
      List.lookup, hs, he, hse, bind, Except.bind, pure, Except.pure, throw, throwThe,
      MonadExceptOf.throw, List.erase_cons, JniEvent.is_delete_of]

/-- The success closure of `nativeRegister`, run on a live context whose two
global references are live. -/
theorem jni_void_success_run (returns_object : Bool) (J : Jvm) (a s e : Nat)
    (G : List Nat) (C : List (Nat × JavaCallbackContext))
    (hs : s ≠ 0) (he : e ≠ 0) (hse : e ≠ s)
    (hC : J.java_contexts = (a, ⟨s, e⟩) :: C) (hG : J.global_refs = e :: s :: G) :
    ∃ (J' : Jvm) (added : List JniEvent),
      jni_void_success returns_object a J = .ok J' ∧
      J'.java_contexts = C ∧ J'.global_refs = G ∧
      J'.local_refs.length = J.local_refs.length + (if returns_object then 1 else 0) ∧
      J'.log = J.log ++ added ∧
      added.countP (JniEvent.is_delete_of a) = 1 := by
  obtain ⟨globals, locals, contexts, last_ref, last_address, log⟩ := J
  simp only at hC hG
  subst hC hG
  cases returns_object <;>
    simp [jni_void_success, Jvm.deref, Jvm.GetObjectClass, Jvm.new_local_ref,
      Jvm.CallObjectMethod, Jvm.DeleteLocalRef, Jvm.delete_java_context, Jvm.DeleteGlobalRef,
      List.lookup, hs, he, hse, bind, Except.bind, pure, Except.pure, throw, throwThe,
      MonadExceptOf.throw, List.erase_cons, JniEvent.is_delete_of]

/-- The success closure of the two searches, run on a live context whose two
global references are live. -/
theorem jni_json_success_run (returns_object : Bool) (J : Jvm) (a s e : Nat)
    (G : List Nat) (C : List (Nat × JavaCallbackContext)) (json : String)
    (hs : s ≠ 0) (he : e ≠ 0) (hse : e ≠ s)
    (hC : J.java_contexts = (a, ⟨s, e⟩) :: C) (hG : J.global_refs = e :: s :: G) :
    ∃ (J' : Jvm) (added : List JniEvent),
      jni_json_success returns_object a json J = .ok J' ∧
      J'.java_contexts = C ∧ J'.global_refs = G ∧
      J'.local_refs.length = J.local_refs.length + (if returns_object then 1 else 0) ∧
      J'.log = J.log ++ added ∧
      added.countP (JniEvent.is_delete_of a) = 1 := by
  obtain ⟨globals, locals, contexts, last_ref, last_address, log⟩ := J
  simp only at hC hG
  subst hC hG
  cases returns_object <;>
    simp [jni_json_success, Jvm.deref, Jvm.GetObjectClass, Jvm.new_local_ref,
      Jvm.CallObjectMethod, Jvm.DeleteLocalRef, Jvm.delete_java_context, Jvm.DeleteGlobalRef,
      List.lookup, hs, he, hse, bind, Except.bind, pure, Except.pure, throw, throwThe,
      MonadExceptOf.throw, List.erase_cons, JniEvent.is_delete_of]

/-- A call into the host with the context as user data runs one closure, which
releases the context and its two global references. -/
theorem jni_closure_run (returns_object : Bool) (ev : Event) (J : Jvm) (a s e : Nat)
    (G : List Nat) (C : List (Nat × JavaCallbackContext))
    (hev : ev.first_argument = some a)
    (hs : s ≠ 0) (he : e ≠ 0) (hse : e ≠ s)
    (hC : J.java_contexts = (a, ⟨s, e⟩) :: C) (hG : J.global_refs = e :: s :: G) :
    ∃ (J' : Jvm) (added : List JniEvent),
      jni_closure returns_object ev J = .ok J' ∧
      J'.java_contexts = C ∧ J'.global_refs = G ∧
      J'.local_refs.length = J.local_refs.length + (if returns_object then 1 else 0) ∧
      J'.log = J.log ++ added ∧
      added.countP (JniEvent.is_delete_of a) = 1 := by
  cases ev <;> simp only [Event.first_argument, Option.some.injEq] at hev <;>
    first
    | exact absurd hev (by simp)
    | (subst hev
       first
       | exact jni_login_success_run returns_object J _ s e G C _ _ _ hs he hse hC hG
       | exact jni_error_run returns_object J _ s e G C _ _ hs he hse hC hG
       | exact jni_void_success_run returns_object J _ s e G C hs he hse hC hG
       | exact jni_json_success_run returns_object J _ s e G C _ hs he hse hC hG)

/-- With both callbacks given, the outcome of the exchange makes exactly one call
into the host, whose first argument is the user data. -/
theorem host_calls_single (call : CCall) (request : Request)
    (on_success on_error user_data : Nat) (r : HttplibResult)
    (hs : on_success ≠ 0) (he : on_error ≠ 0) :
    ∃ ev : Event, call.host_calls request on_success on_error user_data r = [ev] ∧
      ev.first_argument = some user_data := by
  cases r with
  | response status body =>
    by_cases h : 200 ≤ status ∧ status < 300
    · refine ⟨call.success_event on_success user_data body, ?_, ?_⟩
      · simp [CCall.host_calls, h, hs]
      · cases call <;> rfl
    · exact ⟨.error_callback on_error user_data status (c_str body),
        by simp [CCall.host_calls, h, he], rfl⟩
  | error err =>
    exact ⟨.error_callback on_error user_data 0 (failure_description request.method err),
      by simp [CCall.host_calls, he], rfl⟩

/-- What an asynchronous entry point of the JNI bridge does on a live handle,
with no required string missing and both host callbacks given: the call of the C
interface makes one call into the host, whose closure releases the context made
for the call and its two global references. -/
theorem jni_entry_live (env : Env) (c : ApiClient) (k : HttplibClient)
    (hk : c.http_client_.client_ = some k) (returns_object : Bool) (call : CCall)
    (op : DomainCall) (hop : call.domain_call = some op) (onSuccess onError : Nat)
    (hs : onSuccess ≠ 0) (he : onError ≠ 0) (j : Jvm) (w : World) :
    ∃ (j' : Jvm) (w' : World) (added : List JniEvent),
      jni_entry env returns_object (some c) call onSuccess onError j w = .ok (some c, j', w') ∧
      j'.java_contexts = j.java_contexts ∧ j'.global_refs = j.global_refs ∧
      j'.local_refs.length = j.local_refs.length + (if returns_object then 1 else 0) ∧
      j'.log = j.log ++ added ∧
      added.countP (JniEvent.is_delete_of (j.last_address + 1)) = 1 := by
  obtain ⟨ev, hcalls, hev⟩ := host_calls_single call (op.request env c) jni_success_closure
    jni_error_closure (j.last_address + 1) (env.exchange k (op.request env c))
    (by decide) (by decide)
  obtain ⟨J', added, hrun, h1, h2, h3, h4, h5⟩ := jni_closure_run returns_object ev
    { global_refs := (j.last_ref + 1 + 1) :: (j.last_ref + 1) :: j.global_refs
      local_refs := j.local_refs
      java_contexts :=
        (j.last_address + 1, ⟨j.last_ref + 1, j.last_ref + 1 + 1⟩) :: j.java_contexts
      last_ref := j.last_ref + 1 + 1
      last_address := j.last_address + 1
      log := j.log ++ [JniEvent.new_global_ref (j.last_ref + 1)] ++
        [JniEvent.new_global_ref (j.last_ref + 1 + 1)] ++
        [JniEvent.new_java_context (j.last_address + 1)] }
    (j.last_address + 1) (j.last_ref + 1) (j.last_ref + 1 + 1) j.global_refs j.java_contexts
    hev (by omega) (by omega) (by omega) rfl rfl
  refine ⟨J',
    { contexts := w.contexts
      last_address := w.last_address + 1
      trace := w.trace ++
        ([Event.new_context (w.last_address + 1), Event.request k (op.request env c)] ++
          [ev] ++ [Event.delete_context (w.last_address + 1)]) },
    [JniEvent.new_global_ref (j.last_ref + 1), JniEvent.new_global_ref (j.last_ref + 1 + 1),
      JniEvent.new_java_context (j.last_address + 1)] ++ added,
    ?_, h1, h2, h3, ?_, ?_⟩
  · unfold jni_entry
    simp only [Jvm.NewGlobalRef, hs, he, if_false, Jvm.new_java_context]
    rw [bizmap_call_eq env c k hk call op hop]
    simp only [bind, Except.bind, List.drop_left, hcalls]
    have hclosures : jni_closures returns_object
        ([Event.new_context (w.last_address + 1), Event.request k (op.request env c)] ++
          [ev] ++ [Event.delete_context (w.last_address + 1)])
        { global_refs := (j.last_ref + 1 + 1) :: (j.last_ref + 1) :: j.global_refs
          local_refs := j.local_refs
          java_contexts :=
            (j.last_address + 1, ⟨j.last_ref + 1, j.last_ref + 1 + 1⟩) :: j.java_contexts
          last_ref := j.last_ref + 1 + 1
          last_address := j.last_address + 1
          log := j.log ++ [JniEvent.new_global_ref (j.last_ref + 1)] ++
            [JniEvent.new_global_ref (j.last_ref + 1 + 1)] ++
            [JniEvent.new_java_context (j.last_address + 1)] } = .ok J' := by
      simp only [List.cons_append, List.nil_append, jni_closures, bind, Except.bind,
        show ∀ a J, jni_closure returns_object (Event.new_context a) J = Except.ok J from
          fun _ _ => rfl,
        show ∀ k r J, jni_closure returns_object (Event.request k r) J = Except.ok J from
          fun _ _ _ => rfl,
        show ∀ a J, jni_closure returns_object (Event.delete_context a) J = Except.ok J from
          fun _ _ => rfl,
        hrun, pure, Except.pure]
    rw [hclosures]
    rfl
  · rw [h4]
    simp
  · simp [List.countP_cons, JniEvent.is_delete_of, h5]

/-- Each asynchronous entry point is the shared body on its call of the C
interface. -/
theorem jni_call_eq (env : Env) (returns_object : Bool) (handle : BizMapClientHandle)
    (call : JniCall) (onSuccess onError : Nat) (j : Jvm) (w : World) :
    jni_call env returns_object handle call onSuccess onError j w =
      jni_entry env returns_object handle call.c_call onSuccess onError j w := by
  cases call <;> rfl

/-- The call of the C interface an entry point makes has no required string
missing. -/
theorem JniCall.c_call_domain (call : JniCall) :
    ∃ op : DomainCall, call.c_call.domain_call = some op := by
  cases call <;> exact ⟨_, rfl⟩

/-- On the null handle the call of the C interface returns at once, and no
closure runs: the context and the two global references made for the call are
left as they were made. -/
theorem jni_call_null (env : Env) (returns_object : Bool) (call : JniCall)
    (onSuccess onError : Nat) (j : Jvm) (w : World) :
    jni_call env returns_object none call onSuccess onError j w =
      .ok (none,
        ((j.NewGlobalRef onSuccess).2.NewGlobalRef onError).2.new_java_context
          ⟨(j.NewGlobalRef onSuccess).1,
            ((j.NewGlobalRef onSuccess).2.NewGlobalRef onError).1⟩ |>.2,
        w) := by
  cases call <;>
    simp [jni_call, nativeLogin, nativeRegister, nativeSearchProducts, nativeSearchBusinesses,
      jni_entry, bizmap_call, bizmap_login, bizmap_register, bizmap_search_products,
      bizmap_search_businesses, bind, Except.bind, pure, Except.pure, jni_closures]


/-! ## The claims -/

/-- **C1.** For every Domain Client operation and every response
`(status, body)` the transport delivers for its request: when
`200 ≤ status < 300` the call is the request followed by `onSuccess` on the
parsed result, whatever `onError` is (it is not called); otherwise the call is
the request followed by `onError` on the `ApiError` with that status and the raw
body as message, whatever `onSuccess` is (it is not called). -/
theorem response_routed_by_status (env : Env) (c : ApiClient) (k : HttplibClient)
    (op : DomainCall) (status : Int) (body : String)
    (hk : c.http_client_.client_ = some k)
    (hresp : env.exchange k (op.request env c) = .response status body) :
    (200 ≤ status ∧ status < 300 →
      ∀ (onSuccess : Callback Payload) (onError : Callback ApiError) (w : World),
        c.call env op onSuccess onError w =
          with_client c
            (onSuccess (op.result body) (w.record (.request k (op.request env c))))) ∧
    (¬(200 ≤ status ∧ status < 300) →
      ∀ (onSuccess : Callback Payload) (onError : Callback ApiError) (w : World),
        c.call env op onSuccess onError w =
          with_client c
            (onError { status_code := status, error_message := body, error_code := "" }
              (w.record (.request k (op.request env c))))) := by
  constructor
  · intro h onSuccess onError w
    rw [ApiClient.call_eq env c k hk, hresp]
    simp only [h, and_self, if_true]
  · intro h onSuccess onError w
    rw [ApiClient.call_eq env c k hk, hresp]
    simp only [h, if_false]

/-- Witness of C1: a login answered with 404 and with 200, observed. -/
theorem response_routed_by_status_witness :
    localhost_client.call (Env.answering 404 "not found") (.login "u" "p") observe_success
        observe_error World.empty =
      .ok (localhost_client,
        { contexts := [], last_address := 0,
          trace := [.request localhost_httplib
              ((DomainCall.login "u" "p").request (Env.answering 404 "not found")
                localhost_client),
            .on_error { status_code := 404, error_message := "not found", error_code := "" }] }) ∧
    localhost_client.call (Env.answering 200 "ok") (.login "u" "p") observe_success
        observe_error World.empty =
      .ok (localhost_client,
        { contexts := [], last_address := 0,
          trace := [.request localhost_httplib
              ((DomainCall.login "u" "p").request (Env.answering 200 "ok") localhost_client),
            .on_success (.auth
              { access_token := "", refresh_token := "", token_type := "Bearer",
                expires_in := 86400 })] }) :=
  ⟨(response_routed_by_status (Env.answering 404 "not found") localhost_client
      localhost_httplib (.login "u" "p") 404 "not found" rfl rfl).2 (by decide)
      observe_success observe_error World.empty,
    (response_routed_by_status (Env.answering 200 "ok") localhost_client
      localhost_httplib (.login "u" "p") 200 "ok" rfl rfl).1 (by decide)
      observe_success observe_error World.empty⟩

/-- **C2.** For every Domain Client operation and every outcome of the exchange
(a response with any status, or a failure): the call is the request followed by
one run of `onSuccess`, or it is the request followed by one run of `onError`;
and when the two callbacks only leave a mark, the marks the call adds to the
trace are one `on_success` and no `on_error`, or no `on_success` and one
`on_error`. -/
theorem exactly_one_callback (env : Env) (c : ApiClient) (k : HttplibClient)
    (op : DomainCall) (w : World) (hk : c.http_client_.client_ = some k) :
    ((∃ result, ∀ (onSuccess : Callback Payload) (onError : Callback ApiError) (w : World),
        c.call env op onSuccess onError w =
          with_client c (onSuccess result (w.record (.request k (op.request env c))))) ∨
      (∃ error, ∀ (onSuccess : Callback Payload) (onError : Callback ApiError) (w : World),
        c.call env op onSuccess onError w =
          with_client c (onError error (w.record (.request k (op.request env c)))))) ∧
    ∃ added : List Event,
      c.call env op observe_success observe_error w =
        .ok (c, { w with trace := w.trace ++ added }) ∧
      ((added.countP Event.is_on_success = 1 ∧ added.countP Event.is_on_error = 0) ∨
        (added.countP Event.is_on_success = 0 ∧ added.countP Event.is_on_error = 1)) := by
  cases hx : env.exchange k (op.request env c) with
  | response status body =>
    by_cases h : 200 ≤ status ∧ status < 300
    · refine ⟨Or.inl ⟨op.result body, fun onSuccess onError w => ?_⟩,
        [.request k (op.request env c), .on_success (op.result body)], ?_, Or.inl ?_⟩
      · rw [ApiClient.call_eq env c k hk, hx]
        simp only [h, and_self, if_true]
      · rw [ApiClient.call_eq env c k hk, hx]
        simp [h, with_client, observe_success, World.record, Except.map, pure, Except.pure]
      · simp [List.countP_cons, Event.is_on_success, Event.is_on_error]
    · refine ⟨Or.inr ⟨⟨status, body, ""⟩, fun onSuccess onError w => ?_⟩,
        [.request k (op.request env c), .on_error ⟨status, body, ""⟩], ?_, Or.inr ?_⟩
      · rw [ApiClient.call_eq env c k hk, hx]
        simp only [h, if_false]
      · rw [ApiClient.call_eq env c k hk, hx]
        simp [h, with_client, observe_error, World.record, Except.map, pure, Except.pure]
      · simp [List.countP_cons, Event.is_on_success, Event.is_on_error]
  | error err =>
    refine ⟨Or.inr ⟨⟨0, failure_description (op.request env c).method err, ""⟩,
        fun onSuccess onError w => ?_⟩,
      [.request k (op.request env c),
        .on_error ⟨0, failure_description (op.request env c).method err, ""⟩], ?_, Or.inr ?_⟩
    · rw [ApiClient.call_eq env c k hk, hx]
    · rw [ApiClient.call_eq env c k hk, hx]
      simp [with_client, observe_error, World.record, Except.map, pure, Except.pure]
    · simp [List.countP_cons, Event.is_on_success, Event.is_on_error]

/-- Witness of C2: a search on a backend that cannot be reached. -/
theorem exactly_one_callback_witness :
    localhost_client.http_client_.client_ = some localhost_httplib ∧
    ((∃ result, ∀ (onSuccess : Callback Payload) (onError : Callback ApiError) (w : World),
        localhost_client.call Env.unreachable
            (.searchBusinesses BusinessSearchParams.default) onSuccess onError w =
          with_client localhost_client (onSuccess result (w.record (.request localhost_httplib
            ((DomainCall.searchBusinesses BusinessSearchParams.default).request
              Env.unreachable localhost_client))))) ∨
      (∃ error, ∀ (onSuccess : Callback Payload) (onError : Callback ApiError) (w : World),
        localhost_client.call Env.unreachable
            (.searchBusinesses BusinessSearchParams.default) onSuccess onError w =
          with_client localhost_client (onError error (w.record (.request localhost_httplib
            ((DomainCall.searchBusinesses BusinessSearchParams.default).request
              Env.unreachable localhost_client)))))) ∧
    ∃ added : List Event,
      localhost_client.call Env.unreachable (.searchBusinesses BusinessSearchParams.default)
          observe_success observe_error World.empty =
        .ok (localhost_client, { World.empty with trace := World.empty.trace ++ added }) ∧
      ((added.countP Event.is_on_success = 1 ∧ added.countP Event.is_on_error = 0) ∨
        (added.countP Event.is_on_success = 0 ∧ added.countP Event.is_on_error = 1)) :=
  ⟨rfl, exactly_one_callback Env.unreachable localhost_client localhost_httplib
    (.searchBusinesses BusinessSearchParams.default) World.empty rfl⟩


/-- **C3.** For every asynchronous entry point called with a live handle and no
required string missing, and for every outcome of the exchange: the call
returns normally, the `CallbackContext` it made is deleted exactly once and the
live contexts are those from before the call; between the request and the
deletion there is at most one call into the host; when the exchange succeeds it
is through `on_success` and is not a call of the error callback, and when the
exchange fails, or the status is outside [200,300), it is a call of the error
callback through `on_error`; when the pointer of the branch that fires is null
there is no call at all. -/
theorem context_released_exactly_once (env : Env) (c : ApiClient) (k : HttplibClient)
    (call : CCall) (on_success on_error user_data : Nat) (w : World)
    (hk : c.http_client_.client_ = some k) (hreq : call.missing_required = false) :
    ∃ (op : DomainCall) (fired : List Event),
      call.domain_call = some op ∧
      bizmap_call env (some c) call on_success on_error user_data w =
        .ok (some c,
          { contexts := w.contexts
            last_address := w.last_address + 1
            trace := w.trace ++
              ([Event.new_context (w.last_address + 1), Event.request k (op.request env c)] ++
                fired ++ [Event.delete_context (w.last_address + 1)]) }) ∧
      ([Event.new_context (w.last_address + 1), Event.request k (op.request env c)] ++
          fired ++ [Event.delete_context (w.last_address + 1)]).count
        (Event.delete_context (w.last_address + 1)) = 1 ∧
      (∀ status body, env.exchange k (op.request env c) = .response status body →
        200 ≤ status ∧ status < 300 →
        (on_success = 0 → fired = []) ∧
        (on_success ≠ 0 →
          ∃ ev, fired = [ev] ∧ ev.callee = some on_success ∧ ev.is_error_callback = false)) ∧
      (∀ status body, env.exchange k (op.request env c) = .response status body →
        ¬(200 ≤ status ∧ status < 300) →
        (on_error = 0 → fired = []) ∧
        (on_error ≠ 0 →
          ∃ ev, fired = [ev] ∧ ev.callee = some on_error ∧ ev.is_error_callback = true)) ∧
      (∀ err, env.exchange k (op.request env c) = .error err →
        (on_error = 0 → fired = []) ∧
        (on_error ≠ 0 →
          ∃ ev, fired = [ev] ∧ ev.callee = some on_error ∧ ev.is_error_callback = true)) := by
  obtain ⟨op, hop⟩ : ∃ op, call.domain_call = some op :=
    CCall.domain_call_of_required call hreq
  refine ⟨op, call.host_calls (op.request env c) on_success on_error user_data
    (env.exchange k (op.request env c)), hop,
    bizmap_call_eq env c k hk call op hop on_success on_error user_data w, ?_, ?_, ?_, ?_⟩
  · cases env.exchange k (op.request env c) with
    | response status body =>
      by_cases h : 200 ≤ status ∧ status < 300 <;> by_cases hs : on_success = 0 <;>
        by_cases he : on_error = 0 <;>
        cases call <;> simp [CCall.host_calls, CCall.success_event, h, hs, he]
    | error err =>
      by_cases he : on_error = 0 <;> simp [CCall.host_calls, he]
  · intro status body hx h
    rw [hx]
    refine ⟨fun hs => by simp [CCall.host_calls, h, hs], fun hs => ?_⟩
    refine ⟨call.success_event on_success user_data body, by simp [CCall.host_calls, h, hs],
      ?_, ?_⟩ <;> cases call <;> rfl
  · intro status body hx h
    rw [hx]
    exact ⟨fun he => by simp [CCall.host_calls, h, he],
      fun he => ⟨.error_callback on_error user_data status (c_str body),
        by simp [CCall.host_calls, h, he], rfl, rfl⟩⟩
  · intro err hx
    rw [hx]
    exact ⟨fun he => by simp [CCall.host_calls, he],
      fun he => ⟨.error_callback on_error user_data 0
          (failure_description (op.request env c).method err),
        by simp [CCall.host_calls, he], rfl, rfl⟩⟩

/-- Witness of C3: a login with a null error callback, answered with 500. -/
theorem context_released_exactly_once_witness :
    localhost_client.http_client_.client_ = some localhost_httplib ∧
    (CCall.login (some "u") (some "p")).missing_required = false ∧
    bizmap_call (Env.answering 500 "boom") (some localhost_client)
        (.login (some "u") (some "p")) 7 0 9 World.empty =
      .ok (some localhost_client,
        { contexts := [], last_address := 1,
          trace := [.new_context 1,
            .request localhost_httplib
              ((DomainCall.login "u" "p").request (Env.answering 500 "boom") localhost_client),
            .delete_context 1] }) := by
  refine ⟨rfl, rfl, ?_⟩
  obtain ⟨op, fired, hop, hrun, _, _, herr, _⟩ :=
    context_released_exactly_once (Env.answering 500 "boom") localhost_client
      localhost_httplib (.login (some "u") (some "p")) 7 0 9 World.empty rfl rfl
  cases hop
  have hfired : fired = [] := (herr 500 "boom" rfl (by decide)).1 rfl
  subst hfired
  exact hrun


/-- **C4.** For every operation: when httplib returns no response, `onError`
runs on the `ApiError` with `status_code` 0 whose message is the description
the HTTP wrapper gives for that failure; and when the transport never delivers
a response with status 0, an `on_error` mark with `status_code` 0 is left only
after a transport failure. -/
theorem status_zero_is_transport_failure (env : Env) (c : ApiClient) (k : HttplibClient)
    (op : DomainCall) (hk : c.http_client_.client_ = some k) :
    (∀ err, env.exchange k (op.request env c) = .error err →
      ∀ (onSuccess : Callback Payload) (onError : Callback ApiError) (w : World),
        c.call env op onSuccess onError w =
          with_client c
            (onError
              { status_code := 0
                error_message := failure_description (op.request env c).method err
                error_code := "" }
              (w.record (.request k (op.request env c))))) ∧
    ((∀ body, env.exchange k (op.request env c) ≠ .response 0 body) →
      ∀ w : World, ∃ ev,
        c.call env op observe_success observe_error w =
          .ok (c, { w with trace := w.trace ++ [.request k (op.request env c), ev] }) ∧
        ∀ error, ev = .on_error error → error.status_code = 0 →
          ∃ err, env.exchange k (op.request env c) = .error err) := by
  constructor
  · intro err hx onSuccess onError w
    rw [ApiClient.call_eq env c k hk, hx]
  · intro hnz w
    cases hx : env.exchange k (op.request env c) with
    | response status body =>
      by_cases h : 200 ≤ status ∧ status < 300
      · refine ⟨.on_success (op.result body), ?_, ?_⟩
        · rw [ApiClient.call_eq env c k hk, hx]
          simp [h, with_client, observe_success, World.record, Except.map, pure, Except.pure]
        · intro error he
          cases he
      · refine ⟨.on_error ⟨status, body, ""⟩, ?_, ?_⟩
        · rw [ApiClient.call_eq env c k hk, hx]
          simp [h, with_client, observe_error, World.record, Except.map, pure, Except.pure]
        · intro error he h0
          cases he
          simp only at h0
          subst h0
          exact absurd hx (hnz body)
    | error err =>
      refine ⟨.on_error ⟨0, failure_description (op.request env c).method err, ""⟩, ?_, ?_⟩
      · rw [ApiClient.call_eq env c k hk, hx]
        simp [with_client, observe_error, World.record, Except.map, pure, Except.pure]
      · intro _ _ _
        exact ⟨err, rfl⟩

/-- Witness of C4: a profile request to a backend that cannot be reached. -/
theorem status_zero_is_transport_failure_witness :
    localhost_client.call Env.unreachable .getProfile observe_success observe_error
        World.empty =
      .ok (localhost_client,
        { contexts := [], last_address := 0,
          trace := [.request localhost_httplib
              (DomainCall.getProfile.request Env.unreachable localhost_client),
            .on_error
              { status_code := 0
                error_message := "Error de red: No se pudo conectar al servidor"
                error_code := "" }] }) ∧
    ∃ ev,
      localhost_client.call Env.unreachable .getProfile observe_success observe_error
          World.empty =
        .ok (localhost_client,
          { World.empty with
            trace := World.empty.trace ++ [.request localhost_httplib
              (DomainCall.getProfile.request Env.unreachable localhost_client), ev] }) ∧
      ∀ error, ev = .on_error error → error.status_code = 0 →
        ∃ err, Env.unreachable.exchange localhost_httplib
          (DomainCall.getProfile.request Env.unreachable localhost_client) = .error err :=
  ⟨(status_zero_is_transport_failure Env.unreachable localhost_client localhost_httplib
      .getProfile rfl).1 .Connection rfl observe_success observe_error World.empty,
    (status_zero_is_transport_failure Env.unreachable localhost_client localhost_httplib
      .getProfile rfl).2 (fun _ h => nomatch h) World.empty⟩


/-- **C5.** For every asynchronous entry point: when the handle is null or a
required string is null, the call returns with the handle and the world as they
were, so no request was issued, no `CallbackContext` was made and neither
callback was called. -/
theorem missing_argument_is_dropped (env : Env) (client : BizMapClientHandle) (call : CCall)
    (on_success on_error user_data : Nat) (w : World)
    (h : client = none ∨ call.missing_required = true) :
    bizmap_call env client call on_success on_error user_data w = .ok (client, w) := by
  rcases h with h | h
  · subst h
    cases call <;> rfl
  · cases call with
    | login username password =>
      cases username <;> cases password <;> simp [CCall.missing_required] at h <;>
        cases client <;> rfl
    | register username email password full_name =>
      cases username <;> cases email <;> cases password <;>
        simp [CCall.missing_required] at h <;> cases client <;> rfl
    | search_products query latitude longitude radius_meters min_price max_price category
        limit offset =>
      cases query <;> simp [CCall.missing_required] at h
      cases client <;> rfl
    | get_product product_id =>
      cases product_id <;> simp [CCall.missing_required] at h
      cases client <;> rfl
    | get_business business_id =>
      cases business_id <;> simp [CCall.missing_required] at h
      cases client <;> rfl
    | get_business_products business_id =>
      cases business_id <;> simp [CCall.missing_required] at h
      cases client <;> rfl
    | logout => simp [CCall.missing_required] at h
    | get_profile => simp [CCall.missing_required] at h
    | search_businesses query latitude longitude radius_meters category limit offset =>
      simp [CCall.missing_required] at h
    | get_search_history limit => simp [CCall.missing_required] at h
    | get_recommendations => simp [CCall.missing_required] at h
    | clear_search_history => simp [CCall.missing_required] at h

/-- Witness of C5: a login without a password on a live handle, and a product
lookup on the null handle. -/
theorem missing_argument_is_dropped_witness :
    bizmap_call (Env.answering 200 "ok") (some localhost_client) (.login (some "u") none)
        7 8 9 World.empty = .ok (some localhost_client, World.empty) ∧
    bizmap_call (Env.answering 200 "ok") none (.get_product (some "42"))
        7 8 9 World.empty = .ok (none, World.empty) :=
  ⟨missing_argument_is_dropped (Env.answering 200 "ok") (some localhost_client)
      (.login (some "u") none) 7 8 9 World.empty (Or.inr rfl),
    missing_argument_is_dropped (Env.answering 200 "ok") none (.get_product (some "42"))
      7 8 9 World.empty (Or.inl rfl)⟩


/-- **C6, as stated, fails.**  For the response of status 404 whose body is
`a`, a NUL, `b`, the error callback is not called with that body: the message is
handed over as `error.error_message.c_str()`, and what the callback reads is
`a`. -/
theorem error_message_counterexample :
    bizmap_call (Env.answering 404 "a\x00b") (some localhost_client)
        (.get_product (some "42")) 7 8 9 World.empty =
      .ok (some localhost_client,
        { contexts := [], last_address := 1,
          trace := [.new_context 1,
            .request localhost_httplib
              { method := .GET, path := "/api/v1/products/42"
                headers := [("Content-Type", "application/json")]
                body := "", content_type := "" },
            .error_callback 8 9 404 "a", .delete_context 1] }) ∧
    Event.error_callback 8 9 404 "a" ≠ Event.error_callback 8 9 404 "a\x00b" :=
  ⟨rfl, by decide⟩

/-- **C6, amended.**  For every asynchronous entry point called with non-null
callbacks (a live handle, no required string missing): exactly one call into the
host is made and its first argument is the `user_data` of the call; for a
response with status `s` outside [200,300) and body `b` it is `on_error` on
`user_data`, `s` and the C string of `b`, which is `b` up to its first NUL and
all of `b` when it holds none; for a successful login it is `on_success` on
`user_data` and the `access_token`, `refresh_token` and `expires_in` of the
parsed `AuthResponse`; and the success lambda of `bizmap_login` passes on, of
whatever `AuthResponse` it is given, the C strings of the two tokens and
`expires_in`. -/
theorem user_data_passed_unchanged (env : Env) (c : ApiClient) (k : HttplibClient)
    (call : CCall) (op : DomainCall) (on_success on_error user_data : Nat) (w : World)
    (hk : c.http_client_.client_ = some k) (hop : call.domain_call = some op)
    (hs : on_success ≠ 0) (he : on_error ≠ 0) :
    (∃ ev,
      bizmap_call env (some c) call on_success on_error user_data w =
        .ok (some c,
          { contexts := w.contexts
            last_address := w.last_address + 1
            trace := w.trace ++
              [Event.new_context (w.last_address + 1), Event.request k (op.request env c),
                ev, Event.delete_context (w.last_address + 1)] }) ∧
      ev.first_argument = some user_data ∧
      (∀ s b, env.exchange k (op.request env c) = .response s b →
        ¬(200 ≤ s ∧ s < 300) →
        ev = .error_callback on_error user_data s (c_str b) ∧
        ('\x00' ∉ b.toList → ev = .error_callback on_error user_data s b)) ∧
      (∀ username password s b, call = .login username password →
        env.exchange k (op.request env c) = .response s b → 200 ≤ s ∧ s < 300 →
        ev = .login_callback on_success user_data
          (from_json.parse_auth_response b).access_token
          (from_json.parse_auth_response b).refresh_token
          (from_json.parse_auth_response b).expires_in)) ∧
    ∀ (response : AuthResponse) (contexts : List (Nat × CallbackContext)) (last : Nat)
      (trace : List Event),
      login_lambda (w.last_address + 1) response
          { contexts :=
              (w.last_address + 1,
                { CallbackContext.of_user_data user_data with
                  login_callback := on_success, error_callback := on_error }) :: contexts
            last_address := last
            trace := trace } =
        .ok
          { contexts := contexts
            last_address := last
            trace := trace ++
              [Event.login_callback on_success user_data (c_str response.access_token)
                (c_str response.refresh_token) response.expires_in,
                Event.delete_context (w.last_address + 1)] } := by
  constructor
  · have hrun := bizmap_call_eq env c k hk call op hop on_success on_error user_data w
    cases hx : env.exchange k (op.request env c) with
    | response s b =>
      by_cases h : 200 ≤ s ∧ s < 300
      · refine ⟨call.success_event on_success user_data b, ?_, ?_, ?_, ?_⟩
        · rw [hrun, hx]
          simp [CCall.host_calls, h, hs]
        · cases call <;> rfl
        · intro s' b' hx' h'
          cases hx'
          exact absurd h h'
        · intro username password s' b' hcall hx' _
          cases hx'
          subst hcall
          rfl
      · refine ⟨.error_callback on_error user_data s (c_str b), ?_, rfl, ?_, ?_⟩
        · rw [hrun, hx]
          simp [CCall.host_calls, h, he]
        · intro s' b' hx' _
          cases hx'
          exact ⟨rfl, fun hb => by rw [c_str_of_no_nul b hb]⟩
        · intro username password s' b' _ hx' h'
          cases hx'
          exact absurd h' h
    | error err =>
      refine ⟨.error_callback on_error user_data 0
        (failure_description (op.request env c).method err), ?_, rfl, ?_, ?_⟩
      · rw [hrun, hx]
        simp [CCall.host_calls, he]
      · intro s' b' hx' _
        cases hx'
      · intro username password s' b' _ hx' _
        cases hx'
  · intro response contexts last trace
    rw [login_lambda_eq]
    simp [hs, CallbackContext.of_user_data]

/-- Witness of C6 amended: the product lookup of a missing product, with
`user_data` 9. -/
theorem user_data_passed_unchanged_witness :
    ∃ ev,
      bizmap_call (Env.answering 404 "no such product") (some localhost_client)
          (.get_product (some "42")) 7 8 9 World.empty =
        .ok (some localhost_client,
          { contexts := [], last_address := 1,
            trace := [.new_context 1,
              .request localhost_httplib
                ((DomainCall.getProductById "42").request
                  (Env.answering 404 "no such product") localhost_client),
              ev, .delete_context 1] }) ∧
      ev = .error_callback 8 9 404 "no such product" := by
  obtain ⟨ev, hrun, _, herr, _⟩ :=
    (user_data_passed_unchanged (Env.answering 404 "no such product") localhost_client
      localhost_httplib (.get_product (some "42")) (.getProductById "42") 7 8 9 World.empty
      rfl rfl (by decide) (by decide)).1
  exact ⟨ev, hrun, (herr 404 "no such product" rfl (by decide)).2 (by decide)⟩

/-- **C7, as stated, fails.**  On a build where the recursion of the URL matcher
exhausts the stack on texts of more than 50000 characters, the URL `http://h/`
followed by 50000 letters makes `bizmap_create_client` return no handle at all:
the constructor ends in `std::regex_match`, and `catch (...)` does not intercept
the exhaustion of the stack. -/
theorem create_client_counterexample :
    long_url.length = 50009 ∧
    bizmap_create_client Env.shallow_stack (some long_url) = .error .stack_overflow :=
  ⟨long_url_length,
    (create_client_overflow Env.shallow_stack long_url long_url_overflows).2⟩

/-- **C7, amended.**  Function `bizmap_create_client` never lets an exception
escape: the one way it ends without returning is the exhaustion of the stack in
the URL matcher, on a URL for which the matcher does not return.  For every
`base_url` for which the matcher returns (every URL of at most 256 characters,
and the default `http://localhost:8080` of a null `base_url`), it returns a
handle; when the constructor returns a client for the URL the handle is to that
client, which holds that URL and the HTTP wrapper made for it; when the
constructor throws, the handle is null.  A port that does not fit an `int` gives
the null handle on every build, and an https URL does on a build without TLS. -/
theorem create_client_never_throws (env : Env) (base_url : Option String) :
    (∀ fault, bizmap_create_client env base_url = .error fault →
      fault = .stack_overflow ∧
      env.regex_returns (base_url.getD "http://localhost:8080") = false) ∧
    (env.regex_returns (base_url.getD "http://localhost:8080") = true →
      (∃ handle, bizmap_create_client env base_url = .ok handle) ∧
      (∀ c, ApiClient.new env (base_url.getD "http://localhost:8080") = .ok c →
        bizmap_create_client env base_url = .ok (some c) ∧
        c.base_url_ = base_url.getD "http://localhost:8080" ∧
        HttpClient.new env (base_url.getD "http://localhost:8080") = .ok c.http_client_) ∧
      (∀ fault, ApiClient.new env (base_url.getD "http://localhost:8080") = .error fault →
        bizmap_create_client env base_url = .ok none)) ∧
    (∀ url : String, url.length ≤ 256 → env.regex_returns url = true) ∧
    env.regex_returns "http://localhost:8080" = true ∧
    bizmap_create_client env (some "http://localhost:99999999999") = .ok none ∧
    (env.openssl_support = false →
      bizmap_create_client env (some "https://example.com") = .ok none) := by
  have hcreate : bizmap_create_client env base_url =
      match ApiClient.new env (base_url.getD "http://localhost:8080") with
      | .ok c => .ok (some c)
      | .error fault => if fault.is_exception then .ok none else .error fault := by
    unfold bizmap_create_client
    dsimp only
    cases h : ApiClient.new env (base_url.getD "http://localhost:8080") <;>
      simp [tryCatch, tryCatchThe, MonadExceptOf.tryCatch, Except.tryCatch, bind,
        Except.bind, pure, Except.pure, throw, throwThe, MonadExceptOf.throw]
  have hfault := ApiClient.new_fault env (base_url.getD "http://localhost:8080")
  refine ⟨?_, ?_, ?_, rfl, ?_, ?_⟩
  · intro fault hf
    rw [hcreate] at hf
    cases hn : ApiClient.new env (base_url.getD "http://localhost:8080") with
    | ok c => simp [hn] at hf
    | error f =>
      rcases hfault f hn with ⟨hexc, _⟩ | ⟨hso, hret⟩
      · simp [hn, hexc] at hf
      · subst hso
        simp [hn, Fault.is_exception] at hf
        exact ⟨hf.symm, hret⟩
  · intro hret
    refine ⟨?_, ?_, ?_⟩
    · rw [hcreate]
      cases hn : ApiClient.new env (base_url.getD "http://localhost:8080") with
      | ok c => exact ⟨some c, rfl⟩
      | error f =>
        rcases hfault f hn with ⟨hexc, _⟩ | ⟨_, hret'⟩
        · exact ⟨none, by simp [hexc]⟩
        · rw [hret] at hret'
          cases hret'
    · intro c hc
      refine ⟨by rw [hcreate, hc], ?_, ?_⟩
      · unfold ApiClient.new at hc
        cases hn : HttpClient.new env (base_url.getD "http://localhost:8080") with
        | error f => simp [hn, bind, Except.bind] at hc
        | ok http =>
          simp only [hn, bind, Except.bind, pure, Except.pure, Except.ok.injEq] at hc
          subst hc
          rfl
      · unfold ApiClient.new at hc
        cases hn : HttpClient.new env (base_url.getD "http://localhost:8080") with
        | error f => simp [hn, bind, Except.bind] at hc
        | ok http =>
          simp only [hn, bind, Except.bind, pure, Except.pure, Except.ok.injEq] at hc
          subst hc
          rfl
    · intro fault hf
      rw [hcreate, hf]
      rcases hfault fault hf with ⟨hexc, _⟩ | ⟨_, hret'⟩
      · simp [hexc]
      · rw [hret] at hret'
        cases hret'
  · intro url hshort
    exact regex_returns_of_short env url hshort
  · rfl
  · intro hssl
    have hnew : ApiClient.new env "https://example.com" =
        .error (.runtime_error "HTTPS no soportado. Recompilar con OpenSSL") := by
      have hparse : HttpClient.parseHost env ⟨"", 0, "", none, 30⟩ "https://example.com" =
          .ok ⟨"example.com", 443, "https", none, 30⟩ := by rfl
      simp [ApiClient.new, HttpClient.new, hparse, HttpClient.ensureClient, hssl, bind,
        Except.bind, throw, throwThe, MonadExceptOf.throw]
    unfold bizmap_create_client
    simp only [Option.getD_some]
    rw [hnew]
    rfl

/-- Witness of C7 amended: the default URL, and an https URL on a build without
TLS. -/
theorem create_client_never_throws_witness :
    bizmap_create_client (Env.answering 200 "ok") none = .ok (some localhost_client) ∧
    bizmap_create_client (Env.answering 200 "ok") (some "https://example.com") = .ok none :=
  ⟨(((create_client_never_throws (Env.answering 200 "ok") none).2.1 rfl).2.1
      localhost_client rfl).1,
    (create_client_never_throws (Env.answering 200 "ok") none).2.2.2.2.2 rfl⟩

/-- **C8.** Function `bizmap_set_base_url` does let an exception escape: on a
live handle, a base URL whose port does not fit an `int` makes `std::stoi` throw
`std::out_of_range` inside the constructor of the new HTTP wrapper, and nothing
between there and the C caller catches it.  The same URL given to
`bizmap_create_client`, which has the `try`/`catch`, gives the null handle. -/
theorem set_base_url_lets_exception_escape (env : Env) (c : ApiClient) :
    bizmap_set_base_url env (some c) (some "http://localhost:99999999999") =
      .error Fault.out_of_range ∧
    bizmap_create_client env (some "http://localhost:99999999999") = .ok none :=
  ⟨rfl, rfl⟩


/-- **C9, as stated, fails.**  With latitude and longitude both zero, a query
text that carries its own `&lat=` and `&lng=` reaches the path verbatim: the
request `bizmap_search_businesses` issues has a `lat` and a `lng` parameter. -/
theorem location_attached_counterexample :
    bizmap_call (Env.answering 200 "[]") (some localhost_client)
        (.search_businesses (some "pizza&lat=1&lng=2") Double.zero Double.zero 0 none 20 0)
        7 8 9 World.empty =
      .ok (some localhost_client,
        { contexts := [], last_address := 1,
          trace := [.new_context 1,
            .request localhost_httplib
              { method := .GET
                path := "/api/v1/businesses/search?q=pizza&lat=1&lng=2&limit=20&offset=0"
                headers := [("Content-Type", "application/json")]
                body := "", content_type := "" },
            .json_callback 7 9 "[]", .delete_context 1] }) ∧
    Double.zero.is_zero = true ∧
    has_param "lat" "/api/v1/businesses/search?q=pizza&lat=1&lng=2&limit=20&offset=0" = true ∧
    has_param "lng" "/api/v1/businesses/search?q=pizza&lat=1&lng=2&limit=20&offset=0" = true :=
  ⟨rfl, rfl, by decide, by decide⟩

/-- **C9, amended.**  For `bizmap_search_businesses` and `bizmap_search_products`
on a live handle, the one request the call issues has a path such that: when
latitude and longitude are both zero and the query and category texts have no
`&` (for products, nor have the texts of numbers), the query string has neither
a `lat` nor a `lng` parameter, for every value of the other arguments; when at
least one of the two is non-zero, it has both, for every query and category. -/
theorem location_attached_iff_nonzero (env : Env) (c : ApiClient) (k : HttplibClient)
    (query : Option String) (product_query : String) (latitude longitude : Double)
    (radius_meters : Int) (min_price max_price : Double) (category : Option String)
    (limit offset : Int) (on_success on_error user_data : Nat) (w : World)
    (hk : c.http_client_.client_ = some k) :
    (∃ (path : String) (fired : List Event),
      bizmap_call env (some c)
          (.search_businesses query latitude longitude radius_meters category limit offset)
          on_success on_error user_data w =
        .ok (some c,
          { contexts := w.contexts
            last_address := w.last_address + 1
            trace := w.trace ++
              ([Event.new_context (w.last_address + 1),
                  Event.request k
                    { method := .GET, path := path
                      headers := [("Content-Type", "application/json")]
                      body := "", content_type := "" }] ++
                fired ++ [Event.delete_context (w.last_address + 1)]) }) ∧
      (latitude.is_zero = true ∧ longitude.is_zero = true →
        (∀ q, query = some q → '&' ∉ q.toList) →
        (∀ cat, category = some cat → '&' ∉ cat.toList) →
        has_param "lat" path = false ∧ has_param "lng" path = false) ∧
      (¬(latitude.is_zero = true ∧ longitude.is_zero = true) →
        has_param "lat" path = true ∧ has_param "lng" path = true)) ∧
    (∃ (path : String) (headers : Headers) (fired : List Event),
      bizmap_call env (some c)
          (.search_products (some product_query) latitude longitude radius_meters min_price
            max_price category limit offset)
          on_success on_error user_data w =
        .ok (some c,
          { contexts := w.contexts
            last_address := w.last_address + 1
            trace := w.trace ++
              ([Event.new_context (w.last_address + 1),
                  Event.request k
                    { method := .GET, path := path, headers := headers
                      body := "", content_type := "" }] ++
                fired ++ [Event.delete_context (w.last_address + 1)]) }) ∧
      (latitude.is_zero = true ∧ longitude.is_zero = true →
        '&' ∉ product_query.toList →
        (∀ cat, category = some cat → '&' ∉ cat.toList) →
        (∀ d, '&' ∉ (env.ostream_double d).toList) →
        has_param "lat" path = false ∧ has_param "lng" path = false) ∧
      (¬(latitude.is_zero = true ∧ longitude.is_zero = true) →
        has_param "lat" path = true ∧ has_param "lng" path = true)) := by
  have hzero : latitude.is_zero = true ∧ longitude.is_zero = true →
      ¬(latitude.ne_zero || longitude.ne_zero) = true := by
    intro h
    simp [Double.ne_zero, h.1, h.2]
  have hnonzero : ¬(latitude.is_zero = true ∧ longitude.is_zero = true) →
      (latitude.ne_zero || longitude.ne_zero) = true := by
    intro h
    cases h1 : latitude.is_zero <;> cases h2 : longitude.is_zero <;>
      simp [Double.ne_zero, h1, h2] at h ⊢
  constructor
  · obtain ⟨fired, hrun⟩ := bizmap_search_businesses_run env c k hk query latitude longitude
      radius_meters category limit offset on_success on_error user_data w
    refine ⟨_, fired, hrun, ?_, ?_⟩
    · intro hz hq hc
      have hloc := hzero hz
      unfold has_param
      rw [business_search_names env query latitude longitude radius_meters category limit
        offset hq hc (fun h => absurd h hloc)]
      cases category <;> simp [hloc]
    · intro hnz
      exact business_search_has_location env query latitude longitude radius_meters category
        limit offset (hnonzero hnz)
  · obtain ⟨headers, fired, hrun⟩ := bizmap_search_products_run env c k hk product_query
      latitude longitude radius_meters min_price max_price category limit offset on_success
      on_error user_data w
    refine ⟨_, headers, fired, hrun, ?_, ?_⟩
    · intro hz hq hc henv
      have hloc := hzero hz
      unfold has_param
      rw [product_search_names env product_query latitude longitude radius_meters min_price
        max_price category limit offset hq hc henv]
      by_cases hmin : min_price.ge_zero = true <;>
        by_cases hmax : max_price.ge_zero = true <;> cases category <;>
        simp [hloc, hmin, hmax]
    · intro hnz
      exact product_search_has_location env product_query latitude longitude radius_meters
        min_price max_price category limit offset (hnonzero hnz)

/-- Witness of C9 amended: a product search for "laptop" without a location,
and a business search at latitude 1. -/
theorem location_attached_iff_nonzero_witness :
    (∃ (path : String) (headers : Headers) (fired : List Event),
      bizmap_call (Env.answering 200 "[]") (some localhost_client)
          (.search_products (some "laptop") Double.zero Double.zero 0 ⟨false, 1023, 0⟩
            ⟨true, 1023, 0⟩ none 0 0) 7 8 9 World.empty =
        .ok (some localhost_client,
          { contexts := [], last_address := 1,
            trace := [] ++
              ([Event.new_context 1,
                  Event.request localhost_httplib
                    { method := .GET, path := path, headers := headers
                      body := "", content_type := "" }] ++
                fired ++ [Event.delete_context 1]) }) ∧
      has_param "lat" path = false ∧ has_param "lng" path = false) ∧
    (∃ (path : String) (fired : List Event),
      bizmap_call (Env.answering 200 "[]") (some localhost_client)
          (.search_businesses (some "pizza&lat=1") ⟨false, 1023, 0⟩ Double.zero 0 none 0 0)
          7 8 9 World.empty =
        .ok (some localhost_client,
          { contexts := [], last_address := 1,
            trace := [] ++
              ([Event.new_context 1,
                  Event.request localhost_httplib
                    { method := .GET, path := path
                      headers := [("Content-Type", "application/json")]
                      body := "", content_type := "" }] ++
                fired ++ [Event.delete_context 1]) }) ∧
      has_param "lat" path = true ∧ has_param "lng" path = true) := by
  constructor
  · obtain ⟨path, headers, fired, hrun, hzero, _⟩ :=
      (location_attached_iff_nonzero (Env.answering 200 "[]") localhost_client
        localhost_httplib none "laptop" Double.zero Double.zero 0 ⟨false, 1023, 0⟩
        ⟨true, 1023, 0⟩ none 0 0 7 8 9 World.empty rfl).2
    exact ⟨path, headers, fired, hrun,
      hzero (by decide) (by decide) (fun _ h => nomatch h) classic_text_no_amp⟩
  · obtain ⟨path, fired, hrun, _, hnonzero⟩ :=
      (location_attached_iff_nonzero (Env.answering 200 "[]") localhost_client
        localhost_httplib (some "pizza&lat=1") "" ⟨false, 1023, 0⟩ Double.zero 0
        Double.zero Double.zero none 0 0 7 8 9 World.empty rfl).1
    exact ⟨path, fired, hrun, hnonzero (by decide)⟩


/-- **C10, as stated, fails.**  With `radius_meters = -5`, a query text that
carries its own `&radius=` reaches the path verbatim: the request
`bizmap_search_businesses` issues has a `radius` parameter. -/
theorem radius_absent_counterexample :
    bizmap_call (Env.answering 200 "[]") (some localhost_client)
        (.search_businesses (some "pizza&radius=5") Double.zero Double.zero (-5) none 20 0)
        7 8 9 World.empty =
      .ok (some localhost_client,
        { contexts := [], last_address := 1,
          trace := [.new_context 1,
            .request localhost_httplib
              { method := .GET
                path := "/api/v1/businesses/search?q=pizza&radius=5&limit=20&offset=0"
                headers := [("Content-Type", "application/json")]
                body := "", content_type := "" },
            .json_callback 7 9 "[]", .delete_context 1] }) ∧
    has_param "radius" "/api/v1/businesses/search?q=pizza&radius=5&limit=20&offset=0" = true :=
  ⟨rfl, by decide⟩

/-- **C10, amended.**  For `bizmap_search_businesses` and
`bizmap_search_products` on a live handle: whenever `radius_meters ≤ 0` and the
query and category texts and the texts of numbers have no `&`, the query string
of the one request the call issues has no `radius` parameter, for every value of
the other arguments. -/
theorem radius_absent_when_not_positive (env : Env) (c : ApiClient) (k : HttplibClient)
    (query : Option String) (product_query : String) (latitude longitude : Double)
    (radius_meters : Int) (min_price max_price : Double) (category : Option String)
    (limit offset : Int) (on_success on_error user_data : Nat) (w : World)
    (hk : c.http_client_.client_ = some k)
    (hradius : radius_meters ≤ 0)
    (hq : ∀ q, query = some q → '&' ∉ q.toList)
    (hpq : '&' ∉ product_query.toList)
    (hc : ∀ cat, category = some cat → '&' ∉ cat.toList)
    (henv : ∀ d, '&' ∉ (env.ostream_double d).toList) :
    (∃ (path : String) (fired : List Event),
      bizmap_call env (some c)
          (.search_businesses query latitude longitude radius_meters category limit offset)
          on_success on_error user_data w =
        .ok (some c,
          { contexts := w.contexts
            last_address := w.last_address + 1
            trace := w.trace ++
              ([Event.new_context (w.last_address + 1),
                  Event.request k
                    { method := .GET, path := path
                      headers := [("Content-Type", "application/json")]
                      body := "", content_type := "" }] ++
                fired ++ [Event.delete_context (w.last_address + 1)]) }) ∧
      has_param "radius" path = false) ∧
    (∃ (path : String) (headers : Headers) (fired : List Event),
      bizmap_call env (some c)
          (.search_products (some product_query) latitude longitude radius_meters min_price
            max_price category limit offset)
          on_success on_error user_data w =
        .ok (some c,
          { contexts := w.contexts
            last_address := w.last_address + 1
            trace := w.trace ++
              ([Event.new_context (w.last_address + 1),
                  Event.request k
                    { method := .GET, path := path, headers := headers
                      body := "", content_type := "" }] ++
                fired ++ [Event.delete_context (w.last_address + 1)]) }) ∧
      has_param "radius" path = false) := by
  have hr : ¬radius_meters > 0 := not_lt.mpr hradius
  constructor
  · obtain ⟨fired, hrun⟩ := bizmap_search_businesses_run env c k hk query latitude longitude
      radius_meters category limit offset on_success on_error user_data w
    refine ⟨_, fired, hrun, ?_⟩
    unfold has_param
    rw [business_search_names env query latitude longitude radius_meters category limit
      offset hq hc (fun _ => henv)]
    by_cases hloc : (latitude.ne_zero || longitude.ne_zero) = true <;> cases category <;>
      simp [hloc, hr]
  · obtain ⟨headers, fired, hrun⟩ := bizmap_search_products_run env c k hk product_query
      latitude longitude radius_meters min_price max_price category limit offset on_success
      on_error user_data w
    refine ⟨_, headers, fired, hrun, ?_⟩
    unfold has_param
    rw [product_search_names env product_query latitude longitude radius_meters min_price
      max_price category limit offset hpq hc henv]
    by_cases hloc : (latitude.ne_zero || longitude.ne_zero) = true <;>
      by_cases hmin : min_price.ge_zero = true <;>
      by_cases hmax : max_price.ge_zero = true <;> cases category <;>
      simp [hloc, hr, hmin, hmax]

/-- Witness of C10 amended: the searches for "pizza" and for "laptop" at
latitude 1 with `radius_meters = -5`. -/
theorem radius_absent_when_not_positive_witness :
    (∃ (path : String) (fired : List Event),
      bizmap_call (Env.answering 200 "[]") (some localhost_client)
          (.search_businesses (some "pizza") ⟨false, 1023, 0⟩ Double.zero (-5)
            (some "food") 0 0) 7 8 9 World.empty =
        .ok (some localhost_client,
          { contexts := [], last_address := 1,
            trace := [] ++
              ([Event.new_context 1,
                  Event.request localhost_httplib
                    { method := .GET, path := path
                      headers := [("Content-Type", "application/json")]
                      body := "", content_type := "" }] ++
                fired ++ [Event.delete_context 1]) }) ∧
      has_param "radius" path = false) ∧
    (∃ (path : String) (headers : Headers) (fired : List Event),
      bizmap_call (Env.answering 200 "[]") (some localhost_client)
          (.search_products (some "laptop") ⟨false, 1023, 0⟩ Double.zero (-5)
            Double.zero Double.zero (some "food") 0 0) 7 8 9 World.empty =
        .ok (some localhost_client,
          { contexts := [], last_address := 1,
            trace := [] ++
              ([Event.new_context 1,
                  Event.request localhost_httplib
                    { method := .GET, path := path, headers := headers
                      body := "", content_type := "" }] ++
                fired ++ [Event.delete_context 1]) }) ∧
      has_param "radius" path = false) :=
  radius_absent_when_not_positive (Env.answering 200 "[]") localhost_client
    localhost_httplib (some "pizza") "laptop" ⟨false, 1023, 0⟩ Double.zero (-5)
    Double.zero Double.zero (some "food") 0 0 7 8 9 World.empty rfl (by decide)
    (fun q h => by cases h; decide) (by decide) (fun cat h => by cases h; decide)
    classic_text_no_amp


/-- **C11, as stated, fails.**  With `min_price = -1` and `max_price = -1`, a
query text that carries its own `&min_price=` reaches the path verbatim: the
request `bizmap_search_products` issues has a `min_price` parameter. -/
theorem price_absent_counterexample :
    bizmap_call (Env.answering 200 "[]") (some localhost_client)
        (.search_products (some "laptop&min_price=5") Double.zero Double.zero 0
          ⟨true, 1023, 0⟩ ⟨true, 1023, 0⟩ none 20 0)
        7 8 9 World.empty =
      .ok (some localhost_client,
        { contexts := [], last_address := 1,
          trace := [.new_context 1,
            .request localhost_httplib
              { method := .GET
                path := "/api/v1/products/search?q=laptop&min_price=5&limit=20&offset=0"
                headers := [("Content-Type", "application/json")]
                body := "", content_type := "" },
            .json_callback 7 9 "[]", .delete_context 1] }) ∧
    Double.lt_zero ⟨true, 1023, 0⟩ = true ∧
    has_param "min_price"
      "/api/v1/products/search?q=laptop&min_price=5&limit=20&offset=0" = true :=
  ⟨rfl, rfl, by decide⟩

/-- **C11, amended.**  For `bizmap_search_products` on a live handle with a
query, the one request the call issues has a path such that: when `min_price`
(resp. `max_price`) is below zero and the query and category texts and the texts
of numbers have no `&`, the query string has no `min_price` (resp. `max_price`)
parameter; when it is `>= 0`, as exactly `0` is, the query string has that
parameter, for every query and category. -/
theorem price_attached_iff_not_negative (env : Env) (c : ApiClient) (k : HttplibClient)
    (query : String) (latitude longitude : Double) (radius_meters : Int)
    (min_price max_price : Double) (category : Option String) (limit offset : Int)
    (on_success on_error user_data : Nat) (w : World)
    (hk : c.http_client_.client_ = some k) :
    Double.zero.ge_zero = true ∧
    ∃ (path : String) (headers : Headers) (fired : List Event),
      bizmap_call env (some c)
          (.search_products (some query) latitude longitude radius_meters min_price
            max_price category limit offset)
          on_success on_error user_data w =
        .ok (some c,
          { contexts := w.contexts
            last_address := w.last_address + 1
            trace := w.trace ++
              ([Event.new_context (w.last_address + 1),
                  Event.request k
                    { method := .GET, path := path, headers := headers
                      body := "", content_type := "" }] ++
                fired ++ [Event.delete_context (w.last_address + 1)]) }) ∧
      ('&' ∉ query.toList →
        (∀ cat, category = some cat → '&' ∉ cat.toList) →
        (∀ d, '&' ∉ (env.ostream_double d).toList) →
        (min_price.lt_zero = true → has_param "min_price" path = false) ∧
        (max_price.lt_zero = true → has_param "max_price" path = false)) ∧
      (min_price.ge_zero = true → has_param "min_price" path = true) ∧
      (max_price.ge_zero = true → has_param "max_price" path = true) := by
  refine ⟨rfl, ?_⟩
  obtain ⟨headers, fired, hrun⟩ := bizmap_search_products_run env c k hk query
    latitude longitude radius_meters min_price max_price category limit offset on_success
    on_error user_data w
  refine ⟨_, headers, fired, hrun, ?_, ?_, ?_⟩
  · intro hq hc henv
    have hnames := product_search_names env query latitude longitude radius_meters min_price
      max_price category limit offset hq hc henv
    constructor
    · intro hneg
      have hmin := Double.not_ge_zero_of_lt_zero min_price hneg
      unfold has_param
      rw [hnames]
      by_cases hloc : (latitude.ne_zero || longitude.ne_zero) = true <;>
        by_cases hr : radius_meters > 0 <;>
        by_cases hmax : max_price.ge_zero = true <;> cases category <;>
        simp [hloc, hr, hmin, hmax]
    · intro hneg
      have hmax := Double.not_ge_zero_of_lt_zero max_price hneg
      unfold has_param
      rw [hnames]
      by_cases hloc : (latitude.ne_zero || longitude.ne_zero) = true <;>
        by_cases hr : radius_meters > 0 <;>
        by_cases hmin : min_price.ge_zero = true <;> cases category <;>
        simp [hloc, hr, hmin, hmax]
  · exact product_search_has_min_price env query latitude longitude radius_meters min_price
      max_price category limit offset
  · exact product_search_has_max_price env query latitude longitude radius_meters min_price
      max_price category limit offset

/-- Witness of C11 amended: the search for "laptop" with `min_price = 0` and
`max_price = -1`. -/
theorem price_attached_iff_not_negative_witness :
    ∃ (path : String) (headers : Headers) (fired : List Event),
      bizmap_call (Env.answering 200 "[]") (some localhost_client)
          (.search_products (some "laptop") Double.zero Double.zero 0 Double.zero
            ⟨true, 1023, 0⟩ (some "tech") 20 0) 7 8 9 World.empty =
        .ok (some localhost_client,
          { contexts := [], last_address := 1,
            trace := [] ++
              ([Event.new_context 1,
                  Event.request localhost_httplib
                    { method := .GET, path := path, headers := headers
                      body := "", content_type := "" }] ++
                fired ++ [Event.delete_context 1]) }) ∧
      has_param "min_price" path = true ∧ has_param "max_price" path = false := by
  obtain ⟨path, headers, fired, hrun, hneg, hmin, _⟩ :=
    (price_attached_iff_not_negative (Env.answering 200 "[]") localhost_client
      localhost_httplib "laptop" Double.zero Double.zero 0 Double.zero ⟨true, 1023, 0⟩
      (some "tech") 20 0 7 8 9 World.empty rfl).2
  exact ⟨path, headers, fired, hrun, hmin (by decide),
    (hneg (by decide) (fun cat h => by cases h; decide) classic_text_no_amp).2
      (by decide)⟩


/-- **C12.**  For `bizmap_search_businesses`, `bizmap_search_products` (with a
query) and `bizmap_get_search_history` on a live handle: the path of the one
request the call issues ends, for the two searches, with `&limit=` and the text
of 20 when `limit ≤ 0` and of `limit` otherwise, then `&offset=` and the text of
0 when `offset < 0` and of `offset` otherwise; for the history it is
`/api/v1/search/history?limit=` and the text of 20 when `limit ≤ 0` and of
`limit` otherwise. -/
theorem limit_and_offset_written (env : Env) (c : ApiClient) (k : HttplibClient)
    (query : Option String) (product_query : String) (latitude longitude : Double)
    (radius_meters : Int) (min_price max_price : Double) (category : Option String)
    (limit offset : Int) (on_success on_error user_data : Nat) (w : World)
    (hk : c.http_client_.client_ = some k) :
    (∃ (head : String) (fired : List Event),
      bizmap_call env (some c)
          (.search_businesses query latitude longitude radius_meters category limit offset)
          on_success on_error user_data w =
        .ok (some c,
          { contexts := w.contexts
            last_address := w.last_address + 1
            trace := w.trace ++
              ([Event.new_context (w.last_address + 1),
                  Event.request k
                    { method := .GET
                      path := head
                        ++ "&limit=" ++ int_to_string (if limit ≤ 0 then 20 else limit)
                        ++ "&offset=" ++ int_to_string (if offset < 0 then 0 else offset)
                      headers := [("Content-Type", "application/json")]
                      body := "", content_type := "" }] ++
                fired ++ [Event.delete_context (w.last_address + 1)]) })) ∧
    (∃ (head : String) (headers : Headers) (fired : List Event),
      bizmap_call env (some c)
          (.search_products (some product_query) latitude longitude radius_meters min_price
            max_price category limit offset)
          on_success on_error user_data w =
        .ok (some c,
          { contexts := w.contexts
            last_address := w.last_address + 1
            trace := w.trace ++
              ([Event.new_context (w.last_address + 1),
                  Event.request k
                    { method := .GET
                      path := head
                        ++ "&limit=" ++ int_to_string (if limit ≤ 0 then 20 else limit)
                        ++ "&offset=" ++ int_to_string (if offset < 0 then 0 else offset)
                      headers := headers
                      body := "", content_type := "" }] ++
                fired ++ [Event.delete_context (w.last_address + 1)]) })) ∧
    (∃ (headers : Headers) (fired : List Event),
      bizmap_call env (some c) (.get_search_history limit)
          on_success on_error user_data w =
        .ok (some c,
          { contexts := w.contexts
            last_address := w.last_address + 1
            trace := w.trace ++
              ([Event.new_context (w.last_address + 1),
                  Event.request k
                    { method := .GET
                      path := "/api/v1/search/history?limit="
                        ++ int_to_string (if limit ≤ 0 then 20 else limit)
                      headers := headers
                      body := "", content_type := "" }] ++
                fired ++ [Event.delete_context (w.last_address + 1)]) })) := by
  refine ⟨?_, ?_, ?_⟩
  · obtain ⟨fired, hrun⟩ := bizmap_search_businesses_run env c k hk query latitude longitude
      radius_meters category limit offset on_success on_error user_data w
    obtain ⟨head, hpath⟩ := searchBusinesses_path_tail env
      (business_search_params query latitude longitude radius_meters category limit offset)
    obtain ⟨hl, ho⟩ := business_search_params_limit query latitude longitude radius_meters
      category limit offset
    rw [hl, ho] at hpath
    rw [hpath] at hrun
    exact ⟨head, fired, hrun⟩
  · obtain ⟨headers, fired, hrun⟩ := bizmap_search_products_run env c k hk product_query
      latitude longitude radius_meters min_price max_price category limit offset on_success
      on_error user_data w
    obtain ⟨head, hpath⟩ := searchProducts_path_tail env
      (product_search_params product_query latitude longitude radius_meters min_price
        max_price category limit offset)
    obtain ⟨hl, ho⟩ := product_search_params_limit product_query latitude longitude
      radius_meters min_price max_price category limit offset
    rw [hl, ho] at hpath
    rw [hpath] at hrun
    exact ⟨head, headers, fired, hrun⟩
  · have hrun := bizmap_call_eq env c k hk (.get_search_history limit)
      (.getSearchHistory (if limit > 0 then limit else 20)) rfl on_success on_error
      user_data w
    have hl : (if limit > 0 then limit else 20) = (if limit ≤ 0 then 20 else limit) := by
      by_cases h : limit > 0
      · simp [h, not_le.mpr h]
      · simp [h, not_lt.mp h]
    rw [hl] at hrun
    exact ⟨_, _, hrun⟩

/-- Witness of C12: a business search with `limit = 0` and `offset = -3` on the
client of `http://localhost:8080` requests `…&limit=20&offset=0`. -/
theorem limit_and_offset_written_witness :
    ∃ (head : String) (fired : List Event),
      bizmap_call (Env.answering 200 "[]") (some localhost_client)
          (.search_businesses (some "pizza") Double.zero Double.zero 0 none 0 (-3))
          7 8 9 World.empty =
        .ok (some localhost_client,
          { contexts := [], last_address := 1,
            trace := [] ++
              ([Event.new_context 1,
                  Event.request localhost_httplib
                    { method := .GET
                      path := head ++ "&limit=" ++ int_to_string 20
                        ++ "&offset=" ++ int_to_string 0
                      headers := [("Content-Type", "application/json")]
                      body := "", content_type := "" }] ++
                fired ++ [Event.delete_context 1]) }) :=
  (limit_and_offset_written (Env.answering 200 "[]") localhost_client localhost_httplib
    (some "pizza") "" Double.zero Double.zero 0 Double.zero Double.zero none 0 (-3)
    7 8 9 World.empty rfl).1


/-- **C13, as stated, fails.**  A business search with a radius and no location
requests a path with no `radius` parameter, where the list of pieces has
`&radius=5000`: the radius is written inside the branch of the location.  And a
query that holds a NUL is requested up to that character only, with nothing of
what was to follow it. -/
theorem businesses_path_counterexample :
    localhost_client.call (Env.answering 200 "[]") (.searchBusinesses pizza_nowhere)
        observe_success observe_error World.empty =
      .ok (localhost_client,
        { contexts := [], last_address := 0,
          trace := [.request localhost_httplib
              { method := .GET
                path := "/api/v1/businesses/search?q=pizza&limit=20&offset=0"
                headers := [("Content-Type", "application/json")]
                body := "", content_type := "" },
            .on_success (.business_list [])] }) ∧
    flat_businesses_path (Env.answering 200 "[]") pizza_nowhere =
      "/api/v1/businesses/search?q=pizza&radius=5000&limit=20&offset=0" ∧
    has_param "radius" "/api/v1/businesses/search?q=pizza&limit=20&offset=0" = false ∧
    localhost_client.call (Env.answering 200 "[]")
        (.searchBusinesses { pizza_nowhere with query := "piz\x00za" })
        observe_success observe_error World.empty =
      .ok (localhost_client,
        { contexts := [], last_address := 0,
          trace := [.request localhost_httplib
              { method := .GET
                path := "/api/v1/businesses/search?q=piz"
                headers := [("Content-Type", "application/json")]
                body := "", content_type := "" },
            .on_success (.business_list [])] }) :=
  ⟨rfl, by decide, by decide, rfl⟩

/-- **C13, amended.**  For every `BusinessSearchParams`, on a client that holds
its httplib client, `searchBusinesses` issues a GET whose path is the C string
of the text it writes: `/api/v1/businesses/search?q=` and the query, followed in
this order by `&lat=`latitude`&lng=`longitude when a location is present (and
then `&radius=`radius when a radius is present too), `&category=`category when a
category is present and nothing when it is absent, then
`&limit=`limit`&offset=`offset.  When the query and the category hold no NUL the
path is that text, whole, and when moreover they and the texts of numbers have
no `&`, the path has a `radius` parameter exactly when a location and a radius
are both present; when a location is present or the radius is absent that text
is the list of pieces with the radius on its own, which is then what
`searchBusinesses` writes; and where the stream writes
numbers as in the classic locale, the path requested for "pizza",
(40.7128, -74.0060), radius 5000, limit 20, offset 0 is exactly
`/api/v1/businesses/search?q=pizza&lat=40.7128&lng=-74.006&radius=5000&limit=20&offset=0`. -/
theorem businesses_path_layout (env : Env) (c : ApiClient) (k : HttplibClient)
    (params : BusinessSearchParams) (w : World)
    (hk : c.http_client_.client_ = some k) :
    (∃ outcome : Event,
      c.call env (.searchBusinesses params) observe_success observe_error w =
        .ok (c,
          { w with
            trace := w.trace ++
              [.request k
                { method := .GET
                  path := c_str (spec_businesses_path env params)
                  headers := [("Content-Type", "application/json")]
                  body := "", content_type := "" },
                outcome] })) ∧
    ('\x00' ∉ params.query.toList →
      (∀ cat, params.category = some cat → '\x00' ∉ cat.toList) →
      c_str (spec_businesses_path env params) = spec_businesses_path env params ∧
      ('&' ∉ params.query.toList →
        (∀ cat, params.category = some cat → '&' ∉ cat.toList) →
        (∀ d, '&' ∉ (env.ostream_double d).toList) →
        has_param "radius" (c_str (spec_businesses_path env params)) =
          (params.location.isSome && params.radius_meters.isSome))) ∧
    (params.location.isSome = true ∨ params.radius_meters.isNone = true →
      ApiClient.searchBusinesses_path env params = flat_businesses_path env params ∧
      spec_businesses_path env params = flat_businesses_path env params) ∧
    (env.ostream_double = ostream_double_classic →
      ∃ outcome : Event,
        c.call env (.searchBusinesses pizza_search) observe_success observe_error w =
          .ok (c,
            { w with
              trace := w.trace ++
                [.request k
                  { method := .GET
                    path := "/api/v1/businesses/search?q=pizza&lat=40.7128&lng=-74.006&radius=5000&limit=20&offset=0"
                    headers := [("Content-Type", "application/json")]
                    body := "", content_type := "" },
                  outcome] })) := by
  refine ⟨?_, ?_, ?_, ?_⟩
  · obtain ⟨outcome, hrun⟩ := ApiClient.call_observed env c k hk (.searchBusinesses params) w
    refine ⟨outcome, ?_⟩
    rw [hrun]
    simp only [DomainCall.request, searchBusinesses_path_eq_spec]
  · intro hq0 hc0
    have hwhole :
        c_str (spec_businesses_path env params) = spec_businesses_path env params := by
      rw [← searchBusinesses_path_eq_spec]
      exact c_str_of_no_nul _ (searchBusinesses_path_no_nul env params hq0 hc0)
    refine ⟨hwhole, fun hq hc henv => ?_⟩
    rw [hwhole, ← searchBusinesses_path_eq_spec]
    exact searchBusinesses_radius_clean env params hq hc henv
  · intro h
    have hflat : spec_businesses_path env params = flat_businesses_path env params := by
      obtain ⟨query, category, location, radius_meters, limit, offset⟩ := params
      cases location <;> cases radius_meters <;> simp at h <;>
        simp [spec_businesses_path, flat_businesses_path, when_present, String.append_assoc]
    exact ⟨(searchBusinesses_path_eq_spec env params).trans hflat, hflat⟩
  · intro henv
    obtain ⟨outcome, hrun⟩ :=
      ApiClient.call_observed env c k hk (.searchBusinesses pizza_search) w
    refine ⟨outcome, ?_⟩
    rw [hrun]
    have hpath : ApiClient.searchBusinesses_path env pizza_search =
        "/api/v1/businesses/search?q=pizza&lat=40.7128&lng=-74.006&radius=5000&limit=20&offset=0" := by
      simp only [ApiClient.searchBusinesses_path, pizza_search, henv, classic_text_latitude,
        classic_text_longitude]
      decide
    have hwhole : c_str
        "/api/v1/businesses/search?q=pizza&lat=40.7128&lng=-74.006&radius=5000&limit=20&offset=0" =
        "/api/v1/businesses/search?q=pizza&lat=40.7128&lng=-74.006&radius=5000&limit=20&offset=0" := by
      decide
    simp only [DomainCall.request, hpath, hwhole]

/-- Witness of C13 amended: the search for "pizza" of the interface description,
on the client of `http://localhost:8080` in the classic locale. -/
theorem businesses_path_layout_witness :
    ∃ outcome : Event,
      localhost_client.call (Env.answering 200 "[]") (.searchBusinesses pizza_search)
          observe_success observe_error World.empty =
        .ok (localhost_client,
          { World.empty with
            trace := World.empty.trace ++
              [.request localhost_httplib
                { method := .GET
                  path := "/api/v1/businesses/search?q=pizza&lat=40.7128&lng=-74.006&radius=5000&limit=20&offset=0"
                  headers := [("Content-Type", "application/json")]
                  body := "", content_type := "" },
                outcome] }) :=
  (businesses_path_layout (Env.answering 200 "[]") localhost_client localhost_httplib
    pizza_search World.empty rfl).2.2.2 (funext classic_text_eq)

/-- **C14, as stated, fails.**  A product search whose radius is present and
whose location is absent issues a path with no `radius` parameter, although the
radius is a present optional parameter; a query text that carries its own
`&limit=` reaches the path verbatim, so that `limit` appears twice; and a query
that holds a NUL is requested up to that character only, so that `limit` and
`offset` do not appear. -/
theorem products_path_counterexample :
    localhost_client.call (Env.answering 200 "[]")
        (.searchProducts
          { query := "laptop", category := none, location := none,
            radius_meters := some 5000, min_price := none, max_price := none,
            limit := 20, offset := 0 })
        observe_success observe_error World.empty =
      .ok (localhost_client,
        { contexts := [], last_address := 0,
          trace := [.request localhost_httplib
              { method := .GET
                path := "/api/v1/products/search?q=laptop&limit=20&offset=0"
                headers := [("Content-Type", "application/json")]
                body := "", content_type := "" },
            .on_success (.product_list [])] }) ∧
    has_param "radius" "/api/v1/products/search?q=laptop&limit=20&offset=0" = false ∧
    localhost_client.call (Env.answering 200 "[]")
        (.searchProducts
          { query := "laptop&limit=1", category := none, location := none,
            radius_meters := none, min_price := none, max_price := none,
            limit := 20, offset := 0 })
        observe_success observe_error World.empty =
      .ok (localhost_client,
        { contexts := [], last_address := 0,
          trace := [.request localhost_httplib
              { method := .GET
                path := "/api/v1/products/search?q=laptop&limit=1&limit=20&offset=0"
                headers := [("Content-Type", "application/json")]
                body := "", content_type := "" },
            .on_success (.product_list [])] }) ∧
    param_names "/api/v1/products/search?q=laptop&limit=1&limit=20&offset=0" =
      ["q", "limit", "limit", "offset"] ∧
    localhost_client.call (Env.answering 200 "[]")
        (.searchProducts
          { query := "lap\x00top", category := none, location := none,
            radius_meters := none, min_price := none, max_price := none,
            limit := 20, offset := 0 })
        observe_success observe_error World.empty =
      .ok (localhost_client,
        { contexts := [], last_address := 0,
          trace := [.request localhost_httplib
              { method := .GET
                path := "/api/v1/products/search?q=lap"
                headers := [("Content-Type", "application/json")]
                body := "", content_type := "" },
            .on_success (.product_list [])] }) ∧
    param_names "/api/v1/products/search?q=lap" = ["q"] :=
  ⟨rfl, by decide, rfl, by decide, rfl, by decide⟩

/-- **C14, amended.**  For every `ProductSearchParams`, on a client that holds
its httplib client, `searchProducts` issues a GET whose path is the C string of
the text it writes: `/api/v1/products/search?q=` and the query, followed in
exactly this order by `lat` and `lng` when a location is present, `radius` when
a location and a radius are both present, `min_price`, `max_price` and
`category` when present, and then always `limit` and `offset`.  When the query
and the category hold no NUL the path is that text, whole; and when, moreover,
the query and category texts and the texts of numbers have no `&`, the
parameters of the path requested are exactly those, so that they follow the
order q, lat, lng, radius, min_price, max_price, category, limit, offset, none
appears twice and no other appears. -/
theorem products_path_layout (env : Env) (c : ApiClient) (k : HttplibClient)
    (params : ProductSearchParams) (w : World)
    (hk : c.http_client_.client_ = some k) :
    (∃ (headers : Headers) (outcome : Event),
      c.call env (.searchProducts params) observe_success observe_error w =
        .ok (c,
          { w with
            trace := w.trace ++
              [.request k
                { method := .GET
                  path := c_str (spec_products_path env params)
                  headers := headers
                  body := "", content_type := "" },
                outcome] })) ∧
    ('\x00' ∉ params.query.toList →
      (∀ cat, params.category = some cat → '\x00' ∉ cat.toList) →
      c_str (spec_products_path env params) = spec_products_path env params ∧
      ('&' ∉ params.query.toList →
        (∀ cat, params.category = some cat → '&' ∉ cat.toList) →
        (∀ d, '&' ∉ (env.ostream_double d).toList) →
        param_names (c_str (spec_products_path env params)) = spec_products_names params ∧
        (param_names (c_str (spec_products_path env params))).Sublist
          products_parameter_order ∧
        (param_names (c_str (spec_products_path env params))).Nodup)) := by
  constructor
  · obtain ⟨outcome, hrun⟩ := ApiClient.call_observed env c k hk (.searchProducts params) w
    refine ⟨((DomainCall.searchProducts params).request env c).headers, outcome, ?_⟩
    rw [hrun]
    simp only [DomainCall.request, searchProducts_path_eq_spec]
  · intro hq0 hc0
    have hwhole : c_str (spec_products_path env params) = spec_products_path env params := by
      rw [← searchProducts_path_eq_spec]
      exact c_str_of_no_nul _ (searchProducts_path_no_nul env params hq0 hc0)
    refine ⟨hwhole, ?_⟩
    intro hq hc henv
    rw [hwhole, ← searchProducts_path_eq_spec,
      searchProducts_names_clean env params hq hc henv]
    exact ⟨rfl, spec_products_names_ordered params⟩

/-- Witness of C14 amended: a product search for "laptop" around (40.7128,
-74.0060) with a maximum price of 0 has the parameters q, lat, lng, max_price,
limit, offset. -/
theorem products_path_layout_witness :
    param_names (c_str (spec_products_path (Env.answering 200 "[]")
        { query := "laptop", category := none
          location := some ⟨latitude_40_7128, longitude_neg_74_006⟩
          radius_meters := none, min_price := none, max_price := some Double.zero
          limit := 20, offset := 0 })) =
      ["q", "lat", "lng", "max_price", "limit", "offset"] :=
  (((products_path_layout (Env.answering 200 "[]") localhost_client localhost_httplib
    { query := "laptop", category := none
      location := some ⟨latitude_40_7128, longitude_neg_74_006⟩
      radius_meters := none, min_price := none, max_price := some Double.zero
      limit := 20, offset := 0 } World.empty rfl).2
    (by decide) (fun _ h => nomatch h)).2
    (by decide) (fun _ h => nomatch h) classic_text_no_amp).1


/-- **C15, as stated, fails.**  For the id made of `1`, a NUL and `x`, the
request `getBusinessById` issues is not for `/api/v1/businesses/` followed by
that id: httplib is handed `path.c_str()`, and the path requested is
`/api/v1/businesses/1`. -/
theorem fixed_path_counterexample :
    localhost_client.call (Env.answering 200 "[]") (.getBusinessById "1\x00x")
        observe_success observe_error World.empty =
      .ok (localhost_client,
        { contexts := [], last_address := 0,
          trace := [.request localhost_httplib
              { method := .GET, path := "/api/v1/businesses/1"
                headers := [("Content-Type", "application/json")]
                body := "", content_type := "" },
            .on_success (.business (from_json.parse_business "[]"))] }) ∧
    interface_table (.getBusinessById "1\x00x") = some (.GET, "/api/v1/businesses/1\x00x") ∧
    "/api/v1/businesses/1" ≠ "/api/v1/businesses/1\x00x" :=
  ⟨rfl, rfl, by decide⟩

/-- **C15, amended.**  For every operation that is not a search, with the method
and the path the interface table gives it (login POST /api/v1/auth/login,
register POST /api/v1/auth/register, logout POST /api/v1/auth/logout, get
profile GET /api/v1/auth/profile, get business GET /api/v1/businesses/ followed
by the id, get product GET /api/v1/products/ followed by the id, products of a
business GET /api/v1/products/business/ followed by the id, search history GET
/api/v1/search/history?limit= followed by the limit, recommendations GET
/api/v1/search/recommendations, clear history DELETE /api/v1/search/history):
on a client that holds its httplib client, the one request the call issues has
that method, and for a path the C string of that path, for every id string and
every limit.  That is the path of the table itself for the seven operations
without an id and for every id that holds no NUL; an id is written after its
prefix up to its first NUL. -/
theorem fixed_method_and_path (env : Env) (c : ApiClient) (k : HttplibClient)
    (op : DomainCall) (method : Method) (path : String) (w : World)
    (hk : c.http_client_.client_ = some k)
    (htable : interface_table op = some (method, path)) :
    (∃ (headers : Headers) (body content_type : String) (outcome : Event),
      c.call env op observe_success observe_error w =
        .ok (c,
          { w with
            trace := w.trace ++
              [.request k
                { method := method, path := c_str path, headers := headers, body := body
                  content_type := content_type },
                outcome] })) ∧
    ((∀ id, op.id_argument = some id → '\x00' ∉ id.toList) → c_str path = path) ∧
    (∀ id, op.id_argument = some id →
      ∃ before : String, path = before ++ id ∧ c_str path = before ++ c_str id) := by
  refine ⟨?_, ?_, ?_⟩
  · obtain ⟨outcome, hrun⟩ := ApiClient.call_observed env c k hk op w
    refine ⟨(op.request env c).headers, (op.request env c).body,
      (op.request env c).content_type, outcome, ?_⟩
    rw [hrun]
    cases op <;> simp [interface_table] at htable <;>
      (obtain ⟨rfl, rfl⟩ := htable
       simp only [DomainCall.request, c_str_fixed_paths, c_str_history_path])
  · intro hid
    cases op <;> simp [interface_table] at htable <;> obtain ⟨rfl, rfl⟩ := htable <;>
      first
      | exact c_str_history_path _
      | decide
      | exact c_str_of_no_nul _ (no_nul_append (by decide) (hid _ rfl))
  · intro id hid
    cases op <;> simp [interface_table] at htable <;> obtain ⟨rfl, rfl⟩ := htable <;>
      simp [DomainCall.id_argument] at hid <;> subst hid
    · exact ⟨_, rfl, c_str_append _ _ (by decide)⟩
    · exact ⟨_, rfl, c_str_append _ _ (by decide)⟩
    · exact ⟨_, rfl, c_str_append _ _ (by decide)⟩

/-- Witness of C15 amended: the business of id "42" is fetched by a GET of
`/api/v1/businesses/42`. -/
theorem fixed_method_and_path_witness :
    ∃ (headers : Headers) (body content_type : String) (outcome : Event),
      localhost_client.call (Env.answering 200 "[]") (.getBusinessById "42")
          observe_success observe_error World.empty =
        .ok (localhost_client,
          { World.empty with
            trace := World.empty.trace ++
              [.request localhost_httplib
                { method := .GET, path := "/api/v1/businesses/42", headers := headers
                  body := body, content_type := content_type },
                outcome] }) := by
  have h := fixed_method_and_path (Env.answering 200 "[]") localhost_client
    localhost_httplib (.getBusinessById "42") .GET "/api/v1/businesses/42" World.empty rfl rfl
  rw [h.2.1 (fun id hid => by cases hid; decide)] at h
  exact h.1

/-- **C16.**  For every token `t` held by a client that holds its httplib
client, and every operation, the headers of the one request the call issues are
such that: for the operations marked as requiring authentication (logout,
getProfile, getSearchHistory, getRecommendations, clearSearchHistory) the header
`Authorization` is `"Bearer " ++ t`, also when `t` is empty; for searchProducts
it is `"Bearer " ++ t` when `t` is not empty and there is no such header when
`t` is empty; for the others (login, registerUser, searchBusinesses,
getBusinessById, getProductById, getBusinessProducts) there is no such header. -/
theorem authorization_header_sent (env : Env) (c : ApiClient) (k : HttplibClient)
    (op : DomainCall) (w : World)
    (hk : c.http_client_.client_ = some k) :
    ∃ (request : Request) (outcome : Event),
      c.call env op observe_success observe_error w =
        .ok (c, { w with trace := w.trace ++ [.request k request, outcome] }) ∧
      (op.auth_mark = .required →
        request.headers.lookup "Authorization" = some ("Bearer " ++ c.auth_token_)) ∧
      (op.auth_mark = .when_token →
        request.headers.lookup "Authorization" =
          if c.auth_token_.isEmpty then none else some ("Bearer " ++ c.auth_token_)) ∧
      (op.auth_mark = .no → request.headers.lookup "Authorization" = none) := by
  obtain ⟨outcome, hrun⟩ := ApiClient.call_observed env c k hk op w
  refine ⟨op.request env c, outcome, hrun, ?_, ?_, ?_⟩
  · intro hmark
    cases op <;> simp [DomainCall.auth_mark] at hmark <;>
      simp +decide [DomainCall.request, List.lookup]
  · intro hmark
    cases op <;> simp [DomainCall.auth_mark] at hmark
    cases hte : c.auth_token_.isEmpty <;>
      simp +decide [DomainCall.request, List.lookup, hte]
  · intro hmark
    cases op <;> simp [DomainCall.auth_mark] at hmark <;>
      simp +decide [DomainCall.request, List.lookup]

/-- Witness of C16: a client that holds the token "abc" sends
`Authorization: Bearer abc` with getProfile. -/
theorem authorization_header_sent_witness :
    ∃ (request : Request) (outcome : Event),
      ApiClient.call (Env.answering 200 "[]")
          { localhost_client with auth_token_ := "abc" } .getProfile
          observe_success observe_error World.empty =
        .ok ({ localhost_client with auth_token_ := "abc" },
          { World.empty with trace := World.empty.trace ++ [.request localhost_httplib request,
              outcome] }) ∧
      request.headers.lookup "Authorization" = some "Bearer abc" := by
  obtain ⟨request, outcome, hrun, hrequired, _⟩ :=
    authorization_header_sent (Env.answering 200 "[]")
      { localhost_client with auth_token_ := "abc" } localhost_httplib .getProfile
      World.empty rfl
  exact ⟨request, outcome, hrun, hrequired rfl⟩


/-- **C17.**  For every username `u` and password `p`, on a client that holds
its httplib client, the body of the one request `login` issues (a POST of
`/api/v1/auth/login`) is exactly the text `{"username":"E(u)","password":"E(p)"}`
where `E` is `escape_json_string`: the two fields username and password, in that
order, and nothing else. -/
theorem login_body_text (env : Env) (c : ApiClient) (k : HttplibClient)
    (username password : String) (w : World)
    (hk : c.http_client_.client_ = some k) :
    ∃ (headers : Headers) (outcome : Event),
      c.call env (.login username password) observe_success observe_error w =
        .ok (c,
          { w with
            trace := w.trace ++
              [.request k
                { method := .POST, path := "/api/v1/auth/login", headers := headers
                  body := "\x7b\"username\":\"" ++ escape_json_string username
                    ++ "\",\"password\":\"" ++ escape_json_string password ++ "\"\x7d"
                  content_type := "application/json" },
                outcome] }) := by
  obtain ⟨outcome, hrun⟩ :=
    ApiClient.call_observed env c k hk (.login username password) w
  refine ⟨[("Content-Type", "application/json")], outcome, ?_⟩
  rw [hrun]
  simp only [DomainCall.request, login_request_text]

/-- Witness of C17: the login of "ana" with the password `p"w`. -/
theorem login_body_text_witness :
    ∃ (headers : Headers) (outcome : Event),
      localhost_client.call (Env.answering 200 "ok") (.login "ana" "p\"w")
          observe_success observe_error World.empty =
        .ok (localhost_client,
          { World.empty with
            trace := World.empty.trace ++
              [.request localhost_httplib
                { method := .POST, path := "/api/v1/auth/login", headers := headers
                  body := "\x7b\"username\":\"ana\",\"password\":\"p\\\"w\"\x7d"
                  content_type := "application/json" },
                outcome] }) :=
  login_body_text (Env.answering 200 "ok") localhost_client localhost_httplib "ana" "p\"w"
    World.empty rfl


/-- **C18.**  For every username and every password, whatever characters they
hold: reading the body of the login request back, undoing the escapes
`\"`, `\\`, `\b`, `\f`, `\n`, `\r`, `\t`, gives the two strings unchanged; the
undoing is a left inverse of `escape_json_string`, which is therefore
injective. -/
theorem login_round_trip (username password : String) :
    parse_login_request (to_json.login_request username password) =
      some (username, password) ∧
    unescape_json_string (escape_json_string password) = some password ∧
    unescape_json_string (escape_json_string username) = some username ∧
    Function.Injective escape_json_string :=
  ⟨parse_login_request_text username password, unescape_escape password,
    unescape_escape username, escape_json_string_injective⟩

/-- Witness of C18: a password with a quote, a backslash and a newline. -/
theorem login_round_trip_witness :
    to_json.login_request "ana" "p\"a\\s\ns" =
      "\x7b\"username\":\"ana\",\"password\":\"p\\\"a\\\\s\\ns\"\x7d" ∧
    parse_login_request "\x7b\"username\":\"ana\",\"password\":\"p\\\"a\\\\s\\ns\"\x7d" =
      some ("ana", "p\"a\\s\ns") :=
  ⟨by decide, (login_round_trip "ana" "p\"a\\s\ns").1⟩


/-- **C19.**  The escaping does leave a control character raw: the character of
code point 1 is below 0x20 and is none of `\b`, `\f`, `\n`, `\r`, `\t`, so
`escape_json_string` writes it as it is, and the body of the login request with
the password `a`, U+0001, `b` carries it raw between the quotes. -/
theorem control_character_written_raw :
    ('\x01').toNat < 0x20 ∧
    escape_json_string "a\x01b" = "a\x01b" ∧
    '\x01' ∈ (escape_json_string "a\x01b").toList ∧
    to_json.login_request "ana" "a\x01b" =
      "\x7b\"username\":\"ana\",\"password\":\"a\x01b\"\x7d" := by
  decide


/-- **C20, as stated, fails.**  A `RegisterRequest` whose phone is empty, the
only kind `bizmap_register` builds, gives a body with the four fields username,
email, password and full_name and no field phone: it is not the object with the
five fields. -/
theorem register_body_counterexample :
    localhost_client.call (Env.answering 200 "ok")
        (.registerUser ⟨"ana", "ana@example.com", "pw", "Ana", ""⟩)
        observe_success observe_error World.empty =
      .ok (localhost_client,
        { contexts := [], last_address := 0,
          trace := [.request localhost_httplib
              { method := .POST, path := "/api/v1/auth/register"
                headers := [("Content-Type", "application/json")]
                body := "\x7b\"username\":\"ana\",\"email\":\"ana@example.com\",\"password\":\"pw\",\"full_name\":\"Ana\"\x7d"
                content_type := "application/json" },
            .on_success .void] }) ∧
    spec_register_body ⟨"ana", "ana@example.com", "pw", "Ana", ""⟩ =
      "\x7b\"username\":\"ana\",\"email\":\"ana@example.com\",\"password\":\"pw\",\"full_name\":\"Ana\",\"phone\":\"\"\x7d" ∧
    to_json.register_request ⟨"ana", "ana@example.com", "pw", "Ana", ""⟩ ≠
      spec_register_body ⟨"ana", "ana@example.com", "pw", "Ana", ""⟩ ∧
    CCall.domain_call (.register (some "ana") (some "ana@example.com") (some "pw") (some "Ana")) =
      some (.registerUser ⟨"ana", "ana@example.com", "pw", "Ana", ""⟩) :=
  ⟨rfl, by decide, by decide, rfl⟩

/-- **C20, amended.**  For every `RegisterRequest`, on a client that holds its
httplib client, the body of the one request `registerUser` issues (a POST of
`/api/v1/auth/register`) is the object with the fields username, email, password
and full_name, in that order, each with the escaped value of the corresponding
field, followed by the field phone with the escaped phone when the phone is not
empty, and by nothing when it is empty; so that with a phone the body has
exactly the five fields of the struct. -/
theorem register_body_text (env : Env) (c : ApiClient) (k : HttplibClient)
    (req : RegisterRequest) (w : World)
    (hk : c.http_client_.client_ = some k) :
    (∃ (headers : Headers) (outcome : Event),
      c.call env (.registerUser req) observe_success observe_error w =
        .ok (c,
          { w with
            trace := w.trace ++
              [.request k
                { method := .POST, path := "/api/v1/auth/register", headers := headers
                  body := "\x7b\"username\":\"" ++ escape_json_string req.username
                    ++ "\",\"email\":\"" ++ escape_json_string req.email
                    ++ "\",\"password\":\"" ++ escape_json_string req.password
                    ++ "\",\"full_name\":\"" ++ escape_json_string req.full_name ++ "\""
                    ++ (if req.phone.isEmpty then ""
                        else ",\"phone\":\"" ++ escape_json_string req.phone ++ "\"")
                    ++ "\x7d"
                  content_type := "application/json" },
                outcome] })) ∧
    (req.phone.isEmpty = false → to_json.register_request req = spec_register_body req) := by
  constructor
  · obtain ⟨outcome, hrun⟩ := ApiClient.call_observed env c k hk (.registerUser req) w
    refine ⟨[("Content-Type", "application/json")], outcome, ?_⟩
    rw [hrun]
    simp only [DomainCall.request, register_request_text]
  · exact register_request_with_phone req

/-- Witness of C20 amended: the registration of "ana" with the phone "555". -/
theorem register_body_text_witness :
    to_json.register_request ⟨"ana", "ana@example.com", "pw", "Ana", "555"⟩ =
      spec_register_body ⟨"ana", "ana@example.com", "pw", "Ana", "555"⟩ ∧
    spec_register_body ⟨"ana", "ana@example.com", "pw", "Ana", "555"⟩ =
      "\x7b\"username\":\"ana\",\"email\":\"ana@example.com\",\"password\":\"pw\",\"full_name\":\"Ana\",\"phone\":\"555\"\x7d" :=
  ⟨(register_body_text (Env.answering 200 "ok") localhost_client localhost_httplib
      ⟨"ana", "ana@example.com", "pw", "Ana", "555"⟩ World.empty rfl).2 rfl,
    by decide⟩


/-- **C21.**  The login response is not read: for status 200 and the body
`{"access_token":"T","refresh_token":"R","token_type":"Bearer","expires_in":3600}`
the `onSuccess` of `login` runs once, and `onError` does not, but the
`AuthResponse` it receives has the access token `""`, the refresh token `""` and
`expires_in` 86400, as for every other body. -/
theorem login_response_not_parsed :
    localhost_client.call (Env.answering 200 login_response_body) (.login "u" "p")
        observe_success observe_error World.empty =
      .ok (localhost_client,
        { contexts := [], last_address := 0,
          trace := [.request localhost_httplib
              { method := .POST, path := "/api/v1/auth/login"
                headers := [("Content-Type", "application/json")]
                body := "\x7b\"username\":\"u\",\"password\":\"p\"\x7d"
                content_type := "application/json" },
            .on_success (.auth
              { access_token := "", refresh_token := "", token_type := "Bearer",
                expires_in := 86400 })] }) ∧
    (∀ body : String, from_json.parse_auth_response body =
      { access_token := "", refresh_token := "", token_type := "Bearer",
        expires_in := 86400 }) :=
  ⟨rfl, fun _ => rfl⟩


/-- **C22, as stated, fails.**  A client that holds the token "old" holds it
still after a login that completed through `onSuccess` on the response whose
access token is "T", and after a logout that completed through `onSuccess`: the
token is neither set nor cleared. -/
theorem token_set_by_login_counterexample :
    logged_client.getAuthToken = "old" ∧
    logged_client.call (Env.answering 200 login_response_body) (.login "u" "p")
        observe_success observe_error World.empty =
      .ok (logged_client,
        { contexts := [], last_address := 0,
          trace := [.request localhost_httplib
              ((DomainCall.login "u" "p").request (Env.answering 200 login_response_body)
                logged_client),
            .on_success (.auth
              { access_token := "", refresh_token := "", token_type := "Bearer",
                expires_in := 86400 })] }) ∧
    logged_client.call (Env.answering 200 "") .logout
        observe_success observe_error World.empty =
      .ok (logged_client,
        { contexts := [], last_address := 0,
          trace := [.request localhost_httplib
              (DomainCall.logout.request (Env.answering 200 "") logged_client),
            .on_success .void] }) :=
  ⟨rfl, rfl, rfl⟩

/-- **C22, amended.**  The token held by the Domain Client is changed by
`setAuthToken` and `clearAuthToken` only: on a client that holds its httplib
client, a login or a logout with callbacks that leave the client alone returns
the client it was made on, whatever the outcome, so the token stored after it is
the token stored before it; after `setAuthToken(t)` the token is `t` and after
`clearAuthToken()` it is empty. -/
theorem token_kept_by_login_and_logout (env : Env) (c : ApiClient) (k : HttplibClient)
    (username password token : String) (onSuccess : Callback Payload)
    (onError : Callback ApiError) (w : World)
    (hk : c.http_client_.client_ = some k) :
    (∃ r : Except Fault World,
      c.call env (.login username password) onSuccess onError w = with_client c r) ∧
    (∃ r : Except Fault World, c.call env .logout onSuccess onError w = with_client c r) ∧
    (∃ outcome : Event,
      c.call env (.login username password) observe_success observe_error w =
        .ok (c, { w with
          trace := w.trace ++
            [.request k ((DomainCall.login username password).request env c), outcome] })) ∧
    (∃ outcome : Event,
      c.call env .logout observe_success observe_error w =
        .ok (c, { w with
          trace := w.trace ++ [.request k (DomainCall.logout.request env c), outcome] })) ∧
    (c.setAuthToken token).getAuthToken = token ∧
    c.clearAuthToken.getAuthToken = "" :=
  ⟨ApiClient.call_keeps_client env c k hk _ onSuccess onError w,
    ApiClient.call_keeps_client env c k hk _ onSuccess onError w,
    ApiClient.call_observed env c k hk _ w,
    ApiClient.call_observed env c k hk _ w, rfl, rfl⟩

/-- Witness of C22 amended: the client that holds "old", a login answered with
200. -/
theorem token_kept_by_login_and_logout_witness :
    ∃ outcome : Event,
      logged_client.call (Env.answering 200 login_response_body) (.login "u" "p")
          observe_success observe_error World.empty =
        .ok (logged_client, { World.empty with
          trace := World.empty.trace ++
            [.request localhost_httplib
              ((DomainCall.login "u" "p").request (Env.answering 200 login_response_body)
                logged_client),
              outcome] }) :=
  (token_kept_by_login_and_logout (Env.answering 200 login_response_body) logged_client
    localhost_httplib "u" "p" "t" observe_success observe_error World.empty rfl).2.2.1


/-- **C23.**  Token management through the C interface is a plain update of the
client the handle points to: after `bizmap_set_auth_token(handle, t)` on a live
handle `getAuthToken` gives `t`, so that the last of two values set wins, and
nothing else of the client changes; after `bizmap_clear_auth_token(handle)` it
gives the empty string; a null token leaves the client as it was and a null
handle stays null, for both functions; and `bizmap_destroy_client` leaves a null
handle null.  The three functions take no callback and no user data. -/
theorem token_management_is_state_update (c : ApiClient) (t t' : String)
    (token : Option String) :
    (bizmap_set_auth_token (some c) (some t)).map ApiClient.getAuthToken = some t ∧
    bizmap_set_auth_token (some c) (some t) = some { c with auth_token_ := t } ∧
    (bizmap_set_auth_token (bizmap_set_auth_token (some c) (some t)) (some t')).map
      ApiClient.getAuthToken = some t' ∧
    (bizmap_clear_auth_token (some c)).map ApiClient.getAuthToken = some "" ∧
    bizmap_clear_auth_token (some c) = some { c with auth_token_ := "" } ∧
    (bizmap_clear_auth_token (bizmap_set_auth_token (some c) (some t))).map
      ApiClient.getAuthToken = some "" ∧
    bizmap_set_auth_token (some c) none = some c ∧
    bizmap_set_auth_token none token = none ∧
    bizmap_clear_auth_token none = none ∧
    bizmap_destroy_client none = none := by
  refine ⟨rfl, rfl, rfl, rfl, rfl, rfl, rfl, ?_, rfl, rfl⟩
  cases token <;> rfl

/-- Witness of C23: on the client of `http://localhost:8080`, "b" set after "a"
is the token held. -/
theorem token_management_is_state_update_witness :
    (bizmap_set_auth_token (bizmap_set_auth_token (some localhost_client) (some "a"))
      (some "b")).map ApiClient.getAuthToken = some "b" :=
  (token_management_is_state_update localhost_client "a" "b" none).2.2.1


/-- **C24.**  On the handle 0 the `JavaCallbackContext` is not released: for each
of `nativeLogin`, `nativeRegister`, `nativeSearchProducts` and
`nativeSearchBusinesses`, the call of the C interface returns at once on the
null handle without calling either closure, so after the entry point the context
it made is still live and so are the two global references to the host
callbacks, and nothing was deleted.  On the live handle of the client of
`http://localhost:8080` the context is deleted once and nothing of it is
left, whatever the outcome of the exchange. -/
theorem java_context_leaked_on_null_handle (env : Env) (returns_object : Bool)
    (call : JniCall) :
    jni_call env returns_object none call 11 12 Jvm.empty World.empty =
      .ok (none,
        { global_refs := [2, 1], local_refs := []
          java_contexts := [(1, { callback_success := 1, callback_error := 2 })]
          last_ref := 2, last_address := 1
          log := [.new_global_ref 1, .new_global_ref 2, .new_java_context 1] },
        World.empty) ∧
    ∃ (j' : Jvm) (w' : World),
      jni_call env returns_object (some localhost_client) call 11 12 Jvm.empty World.empty =
        .ok (some localhost_client, j', w') ∧
      j'.java_contexts = [] ∧ j'.global_refs = [] ∧
      j'.log.countP (JniEvent.is_delete_of 1) = 1 := by
  constructor
  · rw [jni_call_null]
    rfl
  · obtain ⟨op, hop⟩ := call.c_call_domain
    obtain ⟨j', w', added, hrun, h1, h2, _, h4, h5⟩ := jni_entry_live env localhost_client
      localhost_httplib rfl returns_object call.c_call op hop 11 12 (by decide) (by decide)
      Jvm.empty World.empty
    refine ⟨j', w', ?_, h1, h2, ?_⟩
    · rw [jni_call_eq, hrun]
    · rw [h4]
      simpa [Jvm.empty] using h5


/-- **C25.**  The closures leave a local reference: for each of the four
asynchronous entry points on the live handle of the client of
`http://localhost:8080`, whatever the outcome of the exchange, the closure that
runs deletes the local references it made itself, but not the one
`CallObjectMethod` returns for the object the host callback's `invoke` returned;
so after the closure there is one live local reference more than before it when
`invoke` returned an object, as every Kotlin function object does, and as many
when it returned null.  After `nativeLogin` answered with 200 the reference left
is the eighth made. -/
theorem local_reference_left_by_closure (env : Env) (returns_object : Bool)
    (call : JniCall) :
    (∃ (j' : Jvm) (w' : World),
      jni_call env returns_object (some localhost_client) call 11 12 Jvm.empty World.empty =
        .ok (some localhost_client, j', w') ∧
      j'.local_refs.length = Jvm.empty.local_refs.length + (if returns_object then 1 else 0)) ∧
    (nativeLogin (Env.answering 200 login_response_body) true (some localhost_client)
        "u" "p" 11 12 Jvm.empty World.empty).map (fun r => r.2.1.local_refs) = .ok [8] ∧
    (nativeLogin (Env.answering 200 login_response_body) false (some localhost_client)
        "u" "p" 11 12 Jvm.empty World.empty).map (fun r => r.2.1.local_refs) = .ok [] := by
  refine ⟨?_, rfl, rfl⟩
  obtain ⟨op, hop⟩ := call.c_call_domain
  obtain ⟨j', w', added, hrun, _, _, h3, _, _⟩ := jni_entry_live env localhost_client
    localhost_httplib rfl returns_object call.c_call op hop 11 12 (by decide) (by decide)
    Jvm.empty World.empty
  exact ⟨j', w', by rw [jni_call_eq, hrun], h3⟩


/-- **C26, as stated, fails.**  A business search with neither a location nor a
radius, whose query text carries its own `&radius=`, issues a path that contains
`&radius=`: the query is written verbatim. -/
theorem radius_in_path_counterexample :
    localhost_client.call (Env.answering 200 "[]")
        (.searchBusinesses
          { query := "pizza&radius=1", category := none, location := none,
            radius_meters := none, limit := 20, offset := 0 })
        observe_success observe_error World.empty =
      .ok (localhost_client,
        { contexts := [], last_address := 0,
          trace := [.request localhost_httplib
              { method := .GET
                path := "/api/v1/businesses/search?q=pizza&radius=1&limit=20&offset=0"
                headers := [("Content-Type", "application/json")]
                body := "", content_type := "" },
            .on_success (.business_list [])] }) ∧
    has_param "radius" "/api/v1/businesses/search?q=pizza&radius=1&limit=20&offset=0" = true :=
  ⟨rfl, by decide⟩

/-- **C26, amended.**  In `searchBusinesses` and `searchProducts` the radius is
written inside the location branch only: when a location and a radius are both
present the path has a `radius` parameter, for every query and category; when
the query and category texts and the texts of numbers have no `&`, the path has
a `radius` parameter exactly when both are present; hence
`bizmap_search_businesses` on a live handle with latitude and longitude zero and
`radius_meters = 5000` issues, for such texts, a path with no `radius`
parameter. -/
theorem radius_inside_location_branch (env : Env) (c : ApiClient) (k : HttplibClient)
    (businesses : BusinessSearchParams) (products : ProductSearchParams)
    (query category : Option String) (limit offset : Int)
    (on_success on_error user_data : Nat) (w : World)
    (hk : c.http_client_.client_ = some k) :
    (businesses.location.isSome = true ∧ businesses.radius_meters.isSome = true →
      has_param "radius" (ApiClient.searchBusinesses_path env businesses) = true) ∧
    (products.location.isSome = true ∧ products.radius_meters.isSome = true →
      has_param "radius" (ApiClient.searchProducts_path env products) = true) ∧
    ((∀ d, '&' ∉ (env.ostream_double d).toList) →
      ('&' ∉ businesses.query.toList →
        (∀ cat, businesses.category = some cat → '&' ∉ cat.toList) →
        has_param "radius" (ApiClient.searchBusinesses_path env businesses) =
          (businesses.location.isSome && businesses.radius_meters.isSome)) ∧
      ('&' ∉ products.query.toList →
        (∀ cat, products.category = some cat → '&' ∉ cat.toList) →
        has_param "radius" (ApiClient.searchProducts_path env products) =
          (products.location.isSome && products.radius_meters.isSome))) ∧
    ∃ (path : String) (fired : List Event),
      bizmap_call env (some c)
          (.search_businesses query Double.zero Double.zero 5000 category limit offset)
          on_success on_error user_data w =
        .ok (some c,
          { contexts := w.contexts
            last_address := w.last_address + 1
            trace := w.trace ++
              ([Event.new_context (w.last_address + 1),
                  Event.request k
                    { method := .GET, path := path
                      headers := [("Content-Type", "application/json")]
                      body := "", content_type := "" }] ++
                fired ++ [Event.delete_context (w.last_address + 1)]) }) ∧
      ((∀ q, query = some q → '&' ∉ q.toList) →
        (∀ cat, category = some cat → '&' ∉ cat.toList) →
        has_param "radius" path = false) := by
  refine ⟨searchBusinesses_has_radius env businesses,
    searchProducts_has_radius env products, ?_, ?_⟩
  · intro henv
    exact ⟨fun hq hc => searchBusinesses_radius_clean env businesses hq hc henv,
      fun hq hc => searchProducts_radius_clean env products hq hc henv⟩
  · obtain ⟨fired, hrun⟩ := bizmap_search_businesses_run env c k hk query Double.zero
      Double.zero 5000 category limit offset on_success on_error user_data w
    refine ⟨_, fired, hrun, ?_⟩
    intro hq hc
    have hloc : ¬(Double.zero.ne_zero || Double.zero.ne_zero) = true := by decide
    unfold has_param
    rw [business_search_names env query Double.zero Double.zero 5000 category limit offset
      hq hc (fun h => absurd h hloc)]
    have hz : Double.zero.ne_zero = false := by decide
    cases category <;> simp [hz]

/-- Witness of C26 amended: the search for "pizza" with latitude and longitude
zero and a radius of 5000 issues a path with no `radius` parameter. -/
theorem radius_inside_location_branch_witness :
    ∃ (path : String) (fired : List Event),
      bizmap_call (Env.answering 200 "[]") (some localhost_client)
          (.search_businesses (some "pizza") Double.zero Double.zero 5000 none 20 0)
          7 8 9 World.empty =
        .ok (some localhost_client,
          { contexts := [], last_address := 1,
            trace := [] ++
              ([Event.new_context 1,
                  Event.request localhost_httplib
                    { method := .GET, path := path
                      headers := [("Content-Type", "application/json")]
                      body := "", content_type := "" }] ++
                fired ++ [Event.delete_context 1]) }) ∧
      has_param "radius" path = false := by
  obtain ⟨path, fired, hrun, hclean⟩ :=
    (radius_inside_location_branch (Env.answering 200 "[]") localhost_client
      localhost_httplib pizza_search ProductSearchParams.default (some "pizza") none 20 0
      7 8 9 World.empty rfl).2.2.2
  exact ⟨path, fired, hrun, hclean (fun q h => by cases h; decide) (fun _ h => nomatch h)⟩


/-- **C27, as stated, fails.**  For the query made of `a`, a NUL and `b`, with
the default limit 20 and offset 0, the path `searchBusinesses` requests does not
end with `&limit=20&offset=0`: httplib is handed `path.c_str()`, and the path
requested is `/api/v1/businesses/search?q=a`, with no limit and no offset. -/
theorem limit_verbatim_counterexample :
    localhost_client.call (Env.answering 200 "[]")
        (.searchBusinesses { BusinessSearchParams.default with query := "a\x00b" })
        observe_success observe_error World.empty =
      .ok (localhost_client,
        { contexts := [], last_address := 0,
          trace := [.request localhost_httplib
              { method := .GET
                path := "/api/v1/businesses/search?q=a"
                headers := [("Content-Type", "application/json")]
                body := "", content_type := "" },
            .on_success (.business_list [])] }) ∧
    has_param "limit" "/api/v1/businesses/search?q=a" = false ∧
    has_param "offset" "/api/v1/businesses/search?q=a" = false :=
  ⟨rfl, by decide, by decide⟩

/-- **C27, amended.**  The Domain Client writes the limit and the offset as they
are: for every `BusinessSearchParams` and every `ProductSearchParams` the text
it writes for a path ends with `&limit=` and the text of the struct's limit,
then `&offset=` and the text of its offset, zero and negative values included;
on a client that holds its httplib client, the path of the one request is the C
string of that text, which is the whole text when the query and the category
hold no NUL; `getSearchHistory(limit)` requests `/api/v1/search/history?limit=`
and the text of `limit`; and 20 and 0 are the default member values of the two
structs. -/
theorem domain_client_writes_limit_verbatim (env : Env) (c : ApiClient) (k : HttplibClient)
    (businesses : BusinessSearchParams) (products : ProductSearchParams) (limit : Int)
    (w : World) (hk : c.http_client_.client_ = some k) :
    (∃ (head : String) (outcome : Event),
      ApiClient.searchBusinesses_path env businesses =
        head ++ "&limit=" ++ int_to_string businesses.limit
          ++ "&offset=" ++ int_to_string businesses.offset ∧
      c.call env (.searchBusinesses businesses) observe_success observe_error w =
        .ok (c,
          { w with
            trace := w.trace ++
              [.request k
                { method := .GET
                  path := c_str (head ++ "&limit=" ++ int_to_string businesses.limit
                    ++ "&offset=" ++ int_to_string businesses.offset)
                  headers := [("Content-Type", "application/json")]
                  body := "", content_type := "" },
                outcome] }) ∧
      ('\x00' ∉ businesses.query.toList →
        (∀ cat, businesses.category = some cat → '\x00' ∉ cat.toList) →
        c_str (head ++ "&limit=" ++ int_to_string businesses.limit
            ++ "&offset=" ++ int_to_string businesses.offset) =
          head ++ "&limit=" ++ int_to_string businesses.limit
            ++ "&offset=" ++ int_to_string businesses.offset)) ∧
    (∃ (head : String) (headers : Headers) (outcome : Event),
      ApiClient.searchProducts_path env products =
        head ++ "&limit=" ++ int_to_string products.limit
          ++ "&offset=" ++ int_to_string products.offset ∧
      c.call env (.searchProducts products) observe_success observe_error w =
        .ok (c,
          { w with
            trace := w.trace ++
              [.request k
                { method := .GET
                  path := c_str (head ++ "&limit=" ++ int_to_string products.limit
                    ++ "&offset=" ++ int_to_string products.offset)
                  headers := headers
                  body := "", content_type := "" },
                outcome] }) ∧
      ('\x00' ∉ products.query.toList →
        (∀ cat, products.category = some cat → '\x00' ∉ cat.toList) →
        c_str (head ++ "&limit=" ++ int_to_string products.limit
            ++ "&offset=" ++ int_to_string products.offset) =
          head ++ "&limit=" ++ int_to_string products.limit
            ++ "&offset=" ++ int_to_string products.offset)) ∧
    (∃ (headers : Headers) (outcome : Event),
      c.call env (.getSearchHistory limit) observe_success observe_error w =
        .ok (c,
          { w with
            trace := w.trace ++
              [.request k
                { method := .GET
                  path := "/api/v1/search/history?limit=" ++ int_to_string limit
                  headers := headers
                  body := "", content_type := "" },
                outcome] })) ∧
    BusinessSearchParams.default.limit = 20 ∧ BusinessSearchParams.default.offset = 0 ∧
    ProductSearchParams.default.limit = 20 ∧ ProductSearchParams.default.offset = 0 := by
  refine ⟨?_, ?_, ?_, rfl, rfl, rfl, rfl⟩
  · obtain ⟨outcome, hrun⟩ :=
      ApiClient.call_observed env c k hk (.searchBusinesses businesses) w
    obtain ⟨head, hpath⟩ := searchBusinesses_path_tail env businesses
    refine ⟨head, outcome, hpath, ?_, ?_⟩
    · rw [hrun]
      simp only [DomainCall.request, hpath]
    · intro hq hc
      rw [← hpath]
      exact c_str_of_no_nul _ (searchBusinesses_path_no_nul env businesses hq hc)
  · obtain ⟨outcome, hrun⟩ := ApiClient.call_observed env c k hk (.searchProducts products) w
    obtain ⟨head, hpath⟩ := searchProducts_path_tail env products
    refine ⟨head, ((DomainCall.searchProducts products).request env c).headers, outcome,
      hpath, ?_, ?_⟩
    · rw [hrun]
      simp only [DomainCall.request, hpath]
    · intro hq hc
      rw [← hpath]
      exact c_str_of_no_nul _ (searchProducts_path_no_nul env products hq hc)
  · obtain ⟨outcome, hrun⟩ := ApiClient.call_observed env c k hk (.getSearchHistory limit) w
    exact ⟨_, outcome, hrun⟩

/-- Witness of C27 amended: a business search with limit 0 and offset -3
requests `…&limit=0&offset=-3`. -/
theorem domain_client_writes_limit_verbatim_witness :
    ∃ (head : String) (outcome : Event),
      localhost_client.call (Env.answering 200 "[]")
          (.searchBusinesses { BusinessSearchParams.default with limit := 0, offset := -3 })
          observe_success observe_error World.empty =
        .ok (localhost_client,
          { World.empty with
            trace := World.empty.trace ++
              [.request localhost_httplib
                { method := .GET
                  path := head ++ "&limit=" ++ int_to_string 0
                    ++ "&offset=" ++ int_to_string (-3)
                  headers := [("Content-Type", "application/json")]
                  body := "", content_type := "" },
                outcome] }) := by
  obtain ⟨head, outcome, _, hrun, hwhole⟩ :=
    (domain_client_writes_limit_verbatim (Env.answering 200 "[]") localhost_client
      localhost_httplib { BusinessSearchParams.default with limit := 0, offset := -3 }
      ProductSearchParams.default 0 World.empty rfl).1
  rw [hwhole (by decide) (fun _ h => nomatch h)] at hrun
  exact ⟨head, outcome, hrun⟩

/-- **C28, as stated, fails.**  A category that holds a NUL does not reach the
request path byte for byte: for the query `a` and the category made of `b`, a
NUL and `c`, the text `searchBusinesses` writes has the whole category, but
httplib is handed `path.c_str()`, and the path requested is
`/api/v1/businesses/search?q=a&category=b`. -/
theorem verbatim_path_counterexample :
    ApiClient.searchBusinesses_path (Env.answering 200 "[]")
        { BusinessSearchParams.default with query := "a", category := some "b\x00c" } =
      "/api/v1/businesses/search?q=a&category=b\x00c&limit=20&offset=0" ∧
    localhost_client.call (Env.answering 200 "[]")
        (.searchBusinesses
          { BusinessSearchParams.default with query := "a", category := some "b\x00c" })
        observe_success observe_error World.empty =
      .ok (localhost_client,
        { contexts := [], last_address := 0,
          trace := [.request localhost_httplib
              { method := .GET
                path := "/api/v1/businesses/search?q=a&category=b"
                headers := [("Content-Type", "application/json")]
                body := "", content_type := "" },
            .on_success (.business_list [])] }) :=
  ⟨by decide, rfl⟩

/-- **C28, amended.**  Query, category and id strings are written into the path
byte for byte, with no percent-encoding: whatever the query is, the text
`searchBusinesses` and `searchProducts` write is the prefix, the query as it is,
and a rest that does not depend on the query; whatever the category is, it is
what precedes it, `&category=`, the category as it is, and a rest that does not
depend on it; and on a client that holds its httplib client, the request of an
operation that takes an id is for its prefix followed by the id up to its first
NUL, where the C string handed to httplib ends, hence by the id as it is when
it holds none.  So the path builder is not injective: the search for the query
`a&category=b` without a category and the search for the query `a` with the
category `b`, with the same limit and offset, are two distinct
`BusinessSearchParams` for which `searchBusinesses` writes the same path, and
issues the same request. -/
theorem path_builder_not_injective (env : Env) (c : ApiClient) (k : HttplibClient)
    (businesses : BusinessSearchParams) (products : ProductSearchParams) (id : String)
    (w : World) (hk : c.http_client_.client_ = some k) :
    (∃ rest : String, ∀ query : String,
      ApiClient.searchBusinesses_path env { businesses with query := query } =
        "/api/v1/businesses/search?q=" ++ query ++ rest) ∧
    (∃ rest : String, ∀ query : String,
      ApiClient.searchProducts_path env { products with query := query } =
        "/api/v1/products/search?q=" ++ query ++ rest) ∧
    (∃ before rest : String, ∀ category : String,
      ApiClient.searchBusinesses_path env { businesses with category := some category } =
        before ++ "&category=" ++ category ++ rest) ∧
    (∃ before rest : String, ∀ category : String,
      ApiClient.searchProducts_path env { products with category := some category } =
        before ++ "&category=" ++ category ++ rest) ∧
    (∃ outcome : Event,
      c.call env (.getBusinessById id) observe_success observe_error w =
        .ok (c,
          { w with
            trace := w.trace ++
              [.request k
                { method := .GET, path := "/api/v1/businesses/" ++ c_str id
                  headers := [("Content-Type", "application/json")]
                  body := "", content_type := "" },
                outcome] })) ∧
    (∃ outcome : Event,
      c.call env (.getProductById id) observe_success observe_error w =
        .ok (c,
          { w with
            trace := w.trace ++
              [.request k
                { method := .GET, path := "/api/v1/products/" ++ c_str id
                  headers := [("Content-Type", "application/json")]
                  body := "", content_type := "" },
                outcome] })) ∧
    (∃ outcome : Event,
      c.call env (.getBusinessProducts id) observe_success observe_error w =
        .ok (c,
          { w with
            trace := w.trace ++
              [.request k
                { method := .GET, path := "/api/v1/products/business/" ++ c_str id
                  headers := [("Content-Type", "application/json")]
                  body := "", content_type := "" },
                outcome] })) ∧
    ('\x00' ∉ id.toList → c_str id = id) ∧
    ({ BusinessSearchParams.default with query := "a&category=b" } : BusinessSearchParams) ≠
      { BusinessSearchParams.default with query := "a", category := some "b" } ∧
    ApiClient.searchBusinesses_path env
        { BusinessSearchParams.default with query := "a&category=b" } =
      "/api/v1/businesses/search?q=a&category=b&limit=20&offset=0" ∧
    ApiClient.searchBusinesses_path env
        { BusinessSearchParams.default with query := "a", category := some "b" } =
      "/api/v1/businesses/search?q=a&category=b&limit=20&offset=0" ∧
    ¬Function.Injective (ApiClient.searchBusinesses_path env) ∧
    (∃ first second : Event,
      c.call env (.searchBusinesses { BusinessSearchParams.default with query := "a&category=b" })
          observe_success observe_error w =
        .ok (c,
          { w with
            trace := w.trace ++
              [.request k
                { method := .GET
                  path := "/api/v1/businesses/search?q=a&category=b&limit=20&offset=0"
                  headers := [("Content-Type", "application/json")]
                  body := "", content_type := "" },
                first] }) ∧
      c.call env
          (.searchBusinesses
            { BusinessSearchParams.default with query := "a", category := some "b" })
          observe_success observe_error w =
        .ok (c,
          { w with
            trace := w.trace ++
              [.request k
                { method := .GET
                  path := "/api/v1/businesses/search?q=a&category=b&limit=20&offset=0"
                  headers := [("Content-Type", "application/json")]
                  body := "", content_type := "" },
                second] })) := by
  have h1 : ApiClient.searchBusinesses_path env
        { BusinessSearchParams.default with query := "a&category=b" } =
      "/api/v1/businesses/search?q=a&category=b&limit=20&offset=0" := by
    simp only [ApiClient.searchBusinesses_path, BusinessSearchParams.default]
    decide
  have h2 : ApiClient.searchBusinesses_path env
        { BusinessSearchParams.default with query := "a", category := some "b" } =
      "/api/v1/businesses/search?q=a&category=b&limit=20&offset=0" := by
    simp only [ApiClient.searchBusinesses_path, BusinessSearchParams.default]
    decide
  have hne : ({ BusinessSearchParams.default with query := "a&category=b" } :
      BusinessSearchParams) ≠
      { BusinessSearchParams.default with query := "a", category := some "b" } := by
    decide
  have hwhole : c_str "/api/v1/businesses/search?q=a&category=b&limit=20&offset=0" =
      "/api/v1/businesses/search?q=a&category=b&limit=20&offset=0" := by
    decide
  refine ⟨?_, ?_, ?_, ?_, ?_, ?_, ?_, c_str_of_no_nul id, hne, h1, h2, ?_, ?_⟩
  · refine ⟨when_present businesses.location (fun location =>
        "&lat=" ++ env.ostream_double location.latitude
          ++ "&lng=" ++ env.ostream_double location.longitude
          ++ when_present businesses.radius_meters (fun radius_meters =>
              "&radius=" ++ int_to_string radius_meters))
      ++ when_present businesses.category (fun category => "&category=" ++ category)
      ++ "&limit=" ++ int_to_string businesses.limit
      ++ "&offset=" ++ int_to_string businesses.offset, fun query => ?_⟩
    rw [searchBusinesses_path_eq_spec]
    simp only [spec_businesses_path, String.append_assoc]
  · refine ⟨when_present products.location (fun location =>
        "&lat=" ++ env.ostream_double location.latitude
          ++ "&lng=" ++ env.ostream_double location.longitude
          ++ when_present products.radius_meters (fun radius_meters =>
              "&radius=" ++ int_to_string radius_meters))
      ++ when_present products.min_price (fun min_price =>
          "&min_price=" ++ env.ostream_double min_price)
      ++ when_present products.max_price (fun max_price =>
          "&max_price=" ++ env.ostream_double max_price)
      ++ when_present products.category (fun category => "&category=" ++ category)
      ++ "&limit=" ++ int_to_string products.limit
      ++ "&offset=" ++ int_to_string products.offset, fun query => ?_⟩
    rw [searchProducts_path_eq_spec]
    simp only [spec_products_path, String.append_assoc]
  · refine ⟨"/api/v1/businesses/search?q=" ++ businesses.query
      ++ when_present businesses.location (fun location =>
        "&lat=" ++ env.ostream_double location.latitude
          ++ "&lng=" ++ env.ostream_double location.longitude
          ++ when_present businesses.radius_meters (fun radius_meters =>
              "&radius=" ++ int_to_string radius_meters)),
      "&limit=" ++ int_to_string businesses.limit
        ++ "&offset=" ++ int_to_string businesses.offset, fun category => ?_⟩
    rw [searchBusinesses_path_eq_spec]
    simp only [spec_businesses_path, when_present, String.append_assoc]
  · refine ⟨"/api/v1/products/search?q=" ++ products.query
      ++ when_present products.location (fun location =>
        "&lat=" ++ env.ostream_double location.latitude
          ++ "&lng=" ++ env.ostream_double location.longitude
          ++ when_present products.radius_meters (fun radius_meters =>
              "&radius=" ++ int_to_string radius_meters))
      ++ when_present products.min_price (fun min_price =>
          "&min_price=" ++ env.ostream_double min_price)
      ++ when_present products.max_price (fun max_price =>
          "&max_price=" ++ env.ostream_double max_price),
      "&limit=" ++ int_to_string products.limit
        ++ "&offset=" ++ int_to_string products.offset, fun category => ?_⟩
    rw [searchProducts_path_eq_spec]
    simp only [spec_products_path, when_present, String.append_assoc]
  · obtain ⟨outcome, hrun⟩ := ApiClient.call_observed env c k hk (.getBusinessById id) w
    refine ⟨outcome, ?_⟩
    rw [hrun]
    simp only [DomainCall.request]
    rw [c_str_append _ id (by decide)]
  · obtain ⟨outcome, hrun⟩ := ApiClient.call_observed env c k hk (.getProductById id) w
    refine ⟨outcome, ?_⟩
    rw [hrun]
    simp only [DomainCall.request]
    rw [c_str_append _ id (by decide)]
  · obtain ⟨outcome, hrun⟩ := ApiClient.call_observed env c k hk (.getBusinessProducts id) w
    refine ⟨outcome, ?_⟩
    rw [hrun]
    simp only [DomainCall.request]
    rw [c_str_append _ id (by decide)]
  · intro hinj
    exact hne (hinj (h1.trans h2.symm))
  · obtain ⟨first, hfirst⟩ := ApiClient.call_observed env c k hk
      (.searchBusinesses { BusinessSearchParams.default with query := "a&category=b" }) w
    obtain ⟨second, hsecond⟩ := ApiClient.call_observed env c k hk
      (.searchBusinesses
        { BusinessSearchParams.default with query := "a", category := some "b" }) w
    refine ⟨first, second, ?_, ?_⟩
    · rw [hfirst]
      simp only [DomainCall.request, h1, hwhole]
    · rw [hsecond]
      simp only [DomainCall.request, h2, hwhole]

/-- Witness of C28 amended: on the client of `http://localhost:8080`, the business of
id `1?x=y` is fetched by a GET of `/api/v1/businesses/1?x=y`. -/
theorem path_builder_not_injective_witness :
    ∃ outcome : Event,
      localhost_client.call (Env.answering 200 "[]") (.getBusinessById "1?x=y")
          observe_success observe_error World.empty =
        .ok (localhost_client,
          { World.empty with
            trace := World.empty.trace ++
              [.request localhost_httplib
                { method := .GET, path := "/api/v1/businesses/1?x=y"
                  headers := [("Content-Type", "application/json")]
                  body := "", content_type := "" },
                outcome] }) :=
  (path_builder_not_injective (Env.answering 200 "[]") localhost_client localhost_httplib
    BusinessSearchParams.default ProductSearchParams.default "1?x=y" World.empty
    rfl).2.2.2.2.1

/-- **C29, as stated, fails.**  The string `http://localhost:99999999999` has a
port that does not fit an `int`: `parseHost` yields nothing, `std::stoi` throws
`std::out_of_range`.  The string made of the scheme http, the host localhost,
the port 8080 and the rest `/` followed by a line feed is of the form, yet
`parseHost` yields the whole string as host and the port 80: the `.` of the
pattern does not match a line feed.  And on a build where the recursion of the
matcher exhausts the stack on texts of more than 50000 characters, the string
`http://h/` followed by 50000 letters is of the form, and `parseHost` yields
nothing for it. -/
theorem parseHost_counterexample :
    HttpClient.blank.parseHost Env.unreachable "http://localhost:99999999999" =
      .error .out_of_range ∧
    UrlMatch.of_the_form ⟨"http", "localhost", some "8080", "/\n"⟩ = true ∧
    (decimal_value "8080" : Int) ≤ INT_MAX ∧
    UrlMatch.text ⟨"http", "localhost", some "8080", "/\n"⟩ = "http://localhost:8080/\n" ∧
    HttpClient.blank.parseHost Env.unreachable "http://localhost:8080/\n" =
      .ok { HttpClient.blank with
        scheme_ := "http", host_ := "http://localhost:8080/\n", port_ := 80 } ∧
    UrlMatch.of_the_form ⟨"http", "h", none, "/" ++ String.mk (List.replicate 50000 'a')⟩ =
      true ∧
    UrlMatch.text ⟨"http", "h", none, "/" ++ String.mk (List.replicate 50000 'a')⟩ =
      long_url ∧
    HttpClient.blank.parseHost Env.shallow_stack long_url = .error .stack_overflow :=
  ⟨rfl, by decide, by decide, by decide, rfl, long_url_form.2.1, long_url_form.1,
    parseHost_overflow Env.shallow_stack HttpClient.blank long_url long_url_overflows⟩

/-- **C29, amended.**  For every string on which the pattern matcher returns,
as it does on every string of at most 256 characters: when the string is of the
form `scheme://host[:port][rest]` with scheme http or https, a non-empty host
free of `:` and `/`, a decimal port, and a rest that begins where the host or
the port ends and holds no line terminator, `parseHost` yields that scheme, that
host and, when the port fits an `int`, that port (`std::out_of_range` is thrown
when it does not), the port being 443 for https and 80 for http when absent, and
the rest is discarded; when the string is not of that form it yields the scheme
http, the whole string as host and the port 80.  For a string on which the
matcher exhausts the stack, nothing is yielded.  So `http://localhost:8080`
gives the host localhost and the port 8080, and `localhost:8080` gives the host
`localhost:8080` and the port 80. -/
theorem parseHost_reads_the_form (env : Env) (self : HttpClient) :
    (∀ u : UrlMatch, env.regex_returns u.text = true →
      u.of_the_form = true → u.rest_apart = true → u.one_line = true →
      self.parseHost env u.text =
        match u.port with
        | some port =>
          if (decimal_value port : Int) ≤ INT_MAX then
            .ok { self with
              scheme_ := u.scheme, host_ := u.host, port_ := decimal_value port }
          else .error .out_of_range
        | none =>
          .ok { self with
            scheme_ := u.scheme, host_ := u.host
            port_ := if u.scheme = "https" then 443 else 80 }) ∧
    (∀ s : String, env.regex_returns s = true →
      (∀ u : UrlMatch, u.of_the_form = true → u.rest_apart = true → u.one_line = true →
        u.text ≠ s) →
      self.parseHost env s = .ok { self with scheme_ := "http", host_ := s, port_ := 80 }) ∧
    (∀ s : String, s.length ≤ 256 → env.regex_returns s = true) ∧
    (∀ s : String, env.regex_returns s = false →
      self.parseHost env s = .error .stack_overflow) ∧
    self.parseHost env "http://localhost:8080" =
      .ok { self with scheme_ := "http", host_ := "localhost", port_ := 8080 } ∧
    self.parseHost env "localhost:8080" =
      .ok { self with scheme_ := "http", host_ := "localhost:8080", port_ := 80 } := by
  refine ⟨parseHost_of_form env self, parseHost_not_of_form env self,
    regex_returns_of_short env, parseHost_overflow env self, ?_, ?_⟩
  · have h := parseHost_of_form env self ⟨"http", "localhost", some "8080", ""⟩ rfl
      (by decide) (by decide) (by decide)
    have ht : UrlMatch.text ⟨"http", "localhost", some "8080", ""⟩ =
        "http://localhost:8080" := by decide
    have hv : decimal_value "8080" = 8080 := by decide
    rw [ht] at h
    rw [h]
    simp [hv, INT_MAX]
  · have hm : url_regex_match "localhost:8080" = none := by decide
    have hr : regex_match env "localhost:8080" = .ok none := by
      rw [regex_match_of_returns env "localhost:8080" rfl, hm]
    simp only [HttpClient.parseHost, hr]
    rfl

/-- Witness of C29 amended: what the constructor's `parseHost` makes of
`https://api.example.com/v1` and of `http://localhost:8080`. -/
theorem parseHost_reads_the_form_witness :
    HttpClient.blank.parseHost Env.unreachable "https://api.example.com/v1" =
      .ok { HttpClient.blank with
        scheme_ := "https", host_ := "api.example.com", port_ := 443 } ∧
    HttpClient.blank.parseHost Env.unreachable "http://localhost:8080" =
      .ok { HttpClient.blank with scheme_ := "http", host_ := "localhost", port_ := 8080 } :=
  ⟨(parseHost_reads_the_form Env.unreachable HttpClient.blank).1
      ⟨"https", "api.example.com", none, "/v1"⟩ rfl (by decide) (by decide) (by decide),
    (parseHost_reads_the_form Env.unreachable HttpClient.blank).2.2.2.2.1⟩

/-- **C30.**  For the eight entry points that deliver a structured result, on a
live handle with no required string missing and a non-null success callback: for
every response with a status in [200,300), whatever its body, the call into the
host is the success callback on the user data and a constant text, `[]` for
`bizmap_search_products`, `bizmap_search_businesses`,
`bizmap_get_business_products` and `bizmap_get_search_history`, and the empty
object for `bizmap_get_profile`, `bizmap_get_product`, `bizmap_get_business` and
`bizmap_get_recommendations`. -/
theorem structured_result_is_constant (env : Env) (c : ApiClient) (k : HttplibClient)
    (call : CCall) (op : DomainCall) (text : String) (status : Int) (body : String)
    (on_success on_error user_data : Nat) (w : World)
    (hk : c.http_client_.client_ = some k)
    (hplace : call.placeholder_json = some text)
    (hop : call.domain_call = some op)
    (hresp : env.exchange k (op.request env c) = .response status body)
    (hstatus : 200 ≤ status ∧ status < 300)
    (hfn : on_success ≠ 0) :
    bizmap_call env (some c) call on_success on_error user_data w =
      .ok (some c,
        { contexts := w.contexts
          last_address := w.last_address + 1
          trace := w.trace ++
            [Event.new_context (w.last_address + 1), Event.request k (op.request env c),
              Event.json_callback on_success user_data text,
              Event.delete_context (w.last_address + 1)] }) := by
  rw [bizmap_call_eq env c k hk call op hop, hresp]
  have hev : call.success_event on_success user_data body =
      Event.json_callback on_success user_data text := by
    cases call <;> simp [CCall.placeholder_json] at hplace <;> subst hplace <;> rfl
  simp [CCall.host_calls, hstatus, hfn, hev]

/-- Witness of C30: two product searches answered with 200 and different bodies
hand the same `[]` to the callback. -/
theorem structured_result_is_constant_witness :
    bizmap_call (Env.answering 200 "[1,2,3]") (some localhost_client)
        (.search_products (some "laptop") Double.zero Double.zero 0 Double.zero Double.zero
          none 20 0) 7 8 9 World.empty =
      .ok (some localhost_client,
        { contexts := [], last_address := 1,
          trace := [] ++
            [Event.new_context 1,
              Event.request localhost_httplib
                ((DomainCall.searchProducts (product_search_params "laptop" Double.zero
                  Double.zero 0 Double.zero Double.zero none 20 0)).request
                  (Env.answering 200 "[1,2,3]") localhost_client),
              Event.json_callback 7 9 "[]", Event.delete_context 1] }) :=
  structured_result_is_constant (Env.answering 200 "[1,2,3]") localhost_client
    localhost_httplib _ _ "[]" 200 "[1,2,3]" 7 8 9 World.empty rfl rfl rfl rfl (by decide)
    (by decide)


end BizMap
